import Mathlib

/-!
# RtspClient: the dynamic multi-branch pipeline orchestrator

A shallow embedding of `app/jni/songRTSPclient.c`.

* `CustomData` is the C struct of the same name. Pointer fields are `Option`s
  (`none` is `NULL`); an element is identified by its name, a pad or a native
  window by a numeric handle, an `elements` array by the list of its slots.
* `GstPipeline` is the state of the GStreamer bin behind `data->pipeline`
  that the C code manipulates: the elements added to the bin, the references
  taken with `gst_object_ref`, and the request pads obtained from the tee.
* `Framework` collects the results of the framework calls whose result the C
  code tests. Every operation takes one `Framework` value, so a sequence of
  calls is driven by one value per call.
* `CustomData.trace` is a ghost field: the stores to the branch state fields
  and the pad link / unlink / probe / user message calls, oldest first.
  Framework calls whose result is ignored and which touch no field of
  `CustomData` (state changes, `g_object_set`, logging) are not recorded.
-/

namespace RtspClient

/-! ## Constants -/

abbrev BRANCH_DISABLE : Nat := 0
abbrev BRANCH_ENABLE : Nat := 1
abbrev BRANCH_DISABLE_ING : Nat := 2
abbrev BRANCH_ENABLE_ING : Nat := 3

abbrev RESET_REQUEST_NULL : Nat := 0x00
abbrev RESET_REQUEST_DISPLAY : Nat := 0x01
abbrev RESET_REQUEST_PRTMP : Nat := 0x02
abbrev RESET_REQUEST_PRTSP : Nat := 0x04
abbrev RESET_REQUEST_PIPELINE : Nat := 0x07

abbrev WORKER_CMD : Nat := 0
abbrev WORKER_CMD_START_DISPLAY : Nat := 1
abbrev WORKER_CMD_STOP_DISPLAY : Nat := 2
abbrev WORKER_CMD_START_PUSH_RTSP : Nat := 3
abbrev WORKER_CMD_STOP_PUSH_RTSP : Nat := 4
abbrev WORKER_CMD_START_PUSH_RTMP : Nat := 5
abbrev WORKER_CMD_STOP_PUSH_RTMP : Nat := 6
abbrev WORKER_CMD_RESET_PIPELINE : Nat := 7

/-- An entry of an element vector: the factory name and the element name. -/
structure element_node where
  factoryname : String
  name : String
deriving DecidableEq

/-- The vector `fakesink_vector`, without its `{NULL, NULL}` terminator. -/
def fakesink_vector : List element_node :=
  [⟨"rtph264depay", "f0-rtph264depay"⟩, ⟨"h264parse", "f1-h264parse"⟩, ⟨"tee", "f2-tee"⟩,
   ⟨"queue", "f3-queue"⟩, ⟨"flvmux", "f4-flvmux"⟩, ⟨"fakesink", "f5-fakesink"⟩]

/-- The vector `display_vector`, without its `{NULL, NULL}` terminator. -/
def display_vector : List element_node :=
  [⟨"queue", "v0-queue"⟩, ⟨"h264parse", "v1-264parse"⟩,
   ⟨"amcviddec-omxarmvideov5xxdecoder", "v2-amcviddec"⟩, ⟨"queue", "v3-queue"⟩,
   ⟨"autovideosink", "v4-autovideosink"⟩]

/-- The vector `push_rtmp_vector`, without its `{NULL, NULL}` terminator. -/
def push_rtmp_vector : List element_node :=
  [⟨"queue", "prtmp0-queue"⟩, ⟨"flvmux", "prtmp1-flvmux"⟩, ⟨"rtmpsink", "prtmp2-rtmpsink"⟩]

/-- The vector `push_rtsp_vector`, without its `{NULL, NULL}` terminator. -/
def push_rtsp_vector : List element_node :=
  [⟨"queue", "prtsp0-queue"⟩, ⟨"rtspclientsink", "prtsp1-rtspclientsink"⟩]

/-- The value of `sizeof (vector) / sizeof (element_node)`: the entries and the terminator. -/
def vector_count (vector : List element_node) : Nat := vector.length + 1

abbrev FK_TEE : Nat := 2
abbrev DP_QUEUE0 : Nat := 0
abbrev PU_RTMP_QUEUE : Nat := 0
abbrev PU_RTSP_QUEUE : Nat := 0

/-! ## Data model -/

/-- Ghost record of the calls and stores that the claims talk about. -/
inductive Event where
  | display_enabled (v : Nat)
  | push_rtmp_enabled (v : Nat)
  | push_rtsp_enabled (v : Nat)
  | gst_pad_link (srcpad sinkpad : Option Nat)
  | gst_pad_unlink (srcpad sinkpad : Option Nat)
  | gst_pad_add_probe (pad : Option Nat)
  | set_usr_message (message : String)
  | gst_video_overlay_expose
deriving DecidableEq

/-- The bin behind `data->pipeline`, as far as this file manipulates it. -/
structure GstPipeline where
  children : List String
  refs : List String
  request_pads : List Nat
deriving DecidableEq

/-- The C struct `CustomData` (the fields used by the orchestrator). -/
structure CustomData where
  pipeline : Option GstPipeline
  pipeline_ref : Int
  rtspsrc : Option String
  rtspsrc_elements : Option (List (Option String))
  tee_sinkpad : Option Nat
  tee_srcpad_display : Option Nat
  tee_srcpad_push_rtmp : Option Nat
  tee_srcpad_push_rtsp : Option Nat
  tee_srcpad_recording : Option Nat
  rtspsrc_linked : Bool
  rtspsrc_url : Option String
  display_elements : Option (List (Option String))
  display_queue_sinkpad : Option Nat
  display_enabled : Nat
  display_requst : Bool
  native_window : Option Nat
  push_rtmp_elements : Option (List (Option String))
  push_rtmp_queue_sinkpad : Option Nat
  push_rtmp_enabled : Nat
  push_rtmp_request : Bool
  push_rtmp_url : Option String
  push_rtsp_elements : Option (List (Option String))
  push_rtsp_queue_sinkpad : Option Nat
  push_rtsp_enabled : Nat
  push_rtsp_request : Bool
  push_rtsp_url : Option String
  recording_enabled : Bool
  worker_cmd_queue : List Nat
  worker_run : Bool
  reset_request : Nat
  pipeline_restarting : Bool
  trace : List Event
deriving DecidableEq

/-- The results of the framework calls that the C code tests. -/
structure Framework where
  /-- Whether `gst_element_factory_make (_, name)` returns an element. -/
  gst_element_factory_make : String → Bool
  /-- Whether `g_malloc0` returns a non-NULL array. -/
  g_malloc0 : Bool
  /-- The pad returned by `gst_element_get_static_pad (element, "sink")`, by element name. -/
  gst_element_get_static_pad : String → Option Nat
  /-- The pad returned by the i-th `gst_element_get_request_pad (tee, "src_%u")` of a call. -/
  gst_element_get_request_pad : Nat → Option Nat
  /-- The result of `g_cond_wait_until`: TRUE when signalled before the deadline. -/
  g_cond_wait_until : Bool

/-! ## Framework primitives on the bin -/

def gst_bin_add (p : GstPipeline) (e : String) : GstPipeline :=
  { p with children := p.children ++ [e] }

def gst_bin_remove (p : GstPipeline) (e : String) : GstPipeline :=
  { p with children := p.children.erase e }

def gst_object_ref (p : GstPipeline) (e : String) : GstPipeline :=
  { p with refs := p.refs ++ [e] }

def gst_object_unref (p : GstPipeline) (e : String) : GstPipeline :=
  { p with refs := p.refs.erase e }

/-- Releasing a NULL pad is rejected by the framework and has no effect. -/
def gst_element_release_request_pad (p : GstPipeline) (pad : Option Nat) : GstPipeline :=
  match pad with
  | none => p
  | some x => { p with request_pads := p.request_pads.erase x }

/-! ## Element vectors -/

/-- The loop of `cleanup_elements`: `for (i = 0; (i < count) && (elements[i] != NULL); i++)`,
removing, releasing and clearing slot `i`. The list is the array from index `i` on and `count`
is what is left of the bound. -/
def cleanup_elements : Option GstPipeline → List (Option String) → Int →
    Option GstPipeline × List (Option String)
  | pipeline, [], _ => (pipeline, [])
  | pipeline, none :: rest, _ => (pipeline, none :: rest)
  | pipeline, some e :: rest, count =>
    if 0 < count then
      let r := cleanup_elements
        (pipeline.map fun p => gst_object_unref (gst_bin_remove p e) e) rest (count - 1)
      (r.1, none :: r.2)
    else (pipeline, some e :: rest)

/-- The loop of `setup_elements`; returns the index `i` at which the loop was left. -/
def setup_elements_loop (g : Framework) : List element_node → Nat → GstPipeline →
    List (Option String) → Nat × GstPipeline × List (Option String)
  | [], i, p, elements => (i, p, elements)
  | v :: vs, i, p, elements =>
    if g.gst_element_factory_make v.name then
      setup_elements_loop g vs (i + 1) (gst_bin_add (gst_object_ref p v.name) v.name)
        (elements.set i (some v.name))
    else (i, p, elements.set i none)

/-- The function `setup_elements (pipeline, elements, vector)`. -/
def setup_elements (g : Framework) (pipeline : GstPipeline) (elements : List (Option String))
    (vector : List element_node) : Bool × GstPipeline × List (Option String) :=
  let r := setup_elements_loop g vector 0 pipeline elements
  if r.1 = vector.length then (true, r.2.1, r.2.2)
  else
    let c := cleanup_elements (some r.2.1) r.2.2 ((r.1 : Int) - 1)
    (false, c.1.getD r.2.1, c.2)

/-- The array returned by `g_malloc0 (sizeof (GstElement *) * count)`. -/
def g_malloc0_elements (count : Nat) : List (Option String) := List.replicate count none

/-! ## The Shared Upstream Unit -/

/-- The loop `for (i = 0; i < 4; i++)` of `setup_rtspsrc_elements` that requests the tee source
pads; the first argument is the number of iterations left. Returns the pads obtained, in order:
their number is the index at which the loop was left. -/
def request_tee_srcpads (g : Framework) : Nat → Nat → GstPipeline → List Nat →
    GstPipeline × List Nat
  | 0, _, p, tee_srcpad => (p, tee_srcpad)
  | n + 1, i, p, tee_srcpad =>
    match g.gst_element_get_request_pad i with
    | none => (p, tee_srcpad)
    | some pad =>
      request_tee_srcpads g n (i + 1) { p with request_pads := p.request_pads ++ [pad] }
        (tee_srcpad ++ [pad])

/-- The loop `for (--i; i > 0; i--)` of `setup_rtspsrc_elements`, entered with the value of `i`
after the decrement: it releases `tee_srcpad[i]` down to `tee_srcpad[1]`. -/
def release_tee_srcpads (tee_srcpad : List Nat) : Nat → GstPipeline → GstPipeline
  | 0, p => p
  | i + 1, p =>
    release_tee_srcpads tee_srcpad i (gst_element_release_request_pad p (tee_srcpad.get? (i + 1)))

/-- The function `setup_rtspsrc_elements`. -/
def setup_rtspsrc_elements (g : Framework) (data : CustomData) : Bool × CustomData :=
  match data.pipeline with
  | none => (false, data)
  | some pipeline =>
    if !g.gst_element_factory_make "rtspsrc" then (false, data)
    else
      let count := vector_count fakesink_vector
      if !g.g_malloc0 then (false, data)
      else
        let r := setup_elements g pipeline (g_malloc0_elements count) fakesink_vector
        if !r.1 then (false, { data with pipeline := some r.2.1 })
        else
          let elements := r.2.2
          match g.gst_element_get_static_pad ((elements.getD FK_TEE none).getD "") with
          | none =>
            let c := cleanup_elements (some r.2.1) elements ((count : Int) - 1)
            (false, { data with pipeline := c.1 })
          | some tee_sinkpad =>
            let q := request_tee_srcpads g 4 0 r.2.1 []
            let tee_srcpad := q.2
            if tee_srcpad.length ≠ 4 then
              let p := release_tee_srcpads tee_srcpad (tee_srcpad.length - 1) q.1
              let c := cleanup_elements (some p) elements ((count : Int) - 1)
              (false, { data with pipeline := c.1 })
            else
              (true, { data with
                pipeline := some (gst_bin_add q.1 "rtspsrc")
                rtspsrc := some "rtspsrc"
                rtspsrc_elements := some elements
                tee_sinkpad := some tee_sinkpad
                tee_srcpad_display := tee_srcpad.get? 0
                tee_srcpad_push_rtmp := tee_srcpad.get? 1
                tee_srcpad_push_rtsp := tee_srcpad.get? 2
                tee_srcpad_recording := tee_srcpad.get? 3
                rtspsrc_linked := false })

/-- The function `cleanup_rtspsrc_elements`. It frees `rtspsrc_elements` without clearing the
pointer, so the field keeps its (cleaned) value. -/
def cleanup_rtspsrc_elements (data : CustomData) : CustomData :=
  match data.pipeline, data.rtspsrc with
  | some pipeline, some rtspsrc =>
    let p1 := gst_element_release_request_pad pipeline data.tee_srcpad_display
    let p2 := gst_element_release_request_pad p1 data.tee_srcpad_push_rtmp
    let p3 := gst_element_release_request_pad p2 data.tee_srcpad_push_rtsp
    let p4 := gst_element_release_request_pad p3 data.tee_srcpad_recording
    let count := vector_count fakesink_vector - 1
    let c := cleanup_elements (some p4) (data.rtspsrc_elements.getD []) count
    { data with
      pipeline := c.1.map fun p => gst_bin_remove p rtspsrc
      rtspsrc_elements := data.rtspsrc_elements.map fun _ => c.2
      tee_srcpad_display := none
      tee_srcpad_push_rtmp := none
      tee_srcpad_push_rtsp := none
      tee_srcpad_recording := none
      rtspsrc := none }
  | _, _ => data

/-! ## The branch subgraphs -/

/-- The common body of `setup_display_elements`, `setup_push_rtmp_elements` and
`setup_push_rtsp_elements` up to the stores into `data`: allocate the array, build the vector,
fetch the sink pad of the element at index `queue`. Returns the new bin and, on success, the
array and the pad. -/
def setup_branch_elements (g : Framework) (pipeline : GstPipeline) (vector : List element_node)
    (queue : Nat) : GstPipeline × Option (List (Option String) × Nat) :=
  let count := vector_count vector
  if !g.g_malloc0 then (pipeline, none)
  else
    let r := setup_elements g pipeline (g_malloc0_elements count) vector
    if !r.1 then (r.2.1, none)
    else
      match g.gst_element_get_static_pad ((r.2.2.getD queue none).getD "") with
      | none =>
        let c := cleanup_elements (some r.2.1) r.2.2 ((count : Int) - 1)
        (c.1.getD r.2.1, none)
      | some pad => (r.2.1, some (r.2.2, pad))

/-- The function `setup_display_elements`. -/
def setup_display_elements (g : Framework) (data : CustomData) : Bool × CustomData :=
  match data.pipeline with
  | none => (false, data)
  | some pipeline =>
    match setup_branch_elements g pipeline display_vector DP_QUEUE0 with
    | (p, none) => (false, { data with pipeline := some p })
    | (p, some (elements, display_queue_sinkpad)) =>
      (true, { data with
        pipeline := some p
        display_elements := some elements
        display_queue_sinkpad := some display_queue_sinkpad })

/-- The function `cleanup_display_elements`. -/
def cleanup_display_elements (data : CustomData) : CustomData :=
  match data.display_elements with
  | none => data
  | some elements =>
    let count := vector_count display_vector - 1
    let c := cleanup_elements data.pipeline elements count
    { data with pipeline := c.1, display_elements := none, display_queue_sinkpad := none }

/-- The function `setup_push_rtmp_elements`. -/
def setup_push_rtmp_elements (g : Framework) (data : CustomData) : Bool × CustomData :=
  match data.pipeline with
  | none => (false, data)
  | some pipeline =>
    match setup_branch_elements g pipeline push_rtmp_vector PU_RTMP_QUEUE with
    | (p, none) => (false, { data with pipeline := some p })
    | (p, some (elements, push_rtmp_queue_sinkpad)) =>
      (true, { data with
        pipeline := some p
        push_rtmp_queue_sinkpad := some push_rtmp_queue_sinkpad
        push_rtmp_elements := some elements })

/-- The function `cleanup_push_rtmp_elements`. -/
def cleanup_push_rtmp_elements (data : CustomData) : CustomData :=
  match data.push_rtmp_elements with
  | none => data
  | some elements =>
    let count := vector_count push_rtmp_vector - 1
    let c := cleanup_elements data.pipeline elements count
    { data with pipeline := c.1, push_rtmp_queue_sinkpad := none, push_rtmp_elements := none }

/-- The function `setup_push_rtsp_elements`. -/
def setup_push_rtsp_elements (g : Framework) (data : CustomData) : Bool × CustomData :=
  match data.pipeline with
  | none => (false, data)
  | some pipeline =>
    match setup_branch_elements g pipeline push_rtsp_vector PU_RTSP_QUEUE with
    | (p, none) => (false, { data with pipeline := some p })
    | (p, some (elements, push_rtsp_queue_sinkpad)) =>
      (true, { data with
        pipeline := some p
        push_rtsp_queue_sinkpad := some push_rtsp_queue_sinkpad
        push_rtsp_elements := some elements })

/-- The function `cleanup_push_rtsp_elements`; its `count` is the whole array, terminator
included. -/
def cleanup_push_rtsp_elements (data : CustomData) : CustomData :=
  match data.push_rtsp_elements with
  | none => data
  | some elements =>
    let count := vector_count push_rtsp_vector
    let c := cleanup_elements data.pipeline elements count
    { data with pipeline := c.1, push_rtsp_queue_sinkpad := none, push_rtsp_elements := none }

/-! ## Branch controllers

Each routine runs between `g_mutex_lock` and `g_mutex_unlock` of `mutex_branch`; the model is
the sequential effect of one completed call. `pipeline_ref` is a C `gint`; the model uses an
unbounded integer. -/

/-- The function `display_start`. -/
def display_start (g : Framework) (data : CustomData) : Bool × CustomData :=
  if data.native_window = none then (false, data)
  else if data.display_enabled ≠ BRANCH_DISABLE then (false, data)
  else if data.pipeline_restarting then (false, data)
  else
    let r := if data.pipeline_ref = 0 then setup_rtspsrc_elements g data else (true, data)
    if !r.1 then (false, r.2)
    else
      let s := setup_display_elements g r.2
      if !s.1 then (false, cleanup_rtspsrc_elements s.2)
      else
        let d := s.2
        (true, { d with
          display_enabled := BRANCH_ENABLE
          pipeline_ref := d.pipeline_ref + 1
          trace := d.trace ++ [Event.gst_pad_link d.tee_srcpad_display d.display_queue_sinkpad,
            Event.display_enabled BRANCH_ENABLE] })

/-- The function `display_stop`. -/
def display_stop (data : CustomData) : Bool × CustomData :=
  if data.display_enabled ≠ BRANCH_ENABLE then (false, data)
  else
    let d0 := { data with
      display_enabled := BRANCH_DISABLE_ING
      trace := data.trace ++ [Event.display_enabled BRANCH_DISABLE_ING,
        Event.gst_pad_unlink data.tee_srcpad_display data.display_queue_sinkpad] }
    let d1 := cleanup_display_elements d0
    let d2 := if d1.pipeline_ref = 1 then cleanup_rtspsrc_elements d1 else d1
    (true, { d2 with
      display_enabled := BRANCH_DISABLE
      pipeline_ref := d2.pipeline_ref - 1
      trace := d2.trace ++ [Event.display_enabled BRANCH_DISABLE] })

/-- The function `push_rtmp_start`. -/
def push_rtmp_start (g : Framework) (data : CustomData) : Bool × CustomData :=
  if data.push_rtmp_enabled ≠ BRANCH_DISABLE then (false, data)
  else if data.pipeline_restarting then (false, data)
  else
    let r := if data.pipeline_ref = 0 then setup_rtspsrc_elements g data else (true, data)
    if !r.1 then (false, r.2)
    else
      let s := setup_push_rtmp_elements g r.2
      if !s.1 then (false, cleanup_rtspsrc_elements s.2)
      else
        let d := s.2
        (true, { d with
          push_rtmp_enabled := BRANCH_ENABLE
          pipeline_ref := d.pipeline_ref + 1
          trace := d.trace ++ [Event.gst_pad_link d.tee_srcpad_push_rtmp d.push_rtmp_queue_sinkpad,
            Event.push_rtmp_enabled BRANCH_ENABLE] })

/-- The function `push_rtmp_stop`. -/
def push_rtmp_stop (data : CustomData) : Bool × CustomData :=
  if data.push_rtmp_enabled ≠ BRANCH_ENABLE then (false, data)
  else
    let d0 := { data with
      push_rtmp_enabled := BRANCH_DISABLE_ING
      trace := data.trace ++ [Event.push_rtmp_enabled BRANCH_DISABLE_ING,
        Event.gst_pad_unlink data.tee_srcpad_push_rtmp data.push_rtmp_queue_sinkpad] }
    let d1 := cleanup_push_rtmp_elements d0
    let d2 := if d1.pipeline_ref = 1 then cleanup_rtspsrc_elements d1 else d1
    (true, { d2 with
      push_rtmp_enabled := BRANCH_DISABLE
      pipeline_ref := d2.pipeline_ref - 1
      trace := d2.trace ++ [Event.push_rtmp_enabled BRANCH_DISABLE] })

/-- The function `push_rtsp_start`. -/
def push_rtsp_start (g : Framework) (data : CustomData) : Bool × CustomData :=
  if data.push_rtsp_enabled ≠ BRANCH_DISABLE then (false, data)
  else if data.pipeline_restarting then (false, data)
  else
    let r := if data.pipeline_ref = 0 then setup_rtspsrc_elements g data else (true, data)
    if !r.1 then (false, r.2)
    else
      let s := setup_push_rtsp_elements g r.2
      if !s.1 then (false, cleanup_rtspsrc_elements s.2)
      else
        let d := s.2
        (true, { d with
          push_rtsp_enabled := BRANCH_ENABLE
          pipeline_ref := d.pipeline_ref + 1
          trace := d.trace ++ [Event.gst_pad_link d.tee_srcpad_push_rtsp d.push_rtsp_queue_sinkpad,
            Event.push_rtsp_enabled BRANCH_ENABLE] })

/-- The function `push_rtsp_stop`. The idle probe `probe_push_rtsp_stop` runs on a streaming
thread and is not part of the call; `g.g_cond_wait_until` is the outcome of the bounded wait
for the end-of-stream signal. -/
def push_rtsp_stop (g : Framework) (data : CustomData) : Bool × CustomData :=
  if data.push_rtsp_enabled ≠ BRANCH_ENABLE then (false, data)
  else
    let d0 := { data with
      push_rtsp_enabled := BRANCH_DISABLE_ING
      trace := data.trace ++ [Event.push_rtsp_enabled BRANCH_DISABLE_ING,
        Event.gst_pad_add_probe data.tee_srcpad_push_rtsp] }
    let signal := g.g_cond_wait_until
    let d1 := if !signal then
        { d0 with trace := d0.trace ++
            [Event.gst_pad_unlink d0.tee_srcpad_push_rtsp d0.push_rtsp_queue_sinkpad] }
      else d0
    let d2 := if d1.pipeline_ref = 1 then
        cleanup_rtspsrc_elements (cleanup_push_rtsp_elements d1)
      else cleanup_push_rtsp_elements d1
    (true, { d2 with
      push_rtsp_enabled := BRANCH_DISABLE
      pipeline_ref := d2.pipeline_ref - 1
      trace := d2.trace ++ [Event.push_rtsp_enabled BRANCH_DISABLE] })

/-! ## Restart supervisor -/

/-- The function `notify_worker_update_pipeline`: push `&worke_cmd[cmd]`, recorded as the table
index `cmd`. -/
def notify_worker_update_pipeline (data : CustomData) (cmd : Nat) : CustomData :=
  { data with worker_cmd_queue := data.worker_cmd_queue ++ [cmd] }

/-- The function `launch_restart_process`. Both `data->reset_request` and the argument are
`guchar`: the stored result is reduced modulo 256. -/
def launch_restart_process (data : CustomData) (reset_request : Nat) : Bool × CustomData :=
  if data.reset_request &&& reset_request = reset_request then (false, data)
  else
    (true, notify_worker_update_pipeline
      { data with reset_request := (data.reset_request ||| reset_request) % 256 }
      WORKER_CMD_RESET_PIPELINE)

/-! ## Sequences of branch operations -/

/-- The six branch routines. -/
inductive BranchOp where
  | display_start
  | display_stop
  | push_rtmp_start
  | push_rtmp_stop
  | push_rtsp_start
  | push_rtsp_stop
deriving DecidableEq

/-- One completed call of a branch routine. -/
def BranchOp.run (op : BranchOp) (g : Framework) (data : CustomData) : Bool × CustomData :=
  match op with
  | .display_start => RtspClient.display_start g data
  | .display_stop => RtspClient.display_stop data
  | .push_rtmp_start => RtspClient.push_rtmp_start g data
  | .push_rtmp_stop => RtspClient.push_rtmp_stop data
  | .push_rtsp_start => RtspClient.push_rtsp_start g data
  | .push_rtsp_stop => RtspClient.push_rtsp_stop g data

/-- A finite sequence of completed calls, each with its own framework outcomes. -/
def run_ops : List (BranchOp × Framework) → CustomData → CustomData
  | [], data => data
  | (op, g) :: rest, data => run_ops rest (op.run g data).2

/-- The context as `app_function` and `setup_main_loop` leave it before the worker starts:
every branch disabled, nothing requested, `pipeline_ref = 0`, an empty pipeline. -/
def app_init : CustomData :=
  { pipeline := some { children := [], refs := [], request_pads := [] }
    pipeline_ref := 0
    rtspsrc := none
    rtspsrc_elements := none
    tee_sinkpad := none
    tee_srcpad_display := none
    tee_srcpad_push_rtmp := none
    tee_srcpad_push_rtsp := none
    tee_srcpad_recording := none
    rtspsrc_linked := false
    rtspsrc_url := none
    display_elements := none
    display_queue_sinkpad := none
    display_enabled := BRANCH_DISABLE
    display_requst := false
    native_window := none
    push_rtmp_elements := none
    push_rtmp_queue_sinkpad := none
    push_rtmp_enabled := BRANCH_DISABLE
    push_rtmp_request := false
    push_rtmp_url := none
    push_rtsp_elements := none
    push_rtsp_queue_sinkpad := none
    push_rtsp_enabled := BRANCH_DISABLE
    push_rtsp_request := false
    push_rtsp_url := none
    recording_enabled := false
    worker_cmd_queue := []
    worker_run := true
    reset_request := RESET_REQUEST_NULL
    pipeline_restarting := false
    trace := [] }

/-- Framework outcomes in which every call succeeds; the end-of-stream signal arrives. -/
def Framework.ok : Framework :=
  { gst_element_factory_make := fun _ => true
    g_malloc0 := true
    gst_element_get_static_pad := fun _ => some 100
    gst_element_get_request_pad := fun i => some (i + 1)
    g_cond_wait_until := true }

/-- Every framework call whose result is tested succeeds. -/
def Framework.all_succeed (g : Framework) : Prop :=
  (∀ name, g.gst_element_factory_make name = true) ∧ g.g_malloc0 = true ∧
  (∀ name, (g.gst_element_get_static_pad name).isSome = true) ∧
  (∀ i, (g.gst_element_get_request_pad i).isSome = true)

/-- Whether a branch state counts as holding the shared upstream: Enabled or Enabling. -/
def active (state : Nat) : Int :=
  if state = BRANCH_ENABLE ∨ state = BRANCH_ENABLE_ING then 1 else 0

/-- The invariant of the reference count: `pipeline_ref` is the number of branches whose state
is Enabled or Enabling. -/
def ref_counted (data : CustomData) : Prop :=
  data.pipeline_ref =
    active data.display_enabled + active data.push_rtmp_enabled + active data.push_rtsp_enabled

/-- The three branches that the worker drives: Display, PushB (push RTMP), PushA (push RTSP). -/
inductive Branch where
  | display
  | push_rtmp
  | push_rtsp
deriving DecidableEq

/-- The state field of a branch. -/
def Branch.enabled (b : Branch) (data : CustomData) : Nat :=
  match b with
  | .display => data.display_enabled
  | .push_rtmp => data.push_rtmp_enabled
  | .push_rtsp => data.push_rtsp_enabled

/-- The start routine of a branch. -/
def Branch.start (b : Branch) (g : Framework) (data : CustomData) : Bool × CustomData :=
  match b with
  | .display => display_start g data
  | .push_rtmp => push_rtmp_start g data
  | .push_rtsp => push_rtsp_start g data

/-- The stop routine of a branch. -/
def Branch.stop (b : Branch) (g : Framework) (data : CustomData) : Bool × CustomData :=
  match b with
  | .display => display_stop data
  | .push_rtmp => push_rtmp_stop data
  | .push_rtsp => push_rtsp_stop g data

/-- Whether the destination of a branch is set: `native_window` for Display, `push_rtmp_url`
for PushB, `push_rtsp_url` for PushA. -/
def Branch.target_configured (b : Branch) (data : CustomData) : Bool :=
  match b with
  | .display => data.native_window.isSome
  | .push_rtmp => data.push_rtmp_url.isSome
  | .push_rtsp => data.push_rtsp_url.isSome

/-- The initial context after the host has set the source URL and bound a surface. -/
def app_ready : CustomData :=
  { app_init with rtspsrc_url := some "rtsp://camera.example/stream", native_window := some 7 }

/-- Framework outcomes in which only the creation of the RTMP sink fails. -/
def Framework.no_rtmpsink : Framework :=
  { Framework.ok with gst_element_factory_make := fun name => name != "prtmp2-rtmpsink" }

/-- The context after a successful `display_start` from `app_ready`: Display is Enabled and
`pipeline_ref = 1`. -/
def display_playing : CustomData :=
  (display_start Framework.ok app_ready).2

/-- Play, push over RTMP, stop the display, push over RTSP with a failing sink pad, push over
RTSP, stop RTSP on a timeout, stop RTMP. -/
def sample_ops : List (BranchOp × Framework) :=
  [(.display_start, Framework.ok), (.push_rtmp_start, Framework.ok), (.display_stop, Framework.ok),
   (.push_rtsp_start, { Framework.ok with gst_element_get_static_pad := fun _ => none }),
   (.push_rtsp_start, Framework.ok),
   (.push_rtsp_stop, { Framework.ok with g_cond_wait_until := false }),
   (.push_rtmp_stop, Framework.ok)]

/-- The context `app_ready` in the middle of a restart. -/
def app_restarting : CustomData :=
  { app_ready with pipeline_restarting := true }

/-- The context with `push_rtmp_url` replaced. -/
def set_push_rtmp_url (data : CustomData) (url : Option String) : CustomData :=
  { data with push_rtmp_url := url }

/-- The context with `push_rtsp_url` replaced. -/
def set_push_rtsp_url (data : CustomData) (url : Option String) : CustomData :=
  { data with push_rtsp_url := url }

/-- The context `app_ready` after the host has set an RTMP push target. -/
def app_ready_push_target : CustomData :=
  set_push_rtmp_url app_ready (some "rtmp://example.org/live")

/-- The context `display_playing` after the host has set an RTMP push target. -/
def display_playing_push_target : CustomData :=
  set_push_rtmp_url display_playing (some "rtmp://example.org/live")

/-! ## Worker commands -/

/-- The C struct `_worker_cmd`. -/
structure _worker_cmd where
  index : Nat
  comment : String
deriving DecidableEq

/-- The table `worke_cmd`. -/
def worke_cmd : List _worker_cmd :=
  [⟨0, ""⟩, ⟨1, "start display"⟩, ⟨2, "stop display"⟩, ⟨3, "start push rtsp"⟩,
   ⟨4, "stop push rtsp"⟩, ⟨5, "start push rtmp"⟩, ⟨6, "stop push rtmp"⟩, ⟨7, "reset pipeline"⟩]

/-- The read `cmd->index` of a queued pointer `&worke_cmd[cmd]`. A position past the table has
no entry (the C read is out of bounds); the model keeps the position, which no case of the
worker's switch matches. -/
def cmd_index (cmd : Nat) : Nat :=
  match worke_cmd.get? cmd with
  | some c => c.index
  | none => cmd

/-! ## User messages -/

abbrev USR_MESSAGE_PUSH_RTMP_SHUTDOWN : String := "0: push rtmp branch shutdown"
abbrev USR_MESSAGE_PUSH_RTSP_SHUTDOWN : String := "1: push rtsp branch shutdown"
abbrev USR_MESSAGE_FETCH_EOS_RESTART : String := "3: fetch eos, pipline restart"
abbrev USR_MESSAGE_RTSP_SRC_ERR_RESTART : String := "4: rtsp src err, pipline restart "

/-- The function `set_usr_message`: the text handed to the host's `setMessage`. -/
def set_usr_message (message : String) (data : CustomData) : CustomData :=
  { data with trace := data.trace ++ [Event.set_usr_message message] }

/-! ## Adaptive restart delay -/

abbrev G_TIME_SPAN_MILLISECOND : Int := 1000
abbrev G_TIME_SPAN_SECOND : Int := 1000000

/-- The function-local statics `old` (gint64) and `count` (guint64) of
`reset_latency_calculation`; both start at 0. -/
structure ResetLatency where
  old : Int
  count : Nat
deriving DecidableEq

/-- The function `reset_latency_calculation`, with the value `new` of `g_get_monotonic_time`
as input. `count ++` is unsigned 64-bit arithmetic. Monotonic time is not negative and `old` is
0 or an earlier reading, so `new - old` does not overflow a gint64. -/
def reset_latency_calculation (new : Int) (s : ResetLatency) : Int × ResetLatency :=
  let count := if new - s.old < G_TIME_SPAN_SECOND then (s.count + 1) % 2 ^ 64 else 0
  let count := if count > 4 then 4 else count
  (G_TIME_SPAN_MILLISECOND * 500 * (if 1 < count then 1 else 0), { old := new, count := count })

/-! ## Signal bridge -/

/-- The type of the event seen by a pad probe, as far as `probe_eos_cb` tells them apart. -/
inductive GstEventType where
  | GST_EVENT_EOS
  | GST_EVENT_CAPS
  | GST_EVENT_SEGMENT
  | GST_EVENT_FLUSH_START
  | GST_EVENT_FLUSH_STOP
deriving DecidableEq

/-- The values of `GstPadProbeReturn` that the probes return. -/
inductive GstPadProbeReturn where
  | GST_PAD_PROBE_DROP
  | GST_PAD_PROBE_OK
  | GST_PAD_PROBE_REMOVE
deriving DecidableEq

/-- The function `probe_eos_cb`; `user_data` is the context pointer given to the probe. -/
def probe_eos_cb (pad : Option Nat) (event : GstEventType) (user_data : Option CustomData) :
    GstPadProbeReturn × Option CustomData :=
  if event ≠ GstEventType.GST_EVENT_EOS then (GstPadProbeReturn.GST_PAD_PROBE_OK, user_data)
  else
    match user_data with
    | none => (GstPadProbeReturn.GST_PAD_PROBE_OK, none)
    | some data =>
      if pad ≠ data.tee_sinkpad then (GstPadProbeReturn.GST_PAD_PROBE_OK, some data)
      else
        (GstPadProbeReturn.GST_PAD_PROBE_DROP,
          some (launch_restart_process (set_usr_message USR_MESSAGE_FETCH_EOS_RESTART data)
            RESET_REQUEST_PIPELINE).2)

/-- The tail of `message_error_cb` that is reached when no branch of the chain breaks:
raise the graph-level reason and tell the user when it was not pending yet. -/
def message_error_cb_restart (data : CustomData) : CustomData :=
  let r := launch_restart_process data RESET_REQUEST_PIPELINE
  if r.1 then set_usr_message USR_MESSAGE_RTSP_SRC_ERR_RESTART r.2 else r.2

/-- The function `message_error_cb`; `src` is `GST_OBJECT_NAME (msg->src)` and `message` is
`err->message`, compared with `g_strcmp0` (a NULL string differs from every text). -/
def message_error_cb (src message : Option String) (data : CustomData) : CustomData :=
  if src = some "prtmp2-rtmpsink" then
    if message = some "Could not open resource for writing." then
      notify_worker_update_pipeline (set_usr_message USR_MESSAGE_PUSH_RTMP_SHUTDOWN data)
        WORKER_CMD_STOP_PUSH_RTMP
    else message_error_cb_restart data
  else if src = some "prtsp1-rtspclientsink" then
    notify_worker_update_pipeline
      { set_usr_message USR_MESSAGE_PUSH_RTSP_SHUTDOWN data with push_rtsp_request := false }
      WORKER_CMD_STOP_PUSH_RTSP
  else if src = some "rtspsrc" then
    if data.pipeline_ref = 1 ∧ data.display_enabled = BRANCH_DISABLE_ING then
      if message = some "Unhandled error" ∨ message = some "Could not write to resource." then
        data
      else message_error_cb_restart data
    else message_error_cb_restart data
  else message_error_cb_restart data

/-- The function `message_element_cb`: it signals `push_rtsp_cond_eos` when the message is a
`GstBinForwarded` end-of-stream of the RTSP sink, and writes no field of the context. The
result tells whether `g_cond_signal` is called. -/
def message_element_cb (structure_name : String) (orig_src : Option String) (orig_is_eos : Bool)
    (data : CustomData) : Bool × CustomData :=
  if structure_name = "GstBinForwarded" then
    if orig_src = some "prtsp1-rtspclientsink" then
      if orig_is_eos then (true, data) else (false, data)
    else (false, data)
  else (false, data)

/-- The states of an element, `GST_STATE_*`. -/
inductive GstState where
  | GST_STATE_VOID_PENDING
  | GST_STATE_NULL
  | GST_STATE_READY
  | GST_STATE_PAUSED
  | GST_STATE_PLAYING
deriving DecidableEq

/-- The function `message_state_changed_cb`: it calls `check_media_size` when the pipeline
goes from paused to playing, and writes no field of the context. The result tells whether
`check_media_size` is called. -/
def message_state_changed_cb (src_is_pipeline : Bool) (old_state new_state : GstState)
    (data : CustomData) : Bool × CustomData :=
  if src_is_pipeline then
    if old_state = GstState.GST_STATE_PAUSED ∧ new_state = GstState.GST_STATE_PLAYING then
      (true, data)
    else (false, data)
  else (false, data)

/-! ## Host-facing entry points

The context pointer read with `GET_CUSTOM_DATA` is an `Option` where the C code tests it. -/

/-- The function `gst_native_play`. -/
def gst_native_play (data : Option CustomData) : Bool × Option CustomData :=
  match data with
  | none => (false, none)
  | some d =>
    if d.rtspsrc_url = none then (false, some d)
    else if d.native_window = none then (false, some d)
    else (true, some (notify_worker_update_pipeline d WORKER_CMD_START_DISPLAY))

/-- The function `gst_native_stop`. -/
def gst_native_stop (data : Option CustomData) : Option CustomData :=
  match data with
  | none => none
  | some d => some (notify_worker_update_pipeline d WORKER_CMD_STOP_DISPLAY)

/-- The function `display_update_native_surface`. -/
def display_update_native_surface (g : Framework) (data : CustomData)
    (native_window : Option Nat) : CustomData :=
  if !data.display_requst then { data with native_window := native_window }
  else if native_window = none then
    { (display_stop data).2 with native_window := native_window }
  else if data.display_enabled = BRANCH_ENABLE then
    if data.native_window = native_window then
      { data with trace := data.trace ++
          [Event.gst_video_overlay_expose, Event.gst_video_overlay_expose] }
    else
      let d := { (display_stop data).2 with native_window := native_window }
      if d.native_window ≠ none then (display_start g d).2 else d
  else
    let d := { data with native_window := native_window }
    if d.native_window ≠ none then (display_start g d).2 else d

/-- The function `gst_native_surface_init`; `new_native_window` is the result of
`ANativeWindow_fromSurface`. -/
def gst_native_surface_init (g : Framework) (data : Option CustomData)
    (new_native_window : Option Nat) : Option CustomData :=
  match data with
  | none => none
  | some d => some (display_update_native_surface g d new_native_window)

/-- The function `gst_native_surface_finalize`. -/
def gst_native_surface_finalize (g : Framework) (data : Option CustomData) :
    Option CustomData :=
  match data with
  | none => none
  | some d => some (display_update_native_surface g d none)

/-- The function `gst_native_recording`: always rejected. -/
def gst_native_recording (_enable : Bool) (_dir : Option String) (data : Option CustomData) :
    Bool × Option CustomData :=
  (false, data)

/-- The function `gst_native_set_rtsp_url`. -/
def gst_native_set_rtsp_url (media_url : Option String) (data : CustomData) : CustomData :=
  if data.rtspsrc_url = media_url then data else { data with rtspsrc_url := media_url }

/-- The function `gst_native_set_rtmp_url`. -/
def gst_native_set_rtmp_url (media_url : Option String) (data : CustomData) : CustomData :=
  if data.push_rtmp_url = media_url then data else { data with push_rtmp_url := media_url }

/-- The function `gst_native_push_stream`. The local `cmd` is not initialised: its
indeterminate starting value is the parameter `cmd`, which is what reaches
`notify_worker_update_pipeline` when the URL has neither prefix. -/
def gst_native_push_stream (cmd : Nat) (enable : Bool) (stream_url : Option String)
    (data : Option CustomData) : Bool × Option CustomData :=
  match data with
  | none => (false, none)
  | some d =>
    if d.pipeline = none then (false, some d)
    else if d.rtspsrc_url = none then (false, some d)
    else
      match stream_url with
      | none => (false, some d)
      | some url =>
        if String.isPrefixOf "rtmp" url then
          let d1 := if d.push_rtmp_url ≠ some url then { d with push_rtmp_url := some url } else d
          let cmd := if enable then WORKER_CMD_START_PUSH_RTMP else WORKER_CMD_STOP_PUSH_RTMP
          (true, some (notify_worker_update_pipeline d1 cmd))
        else if String.isPrefixOf "rtsp" url then
          let d1 := if d.push_rtsp_url ≠ some url then { d with push_rtsp_url := some url } else d
          let cmd := if enable then WORKER_CMD_START_PUSH_RTSP else WORKER_CMD_STOP_PUSH_RTSP
          (true, some (notify_worker_update_pipeline d1 cmd))
        else (true, some (notify_worker_update_pipeline d cmd))

/-! ## Command worker -/

/-- What another thread does to the context while the worker runs: the bus thread
(`message_error_cb`), a streaming thread (`probe_eos_cb`), a host thread (an enqueued command),
or `app_function` leaving its main loop (`worker_run = FALSE`, then the sentinel command). -/
inductive Arrival where
  | launch_restart_process (reset_request : Nat)
  | notify_worker_update_pipeline (cmd : Nat)
  | message_error_cb (src message : Option String)
  | probe_eos_cb (pad : Option Nat) (event : GstEventType)
  | app_shutdown
deriving DecidableEq

/-- The effect of one arrival; the argument of `launch_restart_process` is converted to
`guchar`. -/
def Arrival.apply (a : Arrival) (data : CustomData) : CustomData :=
  match a with
  | .launch_restart_process reset_request =>
    (RtspClient.launch_restart_process data (reset_request % 256)).2
  | .notify_worker_update_pipeline cmd => RtspClient.notify_worker_update_pipeline data cmd
  | .message_error_cb src message => RtspClient.message_error_cb src message data
  | .probe_eos_cb pad event => ((RtspClient.probe_eos_cb pad event (some data)).2).getD data
  | .app_shutdown =>
    RtspClient.notify_worker_update_pipeline { data with worker_run := false } WORKER_CMD

/-- A run of arrivals, in order. -/
def arrive : List Arrival → CustomData → CustomData
  | [], data => data
  | a :: rest, data => arrive rest (a.apply data)

/-- The environment of one pass of the loop in the ResetGraph handler: the framework outcomes
of the stop routines, the clock read by `reset_latency_calculation`, and what other threads do
while the stop routines run (`stops`), during the timed wait on the queue (`wait`), and after
it, before the next pass or the final stores (`after`). In a pass that leaves the loop at
`if (!reset_request) break;` there are no stops and no wait, and `after` is what happens
between that test and the final stores. -/
structure Pass where
  g : Framework
  now : Int
  stops : List Arrival
  wait : List Arrival
  after : List Arrival

/-- The worker thread: the context, its local `cmd` (the queued table position, `none` for
NULL) and the statics of `reset_latency_calculation`. -/
structure Worker where
  data : CustomData
  cmd : Option Nat
  latency : ResetLatency
deriving DecidableEq

/-- The calls `g_async_queue_try_pop` / `g_async_queue_timeout_pop` once the wait is over: the
head of the queue, or NULL when the queue is empty. -/
def g_async_queue_timeout_pop (data : CustomData) : Option Nat × CustomData :=
  match data.worker_cmd_queue with
  | [] => (none, data)
  | cmd :: rest => (some cmd, { data with worker_cmd_queue := rest })

/-- The stop routines that one pass of the ResetGraph handler invokes, in order:
`if (do_reset_request & RESET_REQUEST_DISPLAY) display_stop (data);` and so on. -/
def reset_request_stops (do_reset_request : Nat) : List Branch :=
  (if do_reset_request &&& RESET_REQUEST_DISPLAY ≠ 0 then [Branch.display] else []) ++
  (if do_reset_request &&& RESET_REQUEST_PRTMP ≠ 0 then [Branch.push_rtmp] else []) ++
  (if do_reset_request &&& RESET_REQUEST_PRTSP ≠ 0 then [Branch.push_rtsp] else [])

/-- Invoke stop routines in order; their results are ignored. -/
def run_stops (g : Framework) : List Branch → CustomData → CustomData
  | [], data => data
  | b :: rest, data => run_stops g rest (b.stop g data).2

/-- The `do { ... } while (cmd && cmd->index == WORKER_CMD_RESET_PIPELINE)` loop of the
ResetGraph handler. The second argument is the local `reset_request`; `~reset_request`
restricted to a `guchar` is `255 ^^^ reset_request`. Each pass of the loop takes one `Pass`;
the result is `none` when the passes run out before the loop is left. -/
def reset_pipeline_loop : List Pass → Nat → Worker → Option (Worker × List Pass)
  | [], _, _ => none
  | p :: rest, reset_request, w =>
    let do_reset_request := w.data.reset_request &&& (255 ^^^ reset_request)
    let reset_request := w.data.reset_request
    if reset_request = 0 then some ({ w with data := arrive p.after w.data }, rest)
    else
      let d1 := arrive p.stops (run_stops p.g (reset_request_stops do_reset_request) w.data)
      if !d1.worker_run then some ({ w with data := arrive p.after d1 }, rest)
      else
        let latency := (reset_latency_calculation p.now w.latency).2
        let r := g_async_queue_timeout_pop (arrive p.wait d1)
        let w2 : Worker := { data := arrive p.after r.2, cmd := r.1, latency := latency }
        if r.1.map cmd_index = some WORKER_CMD_RESET_PIPELINE then
          reset_pipeline_loop rest reset_request w2
        else some (w2, rest)

/-- The `case WORKER_CMD_RESET_PIPELINE:` of the worker's switch. -/
def reset_pipeline (passes : List Pass) (w : Worker) : Option (Worker × List Pass) :=
  match reset_pipeline_loop passes 0
      { w with data := { w.data with pipeline_restarting := true } } with
  | none => none
  | some (w2, rest) =>
    some ({ w2 with data := { w2.data with
      pipeline_restarting := false
      reset_request := RESET_REQUEST_NULL } }, rest)

/-- The `switch (cmd->index)` of `worker_function`, on the index read from the command. -/
def worker_switch (passes : List Pass) (w : Worker) (index : Nat) : Option (Worker × List Pass) :=
  if index = WORKER_CMD_START_DISPLAY then
    some ({ w with data := { w.data with display_requst := true }, cmd := none }, passes)
  else if index = WORKER_CMD_STOP_DISPLAY then
    some ({ w with data := { w.data with display_requst := false }, cmd := none }, passes)
  else if index = WORKER_CMD_START_PUSH_RTSP then
    some ({ w with data := { w.data with push_rtsp_request := true }, cmd := none }, passes)
  else if index = WORKER_CMD_STOP_PUSH_RTSP then
    some ({ w with data := { w.data with push_rtsp_request := false }, cmd := none }, passes)
  else if index = WORKER_CMD_START_PUSH_RTMP then
    some ({ w with data := { w.data with push_rtmp_request := true }, cmd := none }, passes)
  else if index = WORKER_CMD_STOP_PUSH_RTMP then
    some ({ w with data := { w.data with push_rtmp_request := false }, cmd := none }, passes)
  else if index = WORKER_CMD_RESET_PIPELINE then reset_pipeline passes w
  else some (w, passes)

/-- The reconciliation pass at the end of the worker's loop body, reached when `worker_run` is
still set after the switch; every call has its own framework outcomes. -/
def worker_reconcile (g : BranchOp → Framework) (data : CustomData) : CustomData :=
  let d1 := if !data.display_requst && data.display_enabled == BRANCH_ENABLE then
    (display_stop data).2 else data
  let d2 := if !d1.push_rtmp_request && d1.push_rtmp_enabled == BRANCH_ENABLE then
    (push_rtmp_stop d1).2 else d1
  let d3 := if !d2.push_rtsp_request && d2.push_rtsp_enabled == BRANCH_ENABLE then
    (push_rtsp_stop (g .push_rtsp_stop) d2).2 else d2
  let d4 := if d3.display_requst && d3.display_enabled == BRANCH_DISABLE then
    (display_start (g .display_start) d3).2 else d3
  let d5 := if d4.push_rtmp_request && d4.push_rtmp_enabled == BRANCH_DISABLE then
    (push_rtmp_start (g .push_rtmp_start) d4).2 else d4
  if d5.push_rtsp_request && d5.push_rtsp_enabled == BRANCH_DISABLE then
    (push_rtsp_start (g .push_rtsp_start) d5).2 else d5

/-- The three desired flags `display_requst`, `push_rtmp_request`, `push_rtsp_request`. -/
def desired_flags (data : CustomData) : Bool × Bool × Bool :=
  (data.display_requst, data.push_rtmp_request, data.push_rtsp_request)

/-- The number of arrivals in a list of passes. -/
def arrivals : List Pass → Nat
  | [] => 0
  | p :: rest => p.stops.length + p.wait.length + p.after.length + arrivals rest

/-- The reset bit of a branch. -/
def Branch.reset_request (b : Branch) : Nat :=
  match b with
  | .display => RESET_REQUEST_DISPLAY
  | .push_rtmp => RESET_REQUEST_PRTMP
  | .push_rtsp => RESET_REQUEST_PRTSP

/-- A pass in which no other thread does anything and the framework calls succeed. -/
def Pass.quiet : Pass :=
  { g := Framework.ok, now := 5000000, stops := [], wait := [], after := [] }

/-- No arrival of the pass is an error of the RTSP sink handled by `message_error_cb`. -/
def Pass.no_sink_error (p : Pass) : Prop :=
  ∀ a ∈ p.stops ++ p.wait ++ p.after, ∀ message : Option String,
    a ≠ Arrival.message_error_cb (some "prtsp1-rtspclientsink") message

/-- Every branch Disabled, no reference held, no upstream. -/
def all_released (data : CustomData) : Prop :=
  data.display_enabled = BRANCH_DISABLE ∧ data.push_rtmp_enabled = BRANCH_DISABLE ∧
    data.push_rtsp_enabled = BRANCH_DISABLE ∧ data.pipeline_ref = 0 ∧ data.rtspsrc = none

/-- A context in which Display plays and PushB is being stopped (`BRANCH_DISABLE_ING`). -/
def push_rtmp_disabling : CustomData :=
  { display_playing with push_rtmp_enabled := BRANCH_DISABLE_ING, pipeline_ref := 2 }

/-! ## The reconciliation pass, branch by branch, and sample workers -/

/-- The desired flag of a branch. -/
def Branch.requested (b : Branch) (data : CustomData) : Bool :=
  match b with
  | .display => data.display_requst
  | .push_rtmp => data.push_rtmp_request
  | .push_rtsp => data.push_rtsp_request

/-- What the start routines need besides a Disabled branch: the pipeline, no restart in
progress, and the three targets configured. -/
def reconcile_ready (data : CustomData) : Prop :=
  data.pipeline ≠ none ∧ data.pipeline_restarting = false ∧ data.native_window ≠ none ∧
    data.push_rtmp_url ≠ none ∧ data.push_rtsp_url ≠ none

/-- One stop line of the reconciliation pass:
`if (!request && (enabled == BRANCH_ENABLE)) stop (data);`. -/
def Branch.reconcile_stop (b : Branch) (g : Framework) (data : CustomData) : CustomData :=
  if !b.requested data && b.enabled data == BRANCH_ENABLE then (b.stop g data).2 else data

/-- One start line of the reconciliation pass:
`if (request && (enabled == BRANCH_DISABLE)) start (data);`. -/
def Branch.reconcile_start (b : Branch) (g : Framework) (data : CustomData) : CustomData :=
  if b.requested data && b.enabled data == BRANCH_DISABLE then (b.start g data).2 else data

/-- The worker taking the head of the queue into its local `cmd`:
`cmd = g_async_queue_pop (data->worker_cmd_queue)` on a queue that is not empty. -/
def worker_pop (data : CustomData) (latency : ResetLatency) : Worker :=
  { data := (g_async_queue_timeout_pop data).2, cmd := (g_async_queue_timeout_pop data).1,
    latency := latency }

/-- The context `app_ready` after the host has set both push targets. -/
def push_targets_ready : CustomData :=
  set_push_rtsp_url app_ready_push_target (some "rtsp://example.org/live")

/-- The context after the worker has taken StartDisplay, StartPushA and StartPushB and has
reconciled with every framework call succeeding: the three branches are Enabled and
`pipeline_ref = 3`. -/
def streaming : CustomData :=
  worker_reconcile (fun _ => Framework.ok)
    { push_targets_ready with
      display_requst := true, push_rtmp_request := true, push_rtsp_request := true }

/-- The worker on `streaming` after an end-of-stream reached `tee_sinkpad` and the worker has
dequeued the ResetGraph command. -/
def streaming_eos : Worker :=
  worker_pop
    ((probe_eos_cb streaming.tee_sinkpad GstEventType.GST_EVENT_EOS (some streaming)).2.getD
      streaming)
    { old := 0, count := 0 }

/-- The context that the ResetGraph handler leaves from `streaming_eos` when no other thread
interferes. -/
def streaming_reset : CustomData :=
  match reset_pipeline [Pass.quiet] streaming_eos with
  | some r => r.1.data
  | none => streaming_eos.data

/-! ## The stores to a branch's state field -/

/-- The value that an event stores in the state field of branch `b`, if it is such a store. -/
def Branch.state_write (b : Branch) (e : Event) : Option Nat :=
  match b, e with
  | .display, .display_enabled v => some v
  | .push_rtmp, .push_rtmp_enabled v => some v
  | .push_rtsp, .push_rtsp_enabled v => some v
  | _, _ => none

/-- The values stored in the state field of branch `b`, oldest first, as a trace records them. -/
def Branch.state_writes (b : Branch) (trace : List Event) : List Nat :=
  trace.filterMap b.state_write

/-- Framework outcomes in which every call succeeds except the creation of the element `name`. -/
def Framework.without (name : String) : Framework :=
  { Framework.ok with gst_element_factory_make := fun n => n != name }

/-- Framework outcomes in which the tee hands out `n` request pads (handles 1 to `n`) and the
next request fails. -/
def Framework.request_pads (n : Nat) : Framework :=
  { Framework.ok with gst_element_get_request_pad := fun i => if i < n then some (i + 1) else none }

/-- The vector `recording_vector`, without its `{NULL, NULL}` terminator. -/
def recording_vector : List element_node :=
  [⟨"queue", "r0-queue"⟩, ⟨"flvmux", "r2-flvmux"⟩, ⟨"filesink", "r3-filesink"⟩]

/-- The element vectors that `setup_elements` is called with. -/
def element_vectors : List (List element_node) :=
  [fakesink_vector, display_vector, push_rtmp_vector, push_rtsp_vector, recording_vector]

/-- The name of the entry `k` of a vector. -/
def element_name (vector : List element_node) (k : Nat) : String :=
  (vector.getD k ⟨"", ""⟩).name

/-- An empty bin. -/
def empty_pipeline : GstPipeline :=
  { children := [], refs := [], request_pads := [] }

/-! ## The worker's loop -/

/-- Where one turn of the `do { ... } while (data->worker_run)` loop of `worker_function` ends:
blocked in `g_async_queue_pop` on an empty queue, out of the loop (`return NULL`), inside the
ResetGraph handler when the passes given have run out, or at the end of the body with the loop
condition true. -/
inductive WorkerStep where
  | waiting (w : Worker)
  | returned (w : Worker)
  | handling
  | looping (w : Worker)
deriving DecidableEq

/-- One turn of the loop of `worker_function`: `while (!cmd) cmd = g_async_queue_pop (...)`,
the test of `worker_run`, the switch, the second test of `worker_run`, the reconciliation pass
and the loop condition. `g` holds the framework outcomes of the reconciliation pass; the passes
are those of the ResetGraph handler, and the ones not used are returned. -/
def worker_body (g : BranchOp → Framework) (passes : List Pass) (w : Worker) :
    WorkerStep × List Pass :=
  let r := match w.cmd with
    | some cmd => (some cmd, w.data)
    | none => g_async_queue_timeout_pop w.data
  match r.1 with
  | none => (WorkerStep.waiting w, passes)
  | some cmd =>
    let w1 : Worker := { w with data := r.2, cmd := some cmd }
    if !w1.data.worker_run then (WorkerStep.returned w1, passes)
    else
      match worker_switch passes w1 (cmd_index cmd) with
      | none => (WorkerStep.handling, [])
      | some (w2, rest) =>
        if !w2.data.worker_run then (WorkerStep.returned w2, rest)
        else
          let w3 : Worker := { w2 with data := worker_reconcile g w2.data }
          if w3.data.worker_run then (WorkerStep.looping w3, rest)
          else (WorkerStep.returned w3, rest)

/-- The function `worker_function`, run for as many turns of its loop as there are entries in
the first list (the framework outcomes of each turn's reconciliation pass); it stops earlier
when a turn does not end at the loop condition. -/
def worker_function : List (BranchOp → Framework) → List Pass → Worker → WorkerStep × List Pass
  | [], passes, w => (WorkerStep.looping w, passes)
  | g :: gs, passes, w =>
    match worker_body g passes w with
    | (WorkerStep.looping w2, rest) => worker_function gs rest w2
    | r => r

/-- The worker of a step, when there is one. -/
def WorkerStep.worker : WorkerStep → Option Worker
  | .waiting w => some w
  | .returned w => some w
  | .handling => none
  | .looping w => some w

/-- The translation of a command into the desired flags `(display, push RTMP, push RTSP)`, as
the specification words it: the start and stop commands set or clear the flag of their branch,
and the NoOp, ResetGraph and unknown commands change no flag. -/
def spec_translation (flags : Bool × Bool × Bool) (cmd : Nat) : Bool × Bool × Bool :=
  if cmd = WORKER_CMD_START_DISPLAY then (true, flags.2.1, flags.2.2)
  else if cmd = WORKER_CMD_STOP_DISPLAY then (false, flags.2.1, flags.2.2)
  else if cmd = WORKER_CMD_START_PUSH_RTSP then (flags.1, flags.2.1, true)
  else if cmd = WORKER_CMD_STOP_PUSH_RTSP then (flags.1, flags.2.1, false)
  else if cmd = WORKER_CMD_START_PUSH_RTMP then (flags.1, true, flags.2.2)
  else if cmd = WORKER_CMD_STOP_PUSH_RTMP then (flags.1, false, flags.2.2)
  else flags

/-- The commands that the worker still has to apply: the one it holds and the queue. -/
def Worker.pending (w : Worker) : List Nat :=
  w.cmd.toList ++ w.data.worker_cmd_queue

/-- No other thread does anything during the pass. -/
def Pass.silent (p : Pass) : Prop :=
  p.stops = [] ∧ p.wait = [] ∧ p.after = []

/-- The pass in which the reason `reset_request` is raised during the timed wait. -/
def Pass.raise_in_wait (g : Framework) (now : Int) (reset_request : Nat) : Pass :=
  { g := g, now := now, stops := [], wait := [Arrival.launch_restart_process reset_request],
    after := [] }

/-- The pass in which the reason `reset_request` is raised after the timed wait has returned
(or, when the loop is left at `if (!reset_request) break;`, after that test), before the
handler's final stores. -/
def Pass.raise_after_wait (g : Framework) (now : Int) (reset_request : Nat) : Pass :=
  { g := g, now := now, stops := [], wait := [],
    after := [Arrival.launch_restart_process reset_request] }

/-- The context after the stop routines of the first pass of the ResetGraph handler and what
other threads did meanwhile. -/
def first_pass_stops (p : Pass) (w : Worker) : CustomData :=
  arrive p.stops
    (run_stops p.g (reset_request_stops (w.data.reset_request &&& (255 ^^^ 0)))
      { w.data with pipeline_restarting := true })

/-- The worker on `streaming` after the reason of Display was raised, the host asked to stop
PushA, and the worker dequeued the ResetGraph command: `reset_request` is 0x01 and StopPushA is
at the head of the queue. -/
def display_reset_pending : Worker :=
  worker_pop
    (notify_worker_update_pipeline
      (launch_restart_process streaming RESET_REQUEST_DISPLAY).2 WORKER_CMD_STOP_PUSH_RTSP)
    { old := 0, count := 0 }

/-- The worker that `display_reset_pending` becomes when the reason of PushB is raised during
the handler's timed wait: it holds StopPushA, and the ResetGraph command of the second raise is
in the queue while `reset_request` is empty. -/
def reset_left_in_queue : Worker :=
  match reset_pipeline [Pass.raise_in_wait Framework.ok 5000000 RESET_REQUEST_PRTMP]
      display_reset_pending with
  | some r => r.1
  | none => display_reset_pending

/-- Framework outcomes for the reconciliation pass in which every call succeeds. -/
def reconcile_ok : BranchOp → Framework := fun _ => Framework.ok

/-- The worker that `reset_left_in_queue` becomes after the turn that applies StopPushA: it
holds no command, the ResetGraph command is at the head of the queue and `reset_request` is
empty. -/
def stop_push_rtsp_applied : Worker :=
  match (worker_body reconcile_ok [] reset_left_in_queue).1 with
  | WorkerStep.looping w => w
  | _ => reset_left_in_queue

/-! ## Sample workers for the ResetGraph handler and the worker's loop -/

/-- The worker on `streaming` that has dequeued a ResetGraph command while `reset_request` is
empty: the command is the one that `gst_native_push_stream` enqueues for a URL with neither
prefix when its local `cmd` starts as 7. -/
def reset_with_empty_mask : Worker :=
  worker_pop (notify_worker_update_pipeline streaming WORKER_CMD_RESET_PIPELINE)
    { old := 0, count := 0 }

/-- The pass in which an end-of-stream reaches `pad` after the handler has read
`reset_request` and before its final stores. -/
def Pass.eos_before_final_stores (pad : Option Nat) : Pass :=
  { g := Framework.ok, now := 5000000, stops := [], wait := [],
    after := [Arrival.probe_eos_cb pad GstEventType.GST_EVENT_EOS] }

/-- The worker on the context with both push targets set, holding no command, with the
worker's NoOp entry (index 0) queued in front of StartDisplay. -/
def noop_before_start_display : Worker :=
  { data := { push_targets_ready with
      worker_cmd_queue := [WORKER_CMD, WORKER_CMD_START_DISPLAY] }
    cmd := none
    latency := { old := 0, count := 0 } }

/-- The worker on `streaming`, holding no command, with `reset_request` empty and a ResetGraph
command queued in front of StopDisplay. -/
def reset_before_stop_display : Worker :=
  { data := { streaming with
      worker_cmd_queue := [WORKER_CMD_RESET_PIPELINE, WORKER_CMD_STOP_DISPLAY] }
    cmd := none
    latency := { old := 0, count := 0 } }

/-! ## Frame lemmas: what the graph routines leave alone -/

/-- The routine `setup_rtspsrc_elements` writes only the fields of the shared upstream. -/
@[simp] theorem setup_rtspsrc_elements_frame (g : Framework) (data : CustomData) :
    (setup_rtspsrc_elements g data).2.pipeline_ref = data.pipeline_ref ∧
    (setup_rtspsrc_elements g data).2.display_enabled = data.display_enabled ∧
    (setup_rtspsrc_elements g data).2.push_rtmp_enabled = data.push_rtmp_enabled ∧
    (setup_rtspsrc_elements g data).2.push_rtsp_enabled = data.push_rtsp_enabled ∧
    (setup_rtspsrc_elements g data).2.pipeline_restarting = data.pipeline_restarting ∧
    (setup_rtspsrc_elements g data).2.native_window = data.native_window ∧
    (setup_rtspsrc_elements g data).2.rtspsrc_url = data.rtspsrc_url ∧
    (setup_rtspsrc_elements g data).2.push_rtmp_url = data.push_rtmp_url ∧
    (setup_rtspsrc_elements g data).2.push_rtsp_url = data.push_rtsp_url ∧
    (setup_rtspsrc_elements g data).2.display_requst = data.display_requst ∧
    (setup_rtspsrc_elements g data).2.push_rtmp_request = data.push_rtmp_request ∧
    (setup_rtspsrc_elements g data).2.push_rtsp_request = data.push_rtsp_request ∧
    (setup_rtspsrc_elements g data).2.recording_enabled = data.recording_enabled ∧
    (setup_rtspsrc_elements g data).2.worker_cmd_queue = data.worker_cmd_queue ∧
    (setup_rtspsrc_elements g data).2.worker_run = data.worker_run ∧
    (setup_rtspsrc_elements g data).2.reset_request = data.reset_request ∧
    (setup_rtspsrc_elements g data).2.trace = data.trace ∧
    (setup_rtspsrc_elements g data).2.display_elements = data.display_elements ∧
    (setup_rtspsrc_elements g data).2.display_queue_sinkpad = data.display_queue_sinkpad ∧
    (setup_rtspsrc_elements g data).2.push_rtmp_elements = data.push_rtmp_elements ∧
    (setup_rtspsrc_elements g data).2.push_rtmp_queue_sinkpad = data.push_rtmp_queue_sinkpad ∧
    (setup_rtspsrc_elements g data).2.push_rtsp_elements = data.push_rtsp_elements ∧
    (setup_rtspsrc_elements g data).2.push_rtsp_queue_sinkpad = data.push_rtsp_queue_sinkpad := by
  simp only [setup_rtspsrc_elements]
  split
  · simp
  · split_ifs <;> try simp
    all_goals (split <;> simp)

/-- The routine `cleanup_rtspsrc_elements` writes only the fields of the shared upstream. -/
@[simp] theorem cleanup_rtspsrc_elements_frame (data : CustomData) :
    (cleanup_rtspsrc_elements data).pipeline_ref = data.pipeline_ref ∧
    (cleanup_rtspsrc_elements data).display_enabled = data.display_enabled ∧
    (cleanup_rtspsrc_elements data).push_rtmp_enabled = data.push_rtmp_enabled ∧
    (cleanup_rtspsrc_elements data).push_rtsp_enabled = data.push_rtsp_enabled ∧
    (cleanup_rtspsrc_elements data).pipeline_restarting = data.pipeline_restarting ∧
    (cleanup_rtspsrc_elements data).native_window = data.native_window ∧
    (cleanup_rtspsrc_elements data).rtspsrc_url = data.rtspsrc_url ∧
    (cleanup_rtspsrc_elements data).push_rtmp_url = data.push_rtmp_url ∧
    (cleanup_rtspsrc_elements data).push_rtsp_url = data.push_rtsp_url ∧
    (cleanup_rtspsrc_elements data).display_requst = data.display_requst ∧
    (cleanup_rtspsrc_elements data).push_rtmp_request = data.push_rtmp_request ∧
    (cleanup_rtspsrc_elements data).push_rtsp_request = data.push_rtsp_request ∧
    (cleanup_rtspsrc_elements data).recording_enabled = data.recording_enabled ∧
    (cleanup_rtspsrc_elements data).worker_cmd_queue = data.worker_cmd_queue ∧
    (cleanup_rtspsrc_elements data).worker_run = data.worker_run ∧
    (cleanup_rtspsrc_elements data).reset_request = data.reset_request ∧
    (cleanup_rtspsrc_elements data).trace = data.trace ∧
    (cleanup_rtspsrc_elements data).display_elements = data.display_elements ∧
    (cleanup_rtspsrc_elements data).display_queue_sinkpad = data.display_queue_sinkpad ∧
    (cleanup_rtspsrc_elements data).push_rtmp_elements = data.push_rtmp_elements ∧
    (cleanup_rtspsrc_elements data).push_rtmp_queue_sinkpad = data.push_rtmp_queue_sinkpad ∧
    (cleanup_rtspsrc_elements data).push_rtsp_elements = data.push_rtsp_elements ∧
    (cleanup_rtspsrc_elements data).push_rtsp_queue_sinkpad = data.push_rtsp_queue_sinkpad ∧
    (cleanup_rtspsrc_elements data).tee_sinkpad = data.tee_sinkpad ∧
    (cleanup_rtspsrc_elements data).rtspsrc_linked = data.rtspsrc_linked := by
  simp only [cleanup_rtspsrc_elements]
  split <;> try simp

/-- The routine `setup_display_elements` writes only the fields of the display subgraph. -/
@[simp] theorem setup_display_elements_frame (g : Framework) (data : CustomData) :
    (setup_display_elements g data).2.pipeline_ref = data.pipeline_ref ∧
    (setup_display_elements g data).2.display_enabled = data.display_enabled ∧
    (setup_display_elements g data).2.push_rtmp_enabled = data.push_rtmp_enabled ∧
    (setup_display_elements g data).2.push_rtsp_enabled = data.push_rtsp_enabled ∧
    (setup_display_elements g data).2.pipeline_restarting = data.pipeline_restarting ∧
    (setup_display_elements g data).2.native_window = data.native_window ∧
    (setup_display_elements g data).2.rtspsrc_url = data.rtspsrc_url ∧
    (setup_display_elements g data).2.push_rtmp_url = data.push_rtmp_url ∧
    (setup_display_elements g data).2.push_rtsp_url = data.push_rtsp_url ∧
    (setup_display_elements g data).2.display_requst = data.display_requst ∧
    (setup_display_elements g data).2.push_rtmp_request = data.push_rtmp_request ∧
    (setup_display_elements g data).2.push_rtsp_request = data.push_rtsp_request ∧
    (setup_display_elements g data).2.recording_enabled = data.recording_enabled ∧
    (setup_display_elements g data).2.worker_cmd_queue = data.worker_cmd_queue ∧
    (setup_display_elements g data).2.worker_run = data.worker_run ∧
    (setup_display_elements g data).2.reset_request = data.reset_request ∧
    (setup_display_elements g data).2.trace = data.trace ∧
    (setup_display_elements g data).2.rtspsrc = data.rtspsrc ∧
    (setup_display_elements g data).2.rtspsrc_elements = data.rtspsrc_elements ∧
    (setup_display_elements g data).2.tee_sinkpad = data.tee_sinkpad ∧
    (setup_display_elements g data).2.tee_srcpad_display = data.tee_srcpad_display ∧
    (setup_display_elements g data).2.tee_srcpad_push_rtmp = data.tee_srcpad_push_rtmp ∧
    (setup_display_elements g data).2.tee_srcpad_push_rtsp = data.tee_srcpad_push_rtsp ∧
    (setup_display_elements g data).2.tee_srcpad_recording = data.tee_srcpad_recording ∧
    (setup_display_elements g data).2.rtspsrc_linked = data.rtspsrc_linked ∧
    (setup_display_elements g data).2.push_rtmp_elements = data.push_rtmp_elements ∧
    (setup_display_elements g data).2.push_rtmp_queue_sinkpad = data.push_rtmp_queue_sinkpad ∧
    (setup_display_elements g data).2.push_rtsp_elements = data.push_rtsp_elements ∧
    (setup_display_elements g data).2.push_rtsp_queue_sinkpad = data.push_rtsp_queue_sinkpad := by
  simp only [setup_display_elements]
  split <;> try simp
  split <;> simp

/-- The routine `cleanup_display_elements` writes only the fields of the display subgraph. -/
@[simp] theorem cleanup_display_elements_frame (data : CustomData) :
    (cleanup_display_elements data).pipeline_ref = data.pipeline_ref ∧
    (cleanup_display_elements data).display_enabled = data.display_enabled ∧
    (cleanup_display_elements data).push_rtmp_enabled = data.push_rtmp_enabled ∧
    (cleanup_display_elements data).push_rtsp_enabled = data.push_rtsp_enabled ∧
    (cleanup_display_elements data).pipeline_restarting = data.pipeline_restarting ∧
    (cleanup_display_elements data).native_window = data.native_window ∧
    (cleanup_display_elements data).rtspsrc_url = data.rtspsrc_url ∧
    (cleanup_display_elements data).push_rtmp_url = data.push_rtmp_url ∧
    (cleanup_display_elements data).push_rtsp_url = data.push_rtsp_url ∧
    (cleanup_display_elements data).display_requst = data.display_requst ∧
    (cleanup_display_elements data).push_rtmp_request = data.push_rtmp_request ∧
    (cleanup_display_elements data).push_rtsp_request = data.push_rtsp_request ∧
    (cleanup_display_elements data).recording_enabled = data.recording_enabled ∧
    (cleanup_display_elements data).worker_cmd_queue = data.worker_cmd_queue ∧
    (cleanup_display_elements data).worker_run = data.worker_run ∧
    (cleanup_display_elements data).reset_request = data.reset_request ∧
    (cleanup_display_elements data).trace = data.trace ∧
    (cleanup_display_elements data).rtspsrc = data.rtspsrc ∧
    (cleanup_display_elements data).rtspsrc_elements = data.rtspsrc_elements ∧
    (cleanup_display_elements data).tee_sinkpad = data.tee_sinkpad ∧
    (cleanup_display_elements data).tee_srcpad_display = data.tee_srcpad_display ∧
    (cleanup_display_elements data).tee_srcpad_push_rtmp = data.tee_srcpad_push_rtmp ∧
    (cleanup_display_elements data).tee_srcpad_push_rtsp = data.tee_srcpad_push_rtsp ∧
    (cleanup_display_elements data).tee_srcpad_recording = data.tee_srcpad_recording ∧
    (cleanup_display_elements data).rtspsrc_linked = data.rtspsrc_linked ∧
    (cleanup_display_elements data).push_rtmp_elements = data.push_rtmp_elements ∧
    (cleanup_display_elements data).push_rtmp_queue_sinkpad = data.push_rtmp_queue_sinkpad ∧
    (cleanup_display_elements data).push_rtsp_elements = data.push_rtsp_elements ∧
    (cleanup_display_elements data).push_rtsp_queue_sinkpad = data.push_rtsp_queue_sinkpad := by
  simp only [cleanup_display_elements]
  split <;> try simp

/-- The routine `setup_push_rtmp_elements` writes only the fields of the push RTMP subgraph. -/
@[simp] theorem setup_push_rtmp_elements_frame (g : Framework) (data : CustomData) :
    (setup_push_rtmp_elements g data).2.pipeline_ref = data.pipeline_ref ∧
    (setup_push_rtmp_elements g data).2.display_enabled = data.display_enabled ∧
    (setup_push_rtmp_elements g data).2.push_rtmp_enabled = data.push_rtmp_enabled ∧
    (setup_push_rtmp_elements g data).2.push_rtsp_enabled = data.push_rtsp_enabled ∧
    (setup_push_rtmp_elements g data).2.pipeline_restarting = data.pipeline_restarting ∧
    (setup_push_rtmp_elements g data).2.native_window = data.native_window ∧
    (setup_push_rtmp_elements g data).2.rtspsrc_url = data.rtspsrc_url ∧
    (setup_push_rtmp_elements g data).2.push_rtmp_url = data.push_rtmp_url ∧
    (setup_push_rtmp_elements g data).2.push_rtsp_url = data.push_rtsp_url ∧
    (setup_push_rtmp_elements g data).2.display_requst = data.display_requst ∧
    (setup_push_rtmp_elements g data).2.push_rtmp_request = data.push_rtmp_request ∧
    (setup_push_rtmp_elements g data).2.push_rtsp_request = data.push_rtsp_request ∧
    (setup_push_rtmp_elements g data).2.recording_enabled = data.recording_enabled ∧
    (setup_push_rtmp_elements g data).2.worker_cmd_queue = data.worker_cmd_queue ∧
    (setup_push_rtmp_elements g data).2.worker_run = data.worker_run ∧
    (setup_push_rtmp_elements g data).2.reset_request = data.reset_request ∧
    (setup_push_rtmp_elements g data).2.trace = data.trace ∧
    (setup_push_rtmp_elements g data).2.rtspsrc = data.rtspsrc ∧
    (setup_push_rtmp_elements g data).2.rtspsrc_elements = data.rtspsrc_elements ∧
    (setup_push_rtmp_elements g data).2.tee_sinkpad = data.tee_sinkpad ∧
    (setup_push_rtmp_elements g data).2.tee_srcpad_display = data.tee_srcpad_display ∧
    (setup_push_rtmp_elements g data).2.tee_srcpad_push_rtmp = data.tee_srcpad_push_rtmp ∧
    (setup_push_rtmp_elements g data).2.tee_srcpad_push_rtsp = data.tee_srcpad_push_rtsp ∧
    (setup_push_rtmp_elements g data).2.tee_srcpad_recording = data.tee_srcpad_recording ∧
    (setup_push_rtmp_elements g data).2.rtspsrc_linked = data.rtspsrc_linked ∧
    (setup_push_rtmp_elements g data).2.display_elements = data.display_elements ∧
    (setup_push_rtmp_elements g data).2.display_queue_sinkpad = data.display_queue_sinkpad ∧
    (setup_push_rtmp_elements g data).2.push_rtsp_elements = data.push_rtsp_elements ∧
    (setup_push_rtmp_elements g data).2.push_rtsp_queue_sinkpad = data.push_rtsp_queue_sinkpad := by
  simp only [setup_push_rtmp_elements]
  split <;> try simp
  split <;> simp

/-- The routine `cleanup_push_rtmp_elements` writes only the fields of the push RTMP subgraph. -/
@[simp] theorem cleanup_push_rtmp_elements_frame (data : CustomData) :
    (cleanup_push_rtmp_elements data).pipeline_ref = data.pipeline_ref ∧
    (cleanup_push_rtmp_elements data).display_enabled = data.display_enabled ∧
    (cleanup_push_rtmp_elements data).push_rtmp_enabled = data.push_rtmp_enabled ∧
    (cleanup_push_rtmp_elements data).push_rtsp_enabled = data.push_rtsp_enabled ∧
    (cleanup_push_rtmp_elements data).pipeline_restarting = data.pipeline_restarting ∧
    (cleanup_push_rtmp_elements data).native_window = data.native_window ∧
    (cleanup_push_rtmp_elements data).rtspsrc_url = data.rtspsrc_url ∧
    (cleanup_push_rtmp_elements data).push_rtmp_url = data.push_rtmp_url ∧
    (cleanup_push_rtmp_elements data).push_rtsp_url = data.push_rtsp_url ∧
    (cleanup_push_rtmp_elements data).display_requst = data.display_requst ∧
    (cleanup_push_rtmp_elements data).push_rtmp_request = data.push_rtmp_request ∧
    (cleanup_push_rtmp_elements data).push_rtsp_request = data.push_rtsp_request ∧
    (cleanup_push_rtmp_elements data).recording_enabled = data.recording_enabled ∧
    (cleanup_push_rtmp_elements data).worker_cmd_queue = data.worker_cmd_queue ∧
    (cleanup_push_rtmp_elements data).worker_run = data.worker_run ∧
    (cleanup_push_rtmp_elements data).reset_request = data.reset_request ∧
    (cleanup_push_rtmp_elements data).trace = data.trace ∧
    (cleanup_push_rtmp_elements data).rtspsrc = data.rtspsrc ∧
    (cleanup_push_rtmp_elements data).rtspsrc_elements = data.rtspsrc_elements ∧
    (cleanup_push_rtmp_elements data).tee_sinkpad = data.tee_sinkpad ∧
    (cleanup_push_rtmp_elements data).tee_srcpad_display = data.tee_srcpad_display ∧
    (cleanup_push_rtmp_elements data).tee_srcpad_push_rtmp = data.tee_srcpad_push_rtmp ∧
    (cleanup_push_rtmp_elements data).tee_srcpad_push_rtsp = data.tee_srcpad_push_rtsp ∧
    (cleanup_push_rtmp_elements data).tee_srcpad_recording = data.tee_srcpad_recording ∧
    (cleanup_push_rtmp_elements data).rtspsrc_linked = data.rtspsrc_linked ∧
    (cleanup_push_rtmp_elements data).display_elements = data.display_elements ∧
    (cleanup_push_rtmp_elements data).display_queue_sinkpad = data.display_queue_sinkpad ∧
    (cleanup_push_rtmp_elements data).push_rtsp_elements = data.push_rtsp_elements ∧
    (cleanup_push_rtmp_elements data).push_rtsp_queue_sinkpad = data.push_rtsp_queue_sinkpad := by
  simp only [cleanup_push_rtmp_elements]
  split <;> try simp

/-- The routine `setup_push_rtsp_elements` writes only the fields of the push RTSP subgraph. -/
@[simp] theorem setup_push_rtsp_elements_frame (g : Framework) (data : CustomData) :
    (setup_push_rtsp_elements g data).2.pipeline_ref = data.pipeline_ref ∧
    (setup_push_rtsp_elements g data).2.display_enabled = data.display_enabled ∧
    (setup_push_rtsp_elements g data).2.push_rtmp_enabled = data.push_rtmp_enabled ∧
    (setup_push_rtsp_elements g data).2.push_rtsp_enabled = data.push_rtsp_enabled ∧
    (setup_push_rtsp_elements g data).2.pipeline_restarting = data.pipeline_restarting ∧
    (setup_push_rtsp_elements g data).2.native_window = data.native_window ∧
    (setup_push_rtsp_elements g data).2.rtspsrc_url = data.rtspsrc_url ∧
    (setup_push_rtsp_elements g data).2.push_rtmp_url = data.push_rtmp_url ∧
    (setup_push_rtsp_elements g data).2.push_rtsp_url = data.push_rtsp_url ∧
    (setup_push_rtsp_elements g data).2.display_requst = data.display_requst ∧
    (setup_push_rtsp_elements g data).2.push_rtmp_request = data.push_rtmp_request ∧
    (setup_push_rtsp_elements g data).2.push_rtsp_request = data.push_rtsp_request ∧
    (setup_push_rtsp_elements g data).2.recording_enabled = data.recording_enabled ∧
    (setup_push_rtsp_elements g data).2.worker_cmd_queue = data.worker_cmd_queue ∧
    (setup_push_rtsp_elements g data).2.worker_run = data.worker_run ∧
    (setup_push_rtsp_elements g data).2.reset_request = data.reset_request ∧
    (setup_push_rtsp_elements g data).2.trace = data.trace ∧
    (setup_push_rtsp_elements g data).2.rtspsrc = data.rtspsrc ∧
    (setup_push_rtsp_elements g data).2.rtspsrc_elements = data.rtspsrc_elements ∧
    (setup_push_rtsp_elements g data).2.tee_sinkpad = data.tee_sinkpad ∧
    (setup_push_rtsp_elements g data).2.tee_srcpad_display = data.tee_srcpad_display ∧
    (setup_push_rtsp_elements g data).2.tee_srcpad_push_rtmp = data.tee_srcpad_push_rtmp ∧
    (setup_push_rtsp_elements g data).2.tee_srcpad_push_rtsp = data.tee_srcpad_push_rtsp ∧
    (setup_push_rtsp_elements g data).2.tee_srcpad_recording = data.tee_srcpad_recording ∧
    (setup_push_rtsp_elements g data).2.rtspsrc_linked = data.rtspsrc_linked ∧
    (setup_push_rtsp_elements g data).2.display_elements = data.display_elements ∧
    (setup_push_rtsp_elements g data).2.display_queue_sinkpad = data.display_queue_sinkpad ∧
    (setup_push_rtsp_elements g data).2.push_rtmp_elements = data.push_rtmp_elements ∧
    (setup_push_rtsp_elements g data).2.push_rtmp_queue_sinkpad = data.push_rtmp_queue_sinkpad := by
  simp only [setup_push_rtsp_elements]
  split <;> try simp
  split <;> simp

/-- The routine `cleanup_push_rtsp_elements` writes only the fields of the push RTSP subgraph. -/
@[simp] theorem cleanup_push_rtsp_elements_frame (data : CustomData) :
    (cleanup_push_rtsp_elements data).pipeline_ref = data.pipeline_ref ∧
    (cleanup_push_rtsp_elements data).display_enabled = data.display_enabled ∧
    (cleanup_push_rtsp_elements data).push_rtmp_enabled = data.push_rtmp_enabled ∧
    (cleanup_push_rtsp_elements data).push_rtsp_enabled = data.push_rtsp_enabled ∧
    (cleanup_push_rtsp_elements data).pipeline_restarting = data.pipeline_restarting ∧
    (cleanup_push_rtsp_elements data).native_window = data.native_window ∧
    (cleanup_push_rtsp_elements data).rtspsrc_url = data.rtspsrc_url ∧
    (cleanup_push_rtsp_elements data).push_rtmp_url = data.push_rtmp_url ∧
    (cleanup_push_rtsp_elements data).push_rtsp_url = data.push_rtsp_url ∧
    (cleanup_push_rtsp_elements data).display_requst = data.display_requst ∧
    (cleanup_push_rtsp_elements data).push_rtmp_request = data.push_rtmp_request ∧
    (cleanup_push_rtsp_elements data).push_rtsp_request = data.push_rtsp_request ∧
    (cleanup_push_rtsp_elements data).recording_enabled = data.recording_enabled ∧
    (cleanup_push_rtsp_elements data).worker_cmd_queue = data.worker_cmd_queue ∧
    (cleanup_push_rtsp_elements data).worker_run = data.worker_run ∧
    (cleanup_push_rtsp_elements data).reset_request = data.reset_request ∧
    (cleanup_push_rtsp_elements data).trace = data.trace ∧
    (cleanup_push_rtsp_elements data).rtspsrc = data.rtspsrc ∧
    (cleanup_push_rtsp_elements data).rtspsrc_elements = data.rtspsrc_elements ∧
    (cleanup_push_rtsp_elements data).tee_sinkpad = data.tee_sinkpad ∧
    (cleanup_push_rtsp_elements data).tee_srcpad_display = data.tee_srcpad_display ∧
    (cleanup_push_rtsp_elements data).tee_srcpad_push_rtmp = data.tee_srcpad_push_rtmp ∧
    (cleanup_push_rtsp_elements data).tee_srcpad_push_rtsp = data.tee_srcpad_push_rtsp ∧
    (cleanup_push_rtsp_elements data).tee_srcpad_recording = data.tee_srcpad_recording ∧
    (cleanup_push_rtsp_elements data).rtspsrc_linked = data.rtspsrc_linked ∧
    (cleanup_push_rtsp_elements data).display_elements = data.display_elements ∧
    (cleanup_push_rtsp_elements data).display_queue_sinkpad = data.display_queue_sinkpad ∧
    (cleanup_push_rtsp_elements data).push_rtmp_elements = data.push_rtmp_elements ∧
    (cleanup_push_rtsp_elements data).push_rtmp_queue_sinkpad = data.push_rtmp_queue_sinkpad := by
  simp only [cleanup_push_rtsp_elements]
  split <;> try simp

/-! ## C1: the reference count -/

theorem display_start_ref_counted (g : Framework) (data : CustomData) (h : ref_counted data) :
    ref_counted (display_start g data).2 := by
  simp only [display_start]
  split_ifs with h1 h2 <;> simp only [ref_counted] at * <;> (try simp) <;> (try exact h)
  all_goals
    rw [not_not.mp h2] at h
    simp [active] at h ⊢
    omega

theorem display_stop_ref_counted (data : CustomData) (h : ref_counted data) :
    ref_counted (display_stop data).2 := by
  simp only [display_stop]
  split_ifs with h1 <;> simp only [ref_counted] at * <;> (try simp) <;> (try exact h)
  all_goals
    rw [not_not.mp h1] at h
    simp [active] at h ⊢
    omega

theorem push_rtmp_start_ref_counted (g : Framework) (data : CustomData) (h : ref_counted data) :
    ref_counted (push_rtmp_start g data).2 := by
  simp only [push_rtmp_start]
  split_ifs with h1 <;> simp only [ref_counted] at * <;> (try simp) <;> (try exact h)
  all_goals
    rw [not_not.mp h1] at h
    simp [active] at h ⊢
    omega

theorem push_rtmp_stop_ref_counted (data : CustomData) (h : ref_counted data) :
    ref_counted (push_rtmp_stop data).2 := by
  simp only [push_rtmp_stop]
  split_ifs with h1 <;> simp only [ref_counted] at * <;> (try simp) <;> (try exact h)
  all_goals
    rw [not_not.mp h1] at h
    simp [active] at h ⊢
    omega

theorem push_rtsp_start_ref_counted (g : Framework) (data : CustomData) (h : ref_counted data) :
    ref_counted (push_rtsp_start g data).2 := by
  simp only [push_rtsp_start]
  split_ifs with h1 <;> simp only [ref_counted] at * <;> (try simp) <;> (try exact h)
  all_goals
    rw [not_not.mp h1] at h
    simp [active] at h ⊢
    omega

theorem push_rtsp_stop_ref_counted (g : Framework) (data : CustomData) (h : ref_counted data) :
    ref_counted (push_rtsp_stop g data).2 := by
  simp only [push_rtsp_stop]
  split_ifs with h1 <;> simp only [ref_counted] at * <;> (try simp) <;> (try exact h)
  all_goals
    rw [not_not.mp h1] at h
    simp [active] at h ⊢
    omega

theorem run_ops_ref_counted (ops : List (BranchOp × Framework)) :
    ∀ data : CustomData, ref_counted data → ref_counted (run_ops ops data) := by
  induction ops with
  | nil => intro data h; exact h
  | cons x rest ih =>
    intro data h
    obtain ⟨op, g⟩ := x
    simp only [run_ops]
    apply ih
    cases op
    · exact display_start_ref_counted g data h
    · exact display_stop_ref_counted data h
    · exact push_rtmp_start_ref_counted g data h
    · exact push_rtmp_stop_ref_counted data h
    · exact push_rtsp_start_ref_counted g data h
    · exact push_rtsp_stop_ref_counted g data h

theorem active_nonneg (state : Nat) : 0 ≤ active state := by
  unfold active; split <;> decide

/-- C1: from a context with the three branches disabled and `pipeline_ref = 0`, after every
finite sequence of completed branch start and stop calls, whatever the framework calls return,
`pipeline_ref` is the number of branches whose state is Enabled (or Enabling), and it is not
negative. -/
theorem C1_pipeline_ref_counts_enabled_branches (data : CustomData)
    (ops : List (BranchOp × Framework))
    (hdisplay : data.display_enabled = BRANCH_DISABLE)
    (hrtmp : data.push_rtmp_enabled = BRANCH_DISABLE)
    (hrtsp : data.push_rtsp_enabled = BRANCH_DISABLE)
    (href : data.pipeline_ref = 0) :
    (run_ops ops data).pipeline_ref =
        active (run_ops ops data).display_enabled + active (run_ops ops data).push_rtmp_enabled +
          active (run_ops ops data).push_rtsp_enabled ∧
      0 ≤ (run_ops ops data).pipeline_ref := by
  have h0 : ref_counted data := by
    simp [ref_counted, hdisplay, hrtmp, hrtsp, href, active]
  have h := run_ops_ref_counted ops data h0
  refine ⟨h, ?_⟩
  rw [h]
  have h1 := active_nonneg (run_ops ops data).display_enabled
  have h2 := active_nonneg (run_ops ops data).push_rtmp_enabled
  have h3 := active_nonneg (run_ops ops data).push_rtsp_enabled
  omega

/-- C1 on a sample run from the context with source URL and surface set: after the first five
calls PushB and PushA are Enabled and `pipeline_ref = 2`; the whole run ends with
`pipeline_ref = 0`. -/
theorem C1_witness :
    app_ready.display_enabled = BRANCH_DISABLE ∧ app_ready.push_rtmp_enabled = BRANCH_DISABLE ∧
      app_ready.push_rtsp_enabled = BRANCH_DISABLE ∧ app_ready.pipeline_ref = 0 ∧
      (run_ops sample_ops app_ready).pipeline_ref = 0 ∧
      (run_ops (sample_ops.take 5) app_ready).pipeline_ref = 2 ∧
      ((run_ops (sample_ops.take 5) app_ready).pipeline_ref =
          active (run_ops (sample_ops.take 5) app_ready).display_enabled +
            active (run_ops (sample_ops.take 5) app_ready).push_rtmp_enabled +
            active (run_ops (sample_ops.take 5) app_ready).push_rtsp_enabled ∧
        0 ≤ (run_ops (sample_ops.take 5) app_ready).pipeline_ref) :=
  ⟨rfl, rfl, rfl, rfl, by decide, by decide,
    C1_pipeline_ref_counts_enabled_branches app_ready (sample_ops.take 5) rfl rfl rfl rfl⟩

/-! ## C3, C4, C7: rejected calls -/

/-- C3: a start routine called on a branch whose state is already Enabled returns FALSE and
changes nothing: `pipeline_ref`, every branch state and the shared upstream are as before. -/
theorem C3_start_on_enabled_branch_is_rejected (b : Branch) (g : Framework) (data : CustomData)
    (h : b.enabled data = BRANCH_ENABLE) : b.start g data = (false, data) := by
  cases b <;> simp only [Branch.enabled] at h <;>
    simp [Branch.start, display_start, push_rtmp_start, push_rtsp_start, h]

/-- C3 at the context in which Display plays: a second `display_start` is rejected. -/
theorem C3_witness :
    Branch.display.enabled display_playing = BRANCH_ENABLE ∧
      Branch.display.start Framework.ok display_playing = (false, display_playing) :=
  ⟨by decide, C3_start_on_enabled_branch_is_rejected .display Framework.ok display_playing
    (by decide)⟩

/-- C4: a stop routine called on a branch whose state is not Enabled returns FALSE and changes
nothing: the branch state, `pipeline_ref`, the other branch states and the shared upstream are
as before. -/
theorem C4_stop_on_branch_not_enabled_is_rejected (b : Branch) (g : Framework)
    (data : CustomData) (h : b.enabled data ≠ BRANCH_ENABLE) : b.stop g data = (false, data) := by
  cases b <;> simp only [Branch.enabled] at h <;>
    simp [Branch.stop, display_stop, push_rtmp_stop, push_rtsp_stop, h]

/-- C4 at the context in which Display plays: stopping the disabled PushA is rejected. -/
theorem C4_witness :
    Branch.push_rtsp.enabled display_playing ≠ BRANCH_ENABLE ∧
      Branch.push_rtsp.stop Framework.ok display_playing = (false, display_playing) :=
  ⟨by decide, C4_stop_on_branch_not_enabled_is_rejected .push_rtsp Framework.ok display_playing
    (by decide)⟩

/-- C7: while `pipeline_restarting` is true every start routine returns FALSE and changes
nothing, so the state of no branch becomes Enabled by a start made during a restart. -/
theorem C7_no_start_while_restarting (b : Branch) (g : Framework) (data : CustomData)
    (h : data.pipeline_restarting = true) :
    b.start g data = (false, data) ∧
      ∀ b2 : Branch, b2.enabled data ≠ BRANCH_ENABLE →
        b2.enabled (b.start g data).2 ≠ BRANCH_ENABLE := by
  have h1 : b.start g data = (false, data) := by
    cases b <;> simp [Branch.start, display_start, push_rtmp_start, push_rtsp_start, h]
  refine ⟨h1, ?_⟩
  intro b2 hb
  rw [h1]
  exact hb

/-- C7 at the initial context during a restart: `display_start` is rejected and PushB stays
as it was. -/
theorem C7_witness :
    app_restarting.pipeline_restarting = true ∧
      Branch.display.start Framework.ok app_restarting = (false, app_restarting) ∧
      Branch.push_rtmp.enabled (Branch.display.start Framework.ok app_restarting).2 ≠
        BRANCH_ENABLE :=
  ⟨rfl, (C7_no_start_while_restarting .display Framework.ok app_restarting rfl).1,
    (C7_no_start_while_restarting .display Framework.ok app_restarting rfl).2 .push_rtmp
      (by decide)⟩


/-! ## C5: a successful start -/

theorem setup_elements_loop_all (g : Framework) (hg : ∀ name, g.gst_element_factory_make name = true)
    (vector : List element_node) :
    ∀ (i : Nat) (p : GstPipeline) (elements : List (Option String)),
      (setup_elements_loop g vector i p elements).1 = i + vector.length := by
  induction vector with
  | nil => intro i p elements; simp [setup_elements_loop]
  | cons v vs ih =>
    intro i p elements
    simp [setup_elements_loop, hg, ih]
    omega

theorem setup_elements_all (g : Framework) (hg : ∀ name, g.gst_element_factory_make name = true)
    (p : GstPipeline) (elements : List (Option String)) (vector : List element_node) :
    (setup_elements g p elements vector).1 = true := by
  simp [setup_elements, setup_elements_loop_all g hg]

theorem request_tee_srcpads_all (g : Framework)
    (hg : ∀ i, (g.gst_element_get_request_pad i).isSome = true) (n : Nat) :
    ∀ (i : Nat) (p : GstPipeline) (acc : List Nat),
      (request_tee_srcpads g n i p acc).2.length = acc.length + n := by
  induction n with
  | zero => intro i p acc; simp [request_tee_srcpads]
  | succ n ih =>
    intro i p acc
    obtain ⟨pad, hpad⟩ := Option.isSome_iff_exists.mp (hg i)
    simp [request_tee_srcpads, hpad, ih]
    omega

theorem setup_rtspsrc_elements_all (g : Framework) (hg : g.all_succeed) (data : CustomData)
    (hp : data.pipeline ≠ none) :
    (setup_rtspsrc_elements g data).1 = true ∧ (setup_rtspsrc_elements g data).2.pipeline ≠ none := by
  obtain ⟨hmake, halloc, hstatic, hreq⟩ := hg
  obtain ⟨p, hp⟩ := Option.ne_none_iff_exists'.mp hp
  simp only [setup_rtspsrc_elements, hp, hmake, halloc, setup_elements_all g hmake]
  simp
  split
  · rename_i h
    have := hstatic (((setup_elements g p (g_malloc0_elements (vector_count fakesink_vector)) fakesink_vector).2.2[FK_TEE]?.getD none).getD "")
    simp [h] at this
  · simp [request_tee_srcpads_all g hreq]

theorem setup_branch_elements_all (g : Framework) (hg : g.all_succeed) (p : GstPipeline)
    (vector : List element_node) (queue : Nat) :
    (setup_branch_elements g p vector queue).2.isSome = true := by
  obtain ⟨hmake, halloc, hstatic, hreq⟩ := hg
  simp only [setup_branch_elements, halloc, setup_elements_all g hmake]
  simp
  split
  · rename_i h
    have := hstatic (((setup_elements g p (g_malloc0_elements (vector_count vector)) vector).2.2[queue]?.getD none).getD "")
    simp [h] at this
  · simp

theorem setup_display_elements_all (g : Framework) (hg : g.all_succeed) (data : CustomData)
    (hp : data.pipeline ≠ none) : (setup_display_elements g data).1 = true := by
  obtain ⟨p, hp⟩ := Option.ne_none_iff_exists'.mp hp
  have h := setup_branch_elements_all g hg p display_vector DP_QUEUE0
  simp only [setup_display_elements, hp]
  split
  · rename_i h2; simp [h2] at h
  · rfl

theorem setup_push_rtmp_elements_all (g : Framework) (hg : g.all_succeed) (data : CustomData)
    (hp : data.pipeline ≠ none) : (setup_push_rtmp_elements g data).1 = true := by
  obtain ⟨p, hp⟩ := Option.ne_none_iff_exists'.mp hp
  have h := setup_branch_elements_all g hg p push_rtmp_vector PU_RTMP_QUEUE
  simp only [setup_push_rtmp_elements, hp]
  split
  · rename_i h2; simp [h2] at h
  · rfl

theorem setup_push_rtsp_elements_all (g : Framework) (hg : g.all_succeed) (data : CustomData)
    (hp : data.pipeline ≠ none) : (setup_push_rtsp_elements g data).1 = true := by
  obtain ⟨p, hp⟩ := Option.ne_none_iff_exists'.mp hp
  have h := setup_branch_elements_all g hg p push_rtsp_vector PU_RTSP_QUEUE
  simp only [setup_push_rtsp_elements, hp]
  split
  · rename_i h2; simp [h2] at h
  · rfl


theorem upstream_acquired (g : Framework) (hg : g.all_succeed) (data : CustomData)
    (hp : data.pipeline ≠ none) :
    (if data.pipeline_ref = 0 then setup_rtspsrc_elements g data else (true, data)).1 = true ∧
    (if data.pipeline_ref = 0 then setup_rtspsrc_elements g data else (true, data)).2.pipeline ≠
      none := by
  split
  · exact setup_rtspsrc_elements_all g hg data hp
  · exact ⟨rfl, hp⟩

/-- C5: a start routine called with the branch Disabled, no restart in progress, the target
configured, the pipeline created and every framework call succeeding returns TRUE, leaves the
branch Enabled, adds exactly 1 to `pipeline_ref` and leaves the state of the other branches
as it was. -/
theorem C5_start_enables_branch (b : Branch) (g : Framework) (data : CustomData)
    (hg : g.all_succeed) (hp : data.pipeline ≠ none)
    (hd : b.enabled data = BRANCH_DISABLE) (hr : data.pipeline_restarting = false)
    (ht : b.target_configured data = true) :
    (b.start g data).1 = true ∧
      b.enabled (b.start g data).2 = BRANCH_ENABLE ∧
      (b.start g data).2.pipeline_ref = data.pipeline_ref + 1 ∧
      ∀ b2 : Branch, b2 ≠ b → b2.enabled (b.start g data).2 = b2.enabled data := by
  obtain ⟨h1, h2⟩ := upstream_acquired g hg data hp
  cases b
  · have hw : data.native_window ≠ none := by
      simpa [Branch.target_configured, Option.isSome_iff_ne_none] using ht
    have h3 := setup_display_elements_all g hg _ h2
    simp only [Branch.enabled] at hd
    simp only [Branch.start, display_start, hw, hd, hr, h1, h3]
    simp
    refine ⟨rfl, ?_, ?_⟩
    · split <;> simp
    · intro b2 hb; cases b2 <;> simp [Branch.enabled] at hb ⊢ <;> split <;> simp
  · have h3 := setup_push_rtmp_elements_all g hg _ h2
    simp only [Branch.enabled] at hd
    simp only [Branch.start, push_rtmp_start, hd, hr, h1, h3]
    simp
    refine ⟨rfl, ?_, ?_⟩
    · split <;> simp
    · intro b2 hb; cases b2 <;> simp [Branch.enabled] at hb ⊢ <;> split <;> simp
  · have h3 := setup_push_rtsp_elements_all g hg _ h2
    simp only [Branch.enabled] at hd
    simp only [Branch.start, push_rtsp_start, hd, hr, h1, h3]
    simp
    refine ⟨rfl, ?_, ?_⟩
    · split <;> simp
    · intro b2 hb; cases b2 <;> simp [Branch.enabled] at hb ⊢ <;> split <;> simp

/-- C5 on the scenario of the specification: Display Enabled with `pipeline_ref = 1`, then
`push_rtmp_start` enables PushB, keeps Display Enabled and gives `pipeline_ref = 2`; a
`display_stop` afterwards leaves PushB Enabled and `pipeline_ref = 1`. -/
theorem C5_witness :
    Branch.display.enabled display_playing_push_target = BRANCH_ENABLE ∧
      display_playing_push_target.pipeline_ref = 1 ∧
      (Branch.push_rtmp.start Framework.ok display_playing_push_target).1 = true ∧
      Branch.push_rtmp.enabled
          (Branch.push_rtmp.start Framework.ok display_playing_push_target).2 = BRANCH_ENABLE ∧
      (Branch.push_rtmp.start Framework.ok display_playing_push_target).2.pipeline_ref =
          display_playing_push_target.pipeline_ref + 1 ∧
      Branch.display.enabled (Branch.push_rtmp.start Framework.ok display_playing_push_target).2 =
          Branch.display.enabled display_playing_push_target ∧
      (display_stop
          (Branch.push_rtmp.start Framework.ok display_playing_push_target).2).2.push_rtmp_enabled =
        BRANCH_ENABLE ∧
      (display_stop
          (Branch.push_rtmp.start Framework.ok display_playing_push_target).2).2.pipeline_ref =
        1 := by
  have h := C5_start_enables_branch .push_rtmp Framework.ok display_playing_push_target
    ⟨fun _ => rfl, rfl, fun _ => rfl, fun _ => rfl⟩ (by decide) (by decide) (by decide)
    (by decide)
  exact ⟨by decide, by decide, h.1, h.2.1, h.2.2.1, h.2.2.2 .display (by decide), by decide,
    by decide⟩

/-! ## C6: a stop of an enabled branch -/

theorem cleanup_elements_pipeline_isSome (elements : List (Option String)) :
    ∀ (pipeline : Option GstPipeline) (count : Int),
      (cleanup_elements pipeline elements count).1.isSome = pipeline.isSome := by
  induction elements with
  | nil => intro pipeline count; simp [cleanup_elements]
  | cons e rest ih =>
    intro pipeline count
    cases e with
    | none => simp [cleanup_elements]
    | some e =>
      simp only [cleanup_elements]
      split
      · simp [ih]
      · rfl

theorem cleanup_display_elements_pipeline (data : CustomData) :
    (cleanup_display_elements data).pipeline.isSome = data.pipeline.isSome := by
  simp only [cleanup_display_elements]
  split <;> simp [cleanup_elements_pipeline_isSome]

theorem cleanup_push_rtmp_elements_pipeline (data : CustomData) :
    (cleanup_push_rtmp_elements data).pipeline.isSome = data.pipeline.isSome := by
  simp only [cleanup_push_rtmp_elements]
  split <;> simp [cleanup_elements_pipeline_isSome]

theorem cleanup_push_rtsp_elements_pipeline (data : CustomData) :
    (cleanup_push_rtsp_elements data).pipeline.isSome = data.pipeline.isSome := by
  simp only [cleanup_push_rtsp_elements]
  split <;> simp [cleanup_elements_pipeline_isSome]

theorem cleanup_rtspsrc_elements_rtspsrc (data : CustomData) (hp : data.pipeline.isSome = true) :
    (cleanup_rtspsrc_elements data).rtspsrc = none := by
  obtain ⟨p, hp⟩ := Option.isSome_iff_exists.mp hp
  simp only [cleanup_rtspsrc_elements, hp]
  cases h : data.rtspsrc <;> simp [h]

theorem set_push_rtmp_url_fields (data : CustomData) (url : Option String) :
    (set_push_rtmp_url data url).push_rtmp_enabled = data.push_rtmp_enabled ∧
    (set_push_rtmp_url data url).pipeline_restarting = data.pipeline_restarting ∧
    (set_push_rtmp_url data url).pipeline_ref = data.pipeline_ref :=
  ⟨rfl, rfl, rfl⟩

theorem setup_rtspsrc_elements_push_rtmp_url (g : Framework) (data : CustomData)
    (url : Option String) :
    setup_rtspsrc_elements g (set_push_rtmp_url data url) =
      ((setup_rtspsrc_elements g data).1,
        set_push_rtmp_url (setup_rtspsrc_elements g data).2 url) := by
  simp only [setup_rtspsrc_elements, set_push_rtmp_url]
  split
  · rfl
  · split_ifs <;> try rfl
    all_goals (split <;> rfl)

theorem cleanup_rtspsrc_elements_push_rtmp_url (data : CustomData) (url : Option String) :
    cleanup_rtspsrc_elements (set_push_rtmp_url data url) =
      set_push_rtmp_url (cleanup_rtspsrc_elements data) url := by
  simp only [cleanup_rtspsrc_elements, set_push_rtmp_url]
  split <;> rfl

theorem setup_push_rtmp_elements_push_rtmp_url (g : Framework) (data : CustomData)
    (url : Option String) :
    setup_push_rtmp_elements g (set_push_rtmp_url data url) =
      ((setup_push_rtmp_elements g data).1,
        set_push_rtmp_url (setup_push_rtmp_elements g data).2 url) := by
  simp only [setup_push_rtmp_elements, set_push_rtmp_url]
  split
  · rfl
  · split <;> rfl

theorem push_rtmp_start_push_rtmp_url (g : Framework) (data : CustomData) (url : Option String) :
    push_rtmp_start g (set_push_rtmp_url data url) =
      ((push_rtmp_start g data).1, set_push_rtmp_url (push_rtmp_start g data).2 url) := by
  by_cases h3 : data.pipeline_ref = 0
  · simp only [push_rtmp_start, set_push_rtmp_url_fields, h3, if_true,
      setup_rtspsrc_elements_push_rtmp_url, setup_push_rtmp_elements_push_rtmp_url,
      cleanup_rtspsrc_elements_push_rtmp_url]
    split_ifs <;> rfl
  · simp only [push_rtmp_start, set_push_rtmp_url_fields, h3, if_false,
      setup_rtspsrc_elements_push_rtmp_url, setup_push_rtmp_elements_push_rtmp_url,
      cleanup_rtspsrc_elements_push_rtmp_url]
    split_ifs <;> rfl

theorem set_push_rtsp_url_fields (data : CustomData) (url : Option String) :
    (set_push_rtsp_url data url).push_rtsp_enabled = data.push_rtsp_enabled ∧
    (set_push_rtsp_url data url).pipeline_restarting = data.pipeline_restarting ∧
    (set_push_rtsp_url data url).pipeline_ref = data.pipeline_ref :=
  ⟨rfl, rfl, rfl⟩

theorem setup_rtspsrc_elements_push_rtsp_url (g : Framework) (data : CustomData)
    (url : Option String) :
    setup_rtspsrc_elements g (set_push_rtsp_url data url) =
      ((setup_rtspsrc_elements g data).1,
        set_push_rtsp_url (setup_rtspsrc_elements g data).2 url) := by
  simp only [setup_rtspsrc_elements, set_push_rtsp_url]
  split
  · rfl
  · split_ifs <;> try rfl
    all_goals (split <;> rfl)

theorem cleanup_rtspsrc_elements_push_rtsp_url (data : CustomData) (url : Option String) :
    cleanup_rtspsrc_elements (set_push_rtsp_url data url) =
      set_push_rtsp_url (cleanup_rtspsrc_elements data) url := by
  simp only [cleanup_rtspsrc_elements, set_push_rtsp_url]
  split <;> rfl

theorem setup_push_rtsp_elements_push_rtsp_url (g : Framework) (data : CustomData)
    (url : Option String) :
    setup_push_rtsp_elements g (set_push_rtsp_url data url) =
      ((setup_push_rtsp_elements g data).1,
        set_push_rtsp_url (setup_push_rtsp_elements g data).2 url) := by
  simp only [setup_push_rtsp_elements, set_push_rtsp_url]
  split
  · rfl
  · split <;> rfl

theorem push_rtsp_start_push_rtsp_url (g : Framework) (data : CustomData) (url : Option String) :
    push_rtsp_start g (set_push_rtsp_url data url) =
      ((push_rtsp_start g data).1, set_push_rtsp_url (push_rtsp_start g data).2 url) := by
  by_cases h3 : data.pipeline_ref = 0
  · simp only [push_rtsp_start, set_push_rtsp_url_fields, h3, if_true,
      setup_rtspsrc_elements_push_rtsp_url, setup_push_rtsp_elements_push_rtsp_url,
      cleanup_rtspsrc_elements_push_rtsp_url]
    split_ifs <;> rfl
  · simp only [push_rtsp_start, set_push_rtsp_url_fields, h3, if_false,
      setup_rtspsrc_elements_push_rtsp_url, setup_push_rtsp_elements_push_rtsp_url,
      cleanup_rtspsrc_elements_push_rtsp_url]
    split_ifs <;> rfl

/-- C8, as the code has it: `display_start` tests its target and with `native_window` NULL
returns FALSE and changes nothing; `push_rtmp_start` and `push_rtsp_start` never look at their
URL: with any other value of the URL, NULL included, they return the same result and make the
same changes to the context. -/
theorem C8_only_display_start_tests_its_target (g : Framework) (data : CustomData) :
    (data.native_window = none → display_start g data = (false, data)) ∧
      (∀ url : Option String,
        push_rtmp_start g (set_push_rtmp_url data url) =
          ((push_rtmp_start g data).1, set_push_rtmp_url (push_rtmp_start g data).2 url)) ∧
      (∀ url : Option String,
        push_rtsp_start g (set_push_rtsp_url data url) =
          ((push_rtsp_start g data).1, set_push_rtsp_url (push_rtsp_start g data).2 url)) :=
  ⟨fun h => by simp [display_start, h], push_rtmp_start_push_rtmp_url g data,
    push_rtsp_start_push_rtsp_url g data⟩

/-- C8 as amended, at the initial context (no surface) and at a context with a push target. -/
theorem C8_witness :
    app_init.native_window = none ∧ display_start Framework.ok app_init = (false, app_init) ∧
      push_rtmp_start Framework.ok (set_push_rtmp_url display_playing_push_target none) =
        ((push_rtmp_start Framework.ok display_playing_push_target).1,
          set_push_rtmp_url (push_rtmp_start Framework.ok display_playing_push_target).2 none) :=
  ⟨rfl, (C8_only_display_start_tests_its_target Framework.ok app_init).1 rfl,
    (C8_only_display_start_tests_its_target Framework.ok display_playing_push_target).2.1 none⟩

/-- C8 as stated fails: in the context with source URL and surface set and `push_rtmp_url`
NULL, `push_rtmp_start` builds the branch, returns TRUE, leaves PushB Enabled and increments
`pipeline_ref`; `push_rtsp_start` does the same with `push_rtsp_url` NULL. -/
theorem C8_counterexample :
    Branch.push_rtmp.target_configured app_ready = false ∧
      (push_rtmp_start Framework.ok app_ready).1 = true ∧
      (push_rtmp_start Framework.ok app_ready).2.push_rtmp_enabled = BRANCH_ENABLE ∧
      (push_rtmp_start Framework.ok app_ready).2.pipeline_ref = app_ready.pipeline_ref + 1 ∧
      (push_rtmp_start Framework.ok app_ready).2.push_rtmp_elements ≠ none ∧
      Branch.push_rtsp.target_configured app_ready = false ∧
      (push_rtsp_start Framework.ok app_ready).1 = true ∧
      (push_rtsp_start Framework.ok app_ready).2.push_rtsp_enabled = BRANCH_ENABLE := by
  decide

/-! ## C2, C9: a failed start releases an upstream that is in use -/

/-- C2 fails on the code: from the context with source URL, surface and RTMP target set, after
`display_start` has succeeded, a `push_rtmp_start` whose RTMP sink cannot be created calls
`cleanup_rtspsrc_elements` although Display holds the upstream; the reached state has Display
Enabled and `pipeline_ref = 1` with `rtspsrc` NULL. -/
theorem C2_failed_start_tears_down_shared_upstream :
    (run_ops [(.display_start, Framework.ok), (.push_rtmp_start, Framework.no_rtmpsink)]
        app_ready_push_target).display_enabled = BRANCH_ENABLE ∧
      (run_ops [(.display_start, Framework.ok), (.push_rtmp_start, Framework.no_rtmpsink)]
        app_ready_push_target).pipeline_ref = 1 ∧
      (run_ops [(.display_start, Framework.ok), (.push_rtmp_start, Framework.no_rtmpsink)]
        app_ready_push_target).rtspsrc = none := by
  decide

/-- C9 fails on the code: with Display Enabled, `pipeline_ref = 1` and the upstream present,
a `push_rtmp_start` whose `setup_push_rtmp_elements` fails returns FALSE, leaves PushB
Disabled, `pipeline_ref` at 1 and Display Enabled, but the upstream that existed before the
call is gone: `rtspsrc` and the tee source pads are NULL. -/
theorem C9_failed_start_releases_upstream_it_did_not_acquire :
    display_playing_push_target.pipeline_ref = 1 ∧ display_playing_push_target.rtspsrc = some "rtspsrc" ∧
      (setup_push_rtmp_elements Framework.no_rtmpsink display_playing_push_target).1 = false ∧
      (push_rtmp_start Framework.no_rtmpsink display_playing_push_target).1 = false ∧
      (push_rtmp_start Framework.no_rtmpsink display_playing_push_target).2.push_rtmp_enabled =
        BRANCH_DISABLE ∧
      (push_rtmp_start Framework.no_rtmpsink display_playing_push_target).2.pipeline_ref = 1 ∧
      (push_rtmp_start Framework.no_rtmpsink display_playing_push_target).2.display_enabled =
        BRANCH_ENABLE ∧
      (push_rtmp_start Framework.no_rtmpsink display_playing_push_target).2.rtspsrc = none ∧
      (push_rtmp_start Framework.no_rtmpsink display_playing_push_target).2.tee_srcpad_display = none := by
  decide

/-! ## C10: raising a reset reason -/

theorem or_and_absorb (m r : Nat) : (m ||| r) &&& r = r := by
  apply Nat.eq_of_testBit_eq
  intro i
  simp only [Nat.testBit_and, Nat.testBit_or]
  cases m.testBit i <;> cases r.testBit i <;> rfl

theorem guchar_or (m r : Nat) (hm : m < 256) (hr : r < 256) : (m ||| r) % 256 = m ||| r :=
  Nat.mod_eq_of_lt (Nat.or_lt_two_pow (n := 8) hm hr)

/-- C10: for a pending mask and a reason that fit a `guchar`: when every bit of the reason is
already pending, `launch_restart_process` returns FALSE and changes nothing; otherwise it
returns TRUE, stores the old mask OR the reason and enqueues exactly one ResetGraph command.
A second call with the same reason right after the first returns FALSE and changes nothing, so
the two calls enqueue one ResetGraph command when the reason was not pending, and none when it
already was. -/
theorem C10_launch_restart_process_idempotent (data : CustomData) (reason : Nat)
    (hm : data.reset_request < 256) (hr : reason < 256) :
    (data.reset_request &&& reason = reason →
        launch_restart_process data reason = (false, data)) ∧
      (data.reset_request &&& reason ≠ reason →
        launch_restart_process data reason =
          (true, { data with
            reset_request := data.reset_request ||| reason
            worker_cmd_queue := data.worker_cmd_queue ++ [WORKER_CMD_RESET_PIPELINE] })) ∧
      launch_restart_process (launch_restart_process data reason).2 reason =
        (false, (launch_restart_process data reason).2) ∧
      (launch_restart_process (launch_restart_process data reason).2 reason).2.worker_cmd_queue =
        data.worker_cmd_queue ++
          (if data.reset_request &&& reason = reason then [] else [WORKER_CMD_RESET_PIPELINE]) := by
  have h1 : data.reset_request &&& reason = reason →
      launch_restart_process data reason = (false, data) := by
    intro h; simp [launch_restart_process, h]
  have h2 : data.reset_request &&& reason ≠ reason →
      launch_restart_process data reason =
        (true, { data with
          reset_request := data.reset_request ||| reason
          worker_cmd_queue := data.worker_cmd_queue ++ [WORKER_CMD_RESET_PIPELINE] }) := by
    intro h
    simp [launch_restart_process, h, notify_worker_update_pipeline, guchar_or _ _ hm hr]
  have h3 : launch_restart_process (launch_restart_process data reason).2 reason =
      (false, (launch_restart_process data reason).2) := by
    by_cases h : data.reset_request &&& reason = reason
    · rw [h1 h]; exact h1 h
    · rw [h2 h]; simp [launch_restart_process, or_and_absorb]
  refine ⟨h1, h2, h3, ?_⟩
  rw [h3]
  by_cases h : data.reset_request &&& reason = reason
  · rw [h1 h]; simp [h]
  · rw [h2 h]; simp [h]

/-- C10 at the initial context: the graph-level reason raised twice enqueues one ResetGraph. -/
theorem C10_witness :
    app_init.reset_request < 256 ∧ RESET_REQUEST_PIPELINE < 256 ∧
      launch_restart_process app_init RESET_REQUEST_PIPELINE =
        (true, { app_init with
          reset_request := RESET_REQUEST_PIPELINE
          worker_cmd_queue := [WORKER_CMD_RESET_PIPELINE] }) ∧
      (launch_restart_process (launch_restart_process app_init RESET_REQUEST_PIPELINE).2
          RESET_REQUEST_PIPELINE).2.worker_cmd_queue = [WORKER_CMD_RESET_PIPELINE] :=
  ⟨by decide, by decide,
    (C10_launch_restart_process_idempotent app_init RESET_REQUEST_PIPELINE (by decide)
      (by decide)).2.1 (by decide),
    (C10_launch_restart_process_idempotent app_init RESET_REQUEST_PIPELINE (by decide)
      (by decide)).2.2.2⟩

/-! ## C13: the adaptive restart delay -/

theorem reset_latency_count_le (new : Int) (s : ResetLatency) :
    (reset_latency_calculation new s).2.count ≤ 4 := by
  simp only [reset_latency_calculation]
  split_ifs <;> omega

theorem reset_latency_count_succ (new : Int) (s : ResetLatency) (hc : s.count ≤ 4)
    (hn : new - s.old < G_TIME_SPAN_SECOND) :
    (reset_latency_calculation new s).2.count = min 4 (s.count + 1) := by
  have h : (s.count + 1) % 2 ^ 64 = s.count + 1 := Nat.mod_eq_of_lt (by omega)
  simp only [reset_latency_calculation, hn, if_true, h]
  split_ifs <;> omega

theorem reset_latency_count_ge (new : Int) (s : ResetLatency) (hc : s.count ≤ 4)
    (hn : new - s.old < G_TIME_SPAN_SECOND) (k : Nat) (hk : k ≤ s.count) (hk3 : k ≤ 3) :
    k + 1 ≤ (reset_latency_calculation new s).2.count := by
  rw [reset_latency_count_succ new s hc hn]
  omega

theorem reset_latency_delay (new : Int) (s : ResetLatency) :
    (reset_latency_calculation new s).1 =
      if 1 < (reset_latency_calculation new s).2.count then 500000 else 0 := by
  simp only [reset_latency_calculation]
  split_ifs <;> simp_all <;> rfl

/-- C13: one call of `reset_latency_calculation` at monotonic time `new`, from statics whose
count is at most 4: the count becomes `min 4 (count + 1)` when the call is less than one second
after the previous one and 0 otherwise, and `old` becomes `new`; the delay is 0 when the new
count is at most 1 and 500000 microseconds when it exceeds 1. So the delay is 0 or 500 ms, the
count stays at most 4, and of five calls made within one second the fourth and the fifth
return 500 ms. -/
theorem C13_reset_latency_calculation (new : Int) (s : ResetLatency) (hc : s.count ≤ 4) :
    (reset_latency_calculation new s).2.count =
        (if new - s.old < G_TIME_SPAN_SECOND then min 4 (s.count + 1) else 0) ∧
      (reset_latency_calculation new s).2.old = new ∧
      ((reset_latency_calculation new s).2.count ≤ 1 → (reset_latency_calculation new s).1 = 0) ∧
      (1 < (reset_latency_calculation new s).2.count →
        (reset_latency_calculation new s).1 = 500000) ∧
      ((reset_latency_calculation new s).1 = 0 ∨
        (reset_latency_calculation new s).1 = 500000) ∧
      (reset_latency_calculation new s).2.count ≤ 4 ∧
      ∀ t2 t3 t4 t5 : Int, new ≤ t2 → t2 ≤ t3 → t3 ≤ t4 → t4 ≤ t5 →
        t5 - new < G_TIME_SPAN_SECOND →
        (reset_latency_calculation t4 (reset_latency_calculation t3
          (reset_latency_calculation t2 (reset_latency_calculation new s).2).2).2).1 =
            500000 ∧
        (reset_latency_calculation t5 (reset_latency_calculation t4 (reset_latency_calculation t3
          (reset_latency_calculation t2 (reset_latency_calculation new s).2).2).2).2).1 =
            500000 := by
  refine ⟨?_, rfl, ?_, ?_, ?_, reset_latency_count_le new s, ?_⟩
  · by_cases hn : new - s.old < G_TIME_SPAN_SECOND
    · rw [reset_latency_count_succ new s hc hn]; simp [hn]
    · simp [reset_latency_calculation, hn]
  · intro h; rw [reset_latency_delay]; simp; omega
  · intro h; rw [reset_latency_delay]; simp [h]
  · rw [reset_latency_delay]; split_ifs <;> simp
  · intro t2 t3 t4 t5 h12 h23 h34 h45 h15
    have e1 : (reset_latency_calculation new s).2.old = new := rfl
    have c1 := reset_latency_count_le new s
    have g2 := reset_latency_count_ge t2 (reset_latency_calculation new s).2 c1
      (by rw [e1]; simp only [G_TIME_SPAN_SECOND] at *; omega) 0 (Nat.zero_le _) (by omega)
    have c2 := reset_latency_count_le t2 (reset_latency_calculation new s).2
    have e2 : (reset_latency_calculation t2 (reset_latency_calculation new s).2).2.old = t2 := rfl
    have g3 := reset_latency_count_ge t3 _ c2
      (by rw [e2]; simp only [G_TIME_SPAN_SECOND] at *; omega) 1 g2 (by omega)
    have c3 := reset_latency_count_le t3
      (reset_latency_calculation t2 (reset_latency_calculation new s).2).2
    have e3 : (reset_latency_calculation t3
      (reset_latency_calculation t2 (reset_latency_calculation new s).2).2).2.old = t3 := rfl
    have g4 := reset_latency_count_ge t4 _ c3
      (by rw [e3]; simp only [G_TIME_SPAN_SECOND] at *; omega) 2 g3 (by omega)
    have c4 := reset_latency_count_le t4 (reset_latency_calculation t3
      (reset_latency_calculation t2 (reset_latency_calculation new s).2).2).2
    have e4 : (reset_latency_calculation t4 (reset_latency_calculation t3
      (reset_latency_calculation t2 (reset_latency_calculation new s).2).2).2).2.old = t4 := rfl
    have g5 := reset_latency_count_ge t5 _ c4
      (by rw [e4]; simp only [G_TIME_SPAN_SECOND] at *; omega) 3 g4 (by omega)
    constructor
    · rw [reset_latency_delay, if_pos (by omega)]
    · rw [reset_latency_delay, if_pos (by omega)]

/-- C13 from the initial statics, with five calls 100 ms apart starting 5 s after boot: the
delays are 0, 0, 500 ms, 500 ms, 500 ms. -/
theorem C13_witness :
    (⟨0, 0⟩ : ResetLatency).count ≤ 4 ∧
      (reset_latency_calculation 5000000 ⟨0, 0⟩).2.count = 0 ∧
      (reset_latency_calculation 5000000 ⟨0, 0⟩).1 = 0 ∧
      (reset_latency_calculation 5300000 (reset_latency_calculation 5200000
        (reset_latency_calculation 5100000
          (reset_latency_calculation 5000000 ⟨0, 0⟩).2).2).2).1 = 500000 ∧
      (reset_latency_calculation 5400000 (reset_latency_calculation 5300000
        (reset_latency_calculation 5200000 (reset_latency_calculation 5100000
          (reset_latency_calculation 5000000 ⟨0, 0⟩).2).2).2).2).1 =
        500000 := by
  have h := C13_reset_latency_calculation 5000000 ⟨0, 0⟩ (by decide)
  have h5 := h.2.2.2.2.2.2 5100000 5200000 5300000 5400000 (by decide) (by decide) (by decide)
    (by decide) (by decide)
  exact ⟨by decide, by decide, h.2.2.1 (by decide), h5.1, h5.2⟩


/-! ## C19, C20: the end-of-stream probe and play -/

/-- C19: `probe_eos_cb` returns DROP exactly when the event is an end-of-stream, the context
is not NULL and the pad is `tee_sinkpad`; in that case it sends the user message and calls
`launch_restart_process` with the graph-level reason 0x07. For every other event or pad it
returns OK and leaves the context, so `reset_request` and the command queue, as they were. -/
theorem C19_probe_eos_cb_drops_eos_on_tee_sinkpad (pad : Option Nat) (event : GstEventType)
    (user_data : Option CustomData) :
    ((probe_eos_cb pad event user_data).1 = GstPadProbeReturn.GST_PAD_PROBE_DROP ↔
        event = GstEventType.GST_EVENT_EOS ∧
          ∃ data, user_data = some data ∧ pad = data.tee_sinkpad) ∧
      (∀ data : CustomData, event = GstEventType.GST_EVENT_EOS → user_data = some data →
        pad = data.tee_sinkpad →
        probe_eos_cb pad event user_data =
          (GstPadProbeReturn.GST_PAD_PROBE_DROP,
            some (launch_restart_process (set_usr_message USR_MESSAGE_FETCH_EOS_RESTART data)
              RESET_REQUEST_PIPELINE).2)) ∧
      ((probe_eos_cb pad event user_data).1 ≠ GstPadProbeReturn.GST_PAD_PROBE_DROP →
        probe_eos_cb pad event user_data = (GstPadProbeReturn.GST_PAD_PROBE_OK, user_data)) := by
  refine ⟨?_, ?_, ?_⟩
  · simp only [probe_eos_cb]
    by_cases he : event = GstEventType.GST_EVENT_EOS
    · cases user_data with
      | none => simp [he]
      | some data =>
        by_cases hp : pad = data.tee_sinkpad <;> simp [he, hp]
    · simp [he]
  · intro data he hu hp
    subst hu
    simp [probe_eos_cb, he, hp]
  · simp only [probe_eos_cb]
    by_cases he : event = GstEventType.GST_EVENT_EOS
    · cases user_data with
      | none => simp [he]
      | some data =>
        by_cases hp : pad = data.tee_sinkpad <;> simp [he, hp]
    · simp [he]

/-- C19 at the context in which Display plays: an end-of-stream on the tee sink pad is
dropped, the reason 0x07 becomes pending and one ResetGraph command is queued; the same event
on another pad passes. -/
theorem C19_witness :
    display_playing.tee_sinkpad = some 100 ∧
      (probe_eos_cb (some 100) GstEventType.GST_EVENT_EOS (some display_playing)).1 =
        GstPadProbeReturn.GST_PAD_PROBE_DROP ∧
      ((probe_eos_cb (some 100) GstEventType.GST_EVENT_EOS (some display_playing)).2.map
        fun d => (d.reset_request, d.worker_cmd_queue)) =
          some (RESET_REQUEST_PIPELINE, [WORKER_CMD_RESET_PIPELINE]) ∧
      probe_eos_cb (some 1) GstEventType.GST_EVENT_EOS (some display_playing) =
        (GstPadProbeReturn.GST_PAD_PROBE_OK, some display_playing) :=
  ⟨by decide,
    ((C19_probe_eos_cb_drops_eos_on_tee_sinkpad (some 100) GstEventType.GST_EVENT_EOS
      (some display_playing)).1).2 ⟨rfl, display_playing, rfl, by decide⟩,
    by decide,
    (C19_probe_eos_cb_drops_eos_on_tee_sinkpad (some 1) GstEventType.GST_EVENT_EOS
      (some display_playing)).2.2 (by decide)⟩

/-- C20: `gst_native_play` with the source URL unset returns false and leaves the context as
it was (nothing enqueued, no branch state or `pipeline_ref` changed). It returns true exactly
when the context, the source URL and the display handle are all present, and then its only
effect is to enqueue one StartDisplay command; whenever it returns false it changes nothing. -/
theorem C20_gst_native_play (data : Option CustomData) :
    (∀ d : CustomData, data = some d → d.rtspsrc_url = none →
        gst_native_play data = (false, data)) ∧
      ((gst_native_play data).1 = true ↔
        ∃ d, data = some d ∧ d.rtspsrc_url ≠ none ∧ d.native_window ≠ none) ∧
      (∀ d : CustomData, data = some d → d.rtspsrc_url ≠ none → d.native_window ≠ none →
        gst_native_play data =
          (true, some { d with
            worker_cmd_queue := d.worker_cmd_queue ++ [WORKER_CMD_START_DISPLAY] })) ∧
      ((gst_native_play data).1 = false → (gst_native_play data).2 = data) := by
  cases data with
  | none => simp [gst_native_play]
  | some d =>
    by_cases hu : d.rtspsrc_url = none
    · simp [gst_native_play, hu]
    · by_cases hw : d.native_window = none
      · simp [gst_native_play, hu, hw]
      · simp [gst_native_play, hu, hw, notify_worker_update_pipeline]

/-- C20 at the initial context (no source URL): play is refused and nothing changes; at the
context with URL and surface set one StartDisplay command is enqueued. -/
theorem C20_witness :
    app_init.rtspsrc_url = none ∧ gst_native_play (some app_init) = (false, some app_init) ∧
      (gst_native_play (some app_init)).2.map (fun d => d.pipeline_ref) = some 0 ∧
      (gst_native_play (some app_ready)).1 = true ∧
      (gst_native_play (some app_ready)).2.map (fun d => d.worker_cmd_queue) =
        some [WORKER_CMD_START_DISPLAY] :=
  ⟨rfl, (C20_gst_native_play (some app_init)).1 app_init rfl rfl, by decide,
    ((C20_gst_native_play (some app_ready)).2.1).2 ⟨app_ready, rfl, by decide, by decide⟩,
    by decide⟩


/-! ## C17, C18: errors on the bus -/

/-- C17, as the code has it: an error of the RTSP sink, whatever its text, makes
`message_error_cb` send the user message and enqueue StopPushA (it also clears
`push_rtsp_request`), without raising a restart. An error of the RTMP sink does the same for
PushB only when its text is "Could not open resource for writing."; with any other text it
enqueues no stop command and goes on to `launch_restart_process` with the graph-level reason. -/
theorem C17_push_sink_errors (message : Option String) (data : CustomData) :
    message_error_cb (some "prtsp1-rtspclientsink") message data =
        { data with
          push_rtsp_request := false
          worker_cmd_queue := data.worker_cmd_queue ++ [WORKER_CMD_STOP_PUSH_RTSP]
          trace := data.trace ++ [Event.set_usr_message USR_MESSAGE_PUSH_RTSP_SHUTDOWN] } ∧
      (message = some "Could not open resource for writing." →
        message_error_cb (some "prtmp2-rtmpsink") message data =
          { data with
            worker_cmd_queue := data.worker_cmd_queue ++ [WORKER_CMD_STOP_PUSH_RTMP]
            trace := data.trace ++ [Event.set_usr_message USR_MESSAGE_PUSH_RTMP_SHUTDOWN] }) ∧
      (message ≠ some "Could not open resource for writing." →
        message_error_cb (some "prtmp2-rtmpsink") message data =
          (if (launch_restart_process data RESET_REQUEST_PIPELINE).1 then
            set_usr_message USR_MESSAGE_RTSP_SRC_ERR_RESTART
              (launch_restart_process data RESET_REQUEST_PIPELINE).2
          else (launch_restart_process data RESET_REQUEST_PIPELINE).2)) := by
  refine ⟨?_, ?_, ?_⟩
  · simp [message_error_cb, notify_worker_update_pipeline, set_usr_message]
  · intro h
    simp [message_error_cb, h, notify_worker_update_pipeline, set_usr_message]
  · intro h
    simp [message_error_cb, h, message_error_cb_restart]

/-- C17 as amended, at the context in which Display plays: an RTSP sink error with an
arbitrary text and the RTMP sink error "Could not open resource for writing." leave
`reset_request` alone and enqueue the stop command of their branch. -/
theorem C17_witness :
    (message_error_cb (some "prtsp1-rtspclientsink") (some "Could not write to resource.")
        display_playing).worker_cmd_queue = [WORKER_CMD_STOP_PUSH_RTSP] ∧
      (message_error_cb (some "prtsp1-rtspclientsink") (some "Could not write to resource.")
        display_playing).reset_request = display_playing.reset_request ∧
      message_error_cb (some "prtmp2-rtmpsink") (some "Could not open resource for writing.")
          display_playing =
        { display_playing with
          worker_cmd_queue := display_playing.worker_cmd_queue ++ [WORKER_CMD_STOP_PUSH_RTMP]
          trace := display_playing.trace ++
            [Event.set_usr_message USR_MESSAGE_PUSH_RTMP_SHUTDOWN] } :=
  ⟨by decide, by decide,
    (C17_push_sink_errors (some "Could not open resource for writing.") display_playing).2.1
      rfl⟩

/-- C17 as stated fails: the RTMP sink error "Failed to write data" enqueues no StopPushB
command and sends no shutdown message; it raises the graph-level reason and enqueues a
ResetGraph command. -/
theorem C17_counterexample :
    (message_error_cb (some "prtmp2-rtmpsink") (some "Failed to write data")
        display_playing).worker_cmd_queue = [WORKER_CMD_RESET_PIPELINE] ∧
      display_playing.reset_request = RESET_REQUEST_NULL ∧
      (message_error_cb (some "prtmp2-rtmpsink") (some "Failed to write data")
        display_playing).reset_request = RESET_REQUEST_PIPELINE ∧
      Event.set_usr_message USR_MESSAGE_PUSH_RTMP_SHUTDOWN ∉
        (message_error_cb (some "prtmp2-rtmpsink") (some "Failed to write data")
          display_playing).trace := by
  decide

/-- C18, as the code has it: an error of `rtspsrc` is filtered out (the context is left as it
was) only when `pipeline_ref` is 1, Display is in `BRANCH_DISABLE_ING` and the text is
"Unhandled error" or "Could not write to resource."; every other error of `rtspsrc`, in
particular every one that arrives while no branch is Disabling, goes on to
`launch_restart_process` with the graph-level reason. -/
theorem C18_source_error_filter (message : Option String) (data : CustomData) :
    (data.pipeline_ref = 1 → data.display_enabled = BRANCH_DISABLE_ING →
        (message = some "Unhandled error" ∨ message = some "Could not write to resource.") →
        message_error_cb (some "rtspsrc") message data = data) ∧
      (¬(data.pipeline_ref = 1 ∧ data.display_enabled = BRANCH_DISABLE_ING ∧
          (message = some "Unhandled error" ∨ message = some "Could not write to resource.")) →
        message_error_cb (some "rtspsrc") message data =
          (if (launch_restart_process data RESET_REQUEST_PIPELINE).1 then
            set_usr_message USR_MESSAGE_RTSP_SRC_ERR_RESTART
              (launch_restart_process data RESET_REQUEST_PIPELINE).2
          else (launch_restart_process data RESET_REQUEST_PIPELINE).2)) ∧
      (data.display_enabled ≠ BRANCH_DISABLE_ING →
        message_error_cb (some "rtspsrc") message data =
          (if (launch_restart_process data RESET_REQUEST_PIPELINE).1 then
            set_usr_message USR_MESSAGE_RTSP_SRC_ERR_RESTART
              (launch_restart_process data RESET_REQUEST_PIPELINE).2
          else (launch_restart_process data RESET_REQUEST_PIPELINE).2)) := by
  have h2 : ¬(data.pipeline_ref = 1 ∧ data.display_enabled = BRANCH_DISABLE_ING ∧
      (message = some "Unhandled error" ∨ message = some "Could not write to resource.")) →
      message_error_cb (some "rtspsrc") message data =
        (if (launch_restart_process data RESET_REQUEST_PIPELINE).1 then
          set_usr_message USR_MESSAGE_RTSP_SRC_ERR_RESTART
            (launch_restart_process data RESET_REQUEST_PIPELINE).2
        else (launch_restart_process data RESET_REQUEST_PIPELINE).2) := by
    intro h
    simp only [message_error_cb, message_error_cb_restart]
    by_cases h1 : data.pipeline_ref = 1 ∧ data.display_enabled = BRANCH_DISABLE_ING
    · have h3 : ¬(message = some "Unhandled error" ∨
          message = some "Could not write to resource.") := fun hm => h ⟨h1.1, h1.2, hm⟩
      simp [h1, h3]
    · simp [h1]
  refine ⟨?_, h2, ?_⟩
  · intro hr hd hm
    simp [message_error_cb, hr, hd, hm]
  · intro hd
    exact h2 (fun h => hd h.2.1)

/-- C18 as amended, at a context in which `display_stop` of the only branch is under way:
"Unhandled error" from `rtspsrc` is ignored; at the context in which Display plays the same
error raises the graph-level reason. -/
theorem C18_witness :
    message_error_cb (some "rtspsrc") (some "Unhandled error")
        { display_playing with display_enabled := BRANCH_DISABLE_ING } =
      { display_playing with display_enabled := BRANCH_DISABLE_ING } ∧
    (message_error_cb (some "rtspsrc") (some "Unhandled error") display_playing).reset_request =
      RESET_REQUEST_PIPELINE :=
  ⟨(C18_source_error_filter (some "Unhandled error")
      { display_playing with display_enabled := BRANCH_DISABLE_ING }).1 (by decide) (by decide)
      (Or.inl rfl),
    by decide⟩

/-- C18 as stated fails: with PushB in `BRANCH_DISABLE_ING` (a deliberate `push_rtmp_stop`
under way), the `rtspsrc` error "Unhandled error" is not filtered: the graph-level reason
becomes pending and a ResetGraph command is enqueued. The same happens with Display in
`BRANCH_DISABLE_ING` when the error text is another one. -/
theorem C18_counterexample :
    push_rtmp_disabling.push_rtmp_enabled = BRANCH_DISABLE_ING ∧
      push_rtmp_disabling.reset_request = RESET_REQUEST_NULL ∧
      (message_error_cb (some "rtspsrc") (some "Unhandled error")
        push_rtmp_disabling).reset_request = RESET_REQUEST_PIPELINE ∧
      (message_error_cb (some "rtspsrc") (some "Unhandled error")
        push_rtmp_disabling).worker_cmd_queue = [WORKER_CMD_RESET_PIPELINE] ∧
      (message_error_cb (some "rtspsrc") (some "Internal data stream error.")
        { display_playing with display_enabled := BRANCH_DISABLE_ING }).worker_cmd_queue =
          [WORKER_CMD_RESET_PIPELINE] := by
  decide


/-! ## Frame lemmas of the branch routines -/

/-- The routine `display_start` writes no field outside the element graph, the state of Display,
`pipeline_ref` and the trace. -/
@[simp] theorem display_start_frame (g : Framework) (data : CustomData) :
    (display_start g data).2.display_requst = data.display_requst ∧
    (display_start g data).2.push_rtmp_request = data.push_rtmp_request ∧
    (display_start g data).2.push_rtsp_request = data.push_rtsp_request ∧
    (display_start g data).2.worker_cmd_queue = data.worker_cmd_queue ∧
    (display_start g data).2.worker_run = data.worker_run ∧
    (display_start g data).2.reset_request = data.reset_request ∧
    (display_start g data).2.pipeline_restarting = data.pipeline_restarting ∧
    (display_start g data).2.native_window = data.native_window ∧
    (display_start g data).2.rtspsrc_url = data.rtspsrc_url ∧
    (display_start g data).2.push_rtmp_url = data.push_rtmp_url ∧
    (display_start g data).2.push_rtsp_url = data.push_rtsp_url ∧
    (display_start g data).2.recording_enabled = data.recording_enabled ∧
    (display_start g data).2.push_rtmp_enabled = data.push_rtmp_enabled ∧
    (display_start g data).2.push_rtsp_enabled = data.push_rtsp_enabled := by
  simp only [display_start]
  split_ifs <;> simp

/-- The routine `display_stop` writes no field outside the element graph, the state of Display,
`pipeline_ref` and the trace. -/
@[simp] theorem display_stop_frame (data : CustomData) :
    (display_stop data).2.display_requst = data.display_requst ∧
    (display_stop data).2.push_rtmp_request = data.push_rtmp_request ∧
    (display_stop data).2.push_rtsp_request = data.push_rtsp_request ∧
    (display_stop data).2.worker_cmd_queue = data.worker_cmd_queue ∧
    (display_stop data).2.worker_run = data.worker_run ∧
    (display_stop data).2.reset_request = data.reset_request ∧
    (display_stop data).2.pipeline_restarting = data.pipeline_restarting ∧
    (display_stop data).2.native_window = data.native_window ∧
    (display_stop data).2.rtspsrc_url = data.rtspsrc_url ∧
    (display_stop data).2.push_rtmp_url = data.push_rtmp_url ∧
    (display_stop data).2.push_rtsp_url = data.push_rtsp_url ∧
    (display_stop data).2.recording_enabled = data.recording_enabled ∧
    (display_stop data).2.push_rtmp_enabled = data.push_rtmp_enabled ∧
    (display_stop data).2.push_rtsp_enabled = data.push_rtsp_enabled := by
  simp only [display_stop]
  split_ifs <;> simp

/-- The routine `push_rtmp_start` writes no field outside the element graph, the state of PushB,
`pipeline_ref` and the trace. -/
@[simp] theorem push_rtmp_start_frame (g : Framework) (data : CustomData) :
    (push_rtmp_start g data).2.display_requst = data.display_requst ∧
    (push_rtmp_start g data).2.push_rtmp_request = data.push_rtmp_request ∧
    (push_rtmp_start g data).2.push_rtsp_request = data.push_rtsp_request ∧
    (push_rtmp_start g data).2.worker_cmd_queue = data.worker_cmd_queue ∧
    (push_rtmp_start g data).2.worker_run = data.worker_run ∧
    (push_rtmp_start g data).2.reset_request = data.reset_request ∧
    (push_rtmp_start g data).2.pipeline_restarting = data.pipeline_restarting ∧
    (push_rtmp_start g data).2.native_window = data.native_window ∧
    (push_rtmp_start g data).2.rtspsrc_url = data.rtspsrc_url ∧
    (push_rtmp_start g data).2.push_rtmp_url = data.push_rtmp_url ∧
    (push_rtmp_start g data).2.push_rtsp_url = data.push_rtsp_url ∧
    (push_rtmp_start g data).2.recording_enabled = data.recording_enabled ∧
    (push_rtmp_start g data).2.display_enabled = data.display_enabled ∧
    (push_rtmp_start g data).2.push_rtsp_enabled = data.push_rtsp_enabled := by
  simp only [push_rtmp_start]
  split_ifs <;> simp

/-- The routine `push_rtmp_stop` writes no field outside the element graph, the state of PushB,
`pipeline_ref` and the trace. -/
@[simp] theorem push_rtmp_stop_frame (data : CustomData) :
    (push_rtmp_stop data).2.display_requst = data.display_requst ∧
    (push_rtmp_stop data).2.push_rtmp_request = data.push_rtmp_request ∧
    (push_rtmp_stop data).2.push_rtsp_request = data.push_rtsp_request ∧
    (push_rtmp_stop data).2.worker_cmd_queue = data.worker_cmd_queue ∧
    (push_rtmp_stop data).2.worker_run = data.worker_run ∧
    (push_rtmp_stop data).2.reset_request = data.reset_request ∧
    (push_rtmp_stop data).2.pipeline_restarting = data.pipeline_restarting ∧
    (push_rtmp_stop data).2.native_window = data.native_window ∧
    (push_rtmp_stop data).2.rtspsrc_url = data.rtspsrc_url ∧
    (push_rtmp_stop data).2.push_rtmp_url = data.push_rtmp_url ∧
    (push_rtmp_stop data).2.push_rtsp_url = data.push_rtsp_url ∧
    (push_rtmp_stop data).2.recording_enabled = data.recording_enabled ∧
    (push_rtmp_stop data).2.display_enabled = data.display_enabled ∧
    (push_rtmp_stop data).2.push_rtsp_enabled = data.push_rtsp_enabled := by
  simp only [push_rtmp_stop]
  split_ifs <;> simp

/-- The routine `push_rtsp_start` writes no field outside the element graph, the state of PushA,
`pipeline_ref` and the trace. -/
@[simp] theorem push_rtsp_start_frame (g : Framework) (data : CustomData) :
    (push_rtsp_start g data).2.display_requst = data.display_requst ∧
    (push_rtsp_start g data).2.push_rtmp_request = data.push_rtmp_request ∧
    (push_rtsp_start g data).2.push_rtsp_request = data.push_rtsp_request ∧
    (push_rtsp_start g data).2.worker_cmd_queue = data.worker_cmd_queue ∧
    (push_rtsp_start g data).2.worker_run = data.worker_run ∧
    (push_rtsp_start g data).2.reset_request = data.reset_request ∧
    (push_rtsp_start g data).2.pipeline_restarting = data.pipeline_restarting ∧
    (push_rtsp_start g data).2.native_window = data.native_window ∧
    (push_rtsp_start g data).2.rtspsrc_url = data.rtspsrc_url ∧
    (push_rtsp_start g data).2.push_rtmp_url = data.push_rtmp_url ∧
    (push_rtsp_start g data).2.push_rtsp_url = data.push_rtsp_url ∧
    (push_rtsp_start g data).2.recording_enabled = data.recording_enabled ∧
    (push_rtsp_start g data).2.display_enabled = data.display_enabled ∧
    (push_rtsp_start g data).2.push_rtmp_enabled = data.push_rtmp_enabled := by
  simp only [push_rtsp_start]
  split_ifs <;> simp

/-- The routine `push_rtsp_stop` writes no field outside the element graph, the state of PushA,
`pipeline_ref` and the trace. -/
@[simp] theorem push_rtsp_stop_frame (g : Framework) (data : CustomData) :
    (push_rtsp_stop g data).2.display_requst = data.display_requst ∧
    (push_rtsp_stop g data).2.push_rtmp_request = data.push_rtmp_request ∧
    (push_rtsp_stop g data).2.push_rtsp_request = data.push_rtsp_request ∧
    (push_rtsp_stop g data).2.worker_cmd_queue = data.worker_cmd_queue ∧
    (push_rtsp_stop g data).2.worker_run = data.worker_run ∧
    (push_rtsp_stop g data).2.reset_request = data.reset_request ∧
    (push_rtsp_stop g data).2.pipeline_restarting = data.pipeline_restarting ∧
    (push_rtsp_stop g data).2.native_window = data.native_window ∧
    (push_rtsp_stop g data).2.rtspsrc_url = data.rtspsrc_url ∧
    (push_rtsp_stop g data).2.push_rtmp_url = data.push_rtmp_url ∧
    (push_rtsp_stop g data).2.push_rtsp_url = data.push_rtsp_url ∧
    (push_rtsp_stop g data).2.recording_enabled = data.recording_enabled ∧
    (push_rtsp_stop g data).2.display_enabled = data.display_enabled ∧
    (push_rtsp_stop g data).2.push_rtmp_enabled = data.push_rtmp_enabled := by
  simp only [push_rtsp_stop]
  split_ifs <;> simp

/-! ## C11: the ResetGraph handler finishes with the restart cleared -/

/-- A stop routine leaves the desired flags, the queue, the reset mask and the run flag. -/
theorem branch_stop_frame (b : Branch) (g : Framework) (data : CustomData) :
    desired_flags (b.stop g data).2 = desired_flags data ∧
    (b.stop g data).2.worker_cmd_queue = data.worker_cmd_queue ∧
    (b.stop g data).2.worker_run = data.worker_run ∧
    (b.stop g data).2.reset_request = data.reset_request ∧
    (b.stop g data).2.pipeline_restarting = data.pipeline_restarting := by
  cases b <;> simp [Branch.stop, desired_flags]

/-- A run of stop routines leaves the desired flags, the queue, the reset mask and the run
flag. -/
theorem run_stops_frame (g : Framework) (stops : List Branch) :
    ∀ data : CustomData,
      desired_flags (run_stops g stops data) = desired_flags data ∧
      (run_stops g stops data).worker_cmd_queue = data.worker_cmd_queue ∧
      (run_stops g stops data).worker_run = data.worker_run ∧
      (run_stops g stops data).reset_request = data.reset_request ∧
      (run_stops g stops data).pipeline_restarting = data.pipeline_restarting := by
  induction stops with
  | nil => intro data; simp [run_stops]
  | cons b rest ih =>
    intro data
    obtain ⟨h1, h2, h3, h4, h5⟩ := branch_stop_frame b g data
    obtain ⟨k1, k2, k3, k4, k5⟩ := ih (b.stop g data).2
    simp only [run_stops]
    exact ⟨k1.trans h1, k2.trans h2, k3.trans h3, k4.trans h4, k5.trans h5⟩

/-- An arrival enqueues at most one command. -/
theorem arrival_queue_length (a : Arrival) (data : CustomData) :
    (a.apply data).worker_cmd_queue.length ≤ data.worker_cmd_queue.length + 1 := by
  cases a with
  | launch_restart_process r =>
    simp only [Arrival.apply, launch_restart_process, notify_worker_update_pipeline]
    split_ifs <;> simp
  | notify_worker_update_pipeline cmd => simp [Arrival.apply, notify_worker_update_pipeline]
  | message_error_cb src message =>
    simp only [Arrival.apply, message_error_cb, message_error_cb_restart, launch_restart_process,
      notify_worker_update_pipeline, set_usr_message]
    split_ifs <;> simp
  | probe_eos_cb pad event =>
    simp only [Arrival.apply, probe_eos_cb, launch_restart_process,
      notify_worker_update_pipeline, set_usr_message]
    split_ifs <;> simp
  | app_shutdown => simp [Arrival.apply, notify_worker_update_pipeline]

/-- A run of arrivals enqueues at most as many commands as it has arrivals. -/
theorem arrive_queue_length (l : List Arrival) :
    ∀ data : CustomData,
      (arrive l data).worker_cmd_queue.length ≤ data.worker_cmd_queue.length + l.length := by
  induction l with
  | nil => intro data; simp [arrive]
  | cons a rest ih =>
    intro data
    have h1 := arrival_queue_length a data
    have h2 := ih (a.apply data)
    simp only [arrive, List.length_cons]
    omega

/-- A pop that returns a command shortens the queue by one. -/
theorem g_async_queue_timeout_pop_length (data : CustomData) :
    ((g_async_queue_timeout_pop data).1 = none →
      (g_async_queue_timeout_pop data).2 = data) ∧
    ((g_async_queue_timeout_pop data).1 ≠ none →
      (g_async_queue_timeout_pop data).2.worker_cmd_queue.length + 1 =
        data.worker_cmd_queue.length) := by
  simp only [g_async_queue_timeout_pop]
  cases h : data.worker_cmd_queue <;> simp

/-- The loop of the ResetGraph handler is left within the given passes when they outnumber
the commands that are queued or arrive. -/
theorem reset_pipeline_loop_finishes (passes : List Pass) :
    ∀ (reset_request : Nat) (w : Worker),
      w.data.worker_cmd_queue.length + arrivals passes < passes.length →
      (reset_pipeline_loop passes reset_request w).isSome = true := by
  induction passes with
  | nil => intro reset_request w h; simp at h
  | cons p rest ih =>
    intro reset_request w h
    simp only [reset_pipeline_loop]
    split_ifs with h1 h2 h3
    · rfl
    · rfl
    · apply ih
      simp only [arrivals, List.length_cons] at h
      have hq1 := (run_stops_frame p.g
        (reset_request_stops (w.data.reset_request &&& (255 ^^^ reset_request))) w.data).2.1
      have hq2 := arrive_queue_length p.stops (run_stops p.g
        (reset_request_stops (w.data.reset_request &&& (255 ^^^ reset_request))) w.data)
      have hq3 := arrive_queue_length p.wait (arrive p.stops (run_stops p.g
        (reset_request_stops (w.data.reset_request &&& (255 ^^^ reset_request))) w.data))
      have hne : (g_async_queue_timeout_pop (arrive p.wait (arrive p.stops (run_stops p.g
          (reset_request_stops (w.data.reset_request &&& (255 ^^^ reset_request)))
            w.data)))).1 ≠ none := by
        intro hn; rw [hn] at h3; simp at h3
      have hq4 := (g_async_queue_timeout_pop_length _).2 hne
      have hq5 := arrive_queue_length p.after (g_async_queue_timeout_pop (arrive p.wait
        (arrive p.stops (run_stops p.g
          (reset_request_stops (w.data.reset_request &&& (255 ^^^ reset_request)))
            w.data)))).2
      simp only []
      rw [hq1] at hq2
      omega
    · rfl

/-- An arrival never sets `worker_run` again. -/
theorem arrival_worker_run (a : Arrival) (data : CustomData) (h : data.worker_run = false) :
    (a.apply data).worker_run = false := by
  cases a with
  | launch_restart_process r =>
    simp only [Arrival.apply, launch_restart_process, notify_worker_update_pipeline]
    split_ifs <;> simp [h]
  | notify_worker_update_pipeline cmd => simp [Arrival.apply, notify_worker_update_pipeline, h]
  | message_error_cb src message =>
    simp only [Arrival.apply, message_error_cb, message_error_cb_restart, launch_restart_process,
      notify_worker_update_pipeline, set_usr_message]
    split_ifs <;> simp [h]
  | probe_eos_cb pad event =>
    simp only [Arrival.apply, probe_eos_cb, launch_restart_process,
      notify_worker_update_pipeline, set_usr_message]
    split_ifs <;> simp [h]
  | app_shutdown => simp [Arrival.apply, notify_worker_update_pipeline]

/-- A run of arrivals never sets `worker_run` again. -/
theorem arrive_worker_run (l : List Arrival) :
    ∀ data : CustomData, data.worker_run = false → (arrive l data).worker_run = false := by
  induction l with
  | nil => intro data h; exact h
  | cons a rest ih => intro data h; exact ih _ (arrival_worker_run a data h)

/-- With an empty mask the loop of the handler is left in its first pass. -/
theorem reset_pipeline_loop_mask_empty (p : Pass) (rest : List Pass) (reset_request : Nat)
    (w : Worker) (h : w.data.reset_request = 0) :
    reset_pipeline_loop (p :: rest) reset_request w =
      some ({ w with data := arrive p.after w.data }, rest) := by
  simp [reset_pipeline_loop, h]

/-- With `worker_run` false the loop of the handler is left in its first pass. -/
theorem reset_pipeline_loop_worker_stopped (p : Pass) (rest : List Pass) (reset_request : Nat)
    (w : Worker) (h : w.data.worker_run = false) :
    (reset_pipeline_loop (p :: rest) reset_request w).isSome = true := by
  have h1 := (run_stops_frame p.g
    (reset_request_stops (w.data.reset_request &&& (255 ^^^ reset_request))) w.data).2.2.1
  have h2 := arrive_worker_run p.stops _ (h1.trans h)
  simp only [reset_pipeline_loop]
  split_ifs with k1 k2 k3
  · rfl
  · rfl
  · simp [h2] at k2
  · rfl

/-- The ResetGraph handler finishes within the given passes when they outnumber the commands
that are queued or arrive. -/
theorem reset_pipeline_finishes (passes : List Pass) (w : Worker)
    (h : w.data.worker_cmd_queue.length + arrivals passes < passes.length) :
    (reset_pipeline passes w).isSome = true := by
  have h1 := reset_pipeline_loop_finishes passes 0
    { w with data := { w.data with pipeline_restarting := true } } h
  simp only [reset_pipeline]
  split
  · rename_i h3; rw [h3] at h1; cases h1
  · rfl

/-- C11: when the ResetGraph handler finishes, `pipeline_restarting` is false and
`reset_request` is `RESET_REQUEST_NULL`, for every context, every content of the queue and
everything other threads do meanwhile. The handler finishes in its first pass when the mask is
empty or `worker_run` is false, and in general within the given passes as soon as they
outnumber the commands that are queued or arrive. -/
theorem C11_reset_handler_clears_restarting (passes : List Pass) (w : Worker) :
    (∀ r : Worker × List Pass, reset_pipeline passes w = some r →
        r.1.data.pipeline_restarting = false ∧ r.1.data.reset_request = RESET_REQUEST_NULL) ∧
      (w.data.worker_cmd_queue.length + arrivals passes < passes.length →
        (reset_pipeline passes w).isSome = true) ∧
      (passes ≠ [] → w.data.reset_request = RESET_REQUEST_NULL ∨ w.data.worker_run = false →
        (reset_pipeline passes w).isSome = true) := by
  have hsome : ∀ w2 : Worker, (reset_pipeline_loop passes 0 w2).isSome = true →
      (match reset_pipeline_loop passes 0 w2 with
        | none => none
        | some (w3, rest) =>
          some (({ w3 with data := { w3.data with
            pipeline_restarting := false
            reset_request := RESET_REQUEST_NULL } } : Worker), rest)).isSome = true := by
    intro w2 h
    split
    · rename_i h3; rw [h3] at h; cases h
    · rfl
  refine ⟨?_, ?_, ?_⟩
  · intro r h
    simp only [reset_pipeline] at h
    split at h
    · cases h
    · cases h; exact ⟨rfl, rfl⟩
  · intro h
    exact hsome _ (reset_pipeline_loop_finishes passes 0
      { w with data := { w.data with pipeline_restarting := true } } h)
  · intro hp h
    cases passes with
    | nil => exact absurd rfl hp
    | cons p rest =>
      apply hsome
      cases h with
      | inl hm =>
        rw [reset_pipeline_loop_mask_empty p rest 0 _ (by simpa using hm)]
        rfl
      | inr hr => exact reset_pipeline_loop_worker_stopped p rest 0 _ (by simpa using hr)


/-! ## The ResetGraph handler on the branches -/

theorem cleanup_rtspsrc_elements_pipeline (data : CustomData) :
    (cleanup_rtspsrc_elements data).pipeline.isSome = data.pipeline.isSome := by
  simp only [cleanup_rtspsrc_elements]
  split
  · rename_i h1 h2; simp [cleanup_elements_pipeline_isSome, h1]
  · rfl

/-- What a stop routine does to the branch states, `pipeline_ref`, the pipeline and the
upstream: on an Enabled branch it ends Disabled with `pipeline_ref` one less, releasing the
upstream when `pipeline_ref` was 1; on any other state it changes nothing. -/
theorem branch_stop_effect (b : Branch) (g : Framework) (data : CustomData) :
    (b.enabled data ≠ BRANCH_ENABLE → (b.stop g data).2 = data) ∧
    (b.enabled data = BRANCH_ENABLE →
      b.enabled (b.stop g data).2 = BRANCH_DISABLE ∧
      (b.stop g data).2.pipeline_ref = data.pipeline_ref - 1 ∧
      (data.pipeline_ref = 1 → data.pipeline ≠ none → (b.stop g data).2.rtspsrc = none) ∧
      (data.pipeline_ref ≠ 1 → (b.stop g data).2.rtspsrc = data.rtspsrc)) ∧
    (b.stop g data).2.pipeline.isSome = data.pipeline.isSome ∧
    ∀ b2 : Branch, b2 ≠ b → b2.enabled (b.stop g data).2 = b2.enabled data := by
  have hp2 : data.pipeline ≠ none → data.pipeline.isSome = true :=
    fun hp => Option.isSome_iff_ne_none.mpr hp
  refine ⟨?_, ?_, ?_, ?_⟩
  · intro h
    cases b <;> simp only [Branch.enabled] at h <;>
      simp [Branch.stop, display_stop, push_rtmp_stop, push_rtsp_stop, h]
  · intro h
    cases b
    · simp only [Branch.enabled] at h
      simp only [Branch.stop, display_stop, h]
      refine ⟨by simp [Branch.enabled], ?_, ?_, ?_⟩
      · simp; split <;> simp
      · intro hr hp
        simp [hr, cleanup_rtspsrc_elements_rtspsrc, cleanup_display_elements_pipeline, hp2 hp]
      · intro hr; simp [hr]
    · simp only [Branch.enabled] at h
      simp only [Branch.stop, push_rtmp_stop, h]
      refine ⟨by simp [Branch.enabled], ?_, ?_, ?_⟩
      · simp; split <;> simp
      · intro hr hp
        simp [hr, cleanup_rtspsrc_elements_rtspsrc, cleanup_push_rtmp_elements_pipeline, hp2 hp]
      · intro hr; simp [hr]
    · simp only [Branch.enabled] at h
      simp only [Branch.stop, push_rtsp_stop, h]
      cases hs : g.g_cond_wait_until
      all_goals
        refine ⟨by simp [Branch.enabled], ?_, ?_, ?_⟩
        · simp; split <;> simp
        · intro hr hp
          simp [hr, cleanup_rtspsrc_elements_rtspsrc, cleanup_push_rtsp_elements_pipeline,
            hp2 hp]
        · intro hr; simp [hr]
  · cases b
    · simp only [Branch.stop, display_stop]
      split_ifs <;> simp [cleanup_rtspsrc_elements_pipeline, cleanup_display_elements_pipeline]
    · simp only [Branch.stop, push_rtmp_stop]
      split_ifs <;> simp [cleanup_rtspsrc_elements_pipeline, cleanup_push_rtmp_elements_pipeline]
    · simp only [Branch.stop, push_rtsp_stop]
      split_ifs <;> simp [cleanup_rtspsrc_elements_pipeline, cleanup_push_rtsp_elements_pipeline]
  · intro b2 hb
    cases b <;> cases b2 <;> simp [Branch.enabled, Branch.stop] at hb ⊢

/-- An arrival other than an error of the RTSP sink leaves the desired flags. -/
theorem arrival_desired_flags (a : Arrival) (data : CustomData)
    (h : ∀ message, a ≠ Arrival.message_error_cb (some "prtsp1-rtspclientsink") message) :
    desired_flags (a.apply data) = desired_flags data := by
  cases a with
  | launch_restart_process r =>
    simp only [Arrival.apply, launch_restart_process, notify_worker_update_pipeline,
      desired_flags]
    split_ifs <;> simp
  | notify_worker_update_pipeline cmd =>
    simp [Arrival.apply, notify_worker_update_pipeline, desired_flags]
  | message_error_cb src message =>
    have hs : src ≠ some "prtsp1-rtspclientsink" := by
      intro hsrc; exact h message (by rw [hsrc])
    simp only [Arrival.apply, message_error_cb, message_error_cb_restart, launch_restart_process,
      notify_worker_update_pipeline, set_usr_message, desired_flags, hs]
    split_ifs <;> first | contradiction | simp
  | probe_eos_cb pad event =>
    simp only [Arrival.apply, probe_eos_cb, launch_restart_process,
      notify_worker_update_pipeline, set_usr_message, desired_flags]
    split_ifs <;> simp
  | app_shutdown => simp [Arrival.apply, notify_worker_update_pipeline, desired_flags]

theorem arrive_desired_flags (l : List Arrival) :
    ∀ data : CustomData,
      (∀ a ∈ l, ∀ message,
        a ≠ Arrival.message_error_cb (some "prtsp1-rtspclientsink") message) →
      desired_flags (arrive l data) = desired_flags data := by
  induction l with
  | nil => intro data _; rfl
  | cons a rest ih =>
    intro data h
    simp only [arrive]
    rw [ih (a.apply data) (fun b hb => h b (List.mem_cons_of_mem a hb))]
    exact arrival_desired_flags a data (h a (List.mem_cons_self a rest))

theorem g_async_queue_timeout_pop_desired_flags (data : CustomData) :
    desired_flags (g_async_queue_timeout_pop data).2 = desired_flags data := by
  simp only [g_async_queue_timeout_pop]
  split <;> rfl

/-- The loop of the ResetGraph handler writes no desired flag. -/
theorem reset_pipeline_loop_desired_flags (passes : List Pass) :
    ∀ (reset_request : Nat) (w : Worker) (r : Worker × List Pass),
      (∀ p ∈ passes, p.no_sink_error) →
      reset_pipeline_loop passes reset_request w = some r →
      desired_flags r.1.data = desired_flags w.data := by
  induction passes with
  | nil => intro reset_request w r _ h; simp [reset_pipeline_loop] at h
  | cons p rest ih =>
    intro reset_request w r hq h
    have hp := hq p (List.mem_cons_self p rest)
    have h1 : ∀ d, desired_flags (arrive p.stops d) = desired_flags d := fun d =>
      arrive_desired_flags p.stops d (fun a ha => hp a (by simp [ha]))
    have h2 : ∀ d, desired_flags (arrive p.wait d) = desired_flags d := fun d =>
      arrive_desired_flags p.wait d (fun a ha => hp a (by simp [ha]))
    have h3 : ∀ d, desired_flags (arrive p.after d) = desired_flags d := fun d =>
      arrive_desired_flags p.after d (fun a ha => hp a (by simp [ha]))
    have h4 := (run_stops_frame p.g
      (reset_request_stops (w.data.reset_request &&& (255 ^^^ reset_request))) w.data).1
    simp only [reset_pipeline_loop] at h
    split_ifs at h
    · cases h; exact h3 _
    · cases h; rw [h3, h1, h4]
    · rw [ih _ _ r (fun q hq2 => hq q (List.mem_cons_of_mem p hq2)) h, h3,
        g_async_queue_timeout_pop_desired_flags, h2, h1, h4]
    · cases h
      show desired_flags (arrive p.after _) = _
      rw [h3, g_async_queue_timeout_pop_desired_flags, h2, h1, h4]

/-- C14: the worker's switch on the index of a dequeued command. StartDisplay / StopDisplay
store true / false in `display_requst`, StartPushA / StopPushA in `push_rtsp_request`,
StartPushB / StopPushB in `push_rtmp_request`, clear `cmd` and change nothing else; the NoOp
index 0 and every index above 7 change nothing at all; the ResetGraph handler writes no desired
flag (the flags after it are those before it, unless meanwhile the bus thread handled an error
of the RTSP sink), and it finishes within the given passes when they outnumber the commands
that are queued or arrive. The index read from a queued table entry is its position. -/
theorem C14_worker_switch_writes_one_flag (passes : List Pass) (w : Worker) :
    worker_switch passes w WORKER_CMD_START_DISPLAY =
        some ({ w with data := { w.data with display_requst := true }, cmd := none }, passes) ∧
      worker_switch passes w WORKER_CMD_STOP_DISPLAY =
        some ({ w with data := { w.data with display_requst := false }, cmd := none }, passes) ∧
      worker_switch passes w WORKER_CMD_START_PUSH_RTSP =
        some ({ w with data := { w.data with push_rtsp_request := true }, cmd := none },
          passes) ∧
      worker_switch passes w WORKER_CMD_STOP_PUSH_RTSP =
        some ({ w with data := { w.data with push_rtsp_request := false }, cmd := none },
          passes) ∧
      worker_switch passes w WORKER_CMD_START_PUSH_RTMP =
        some ({ w with data := { w.data with push_rtmp_request := true }, cmd := none },
          passes) ∧
      worker_switch passes w WORKER_CMD_STOP_PUSH_RTMP =
        some ({ w with data := { w.data with push_rtmp_request := false }, cmd := none },
          passes) ∧
      (∀ index : Nat, index = WORKER_CMD ∨ WORKER_CMD_RESET_PIPELINE < index →
        worker_switch passes w index = some (w, passes)) ∧
      (∀ r : Worker × List Pass, (∀ p ∈ passes, p.no_sink_error) →
        worker_switch passes w WORKER_CMD_RESET_PIPELINE = some r →
        desired_flags r.1.data = desired_flags w.data) ∧
      (w.data.worker_cmd_queue.length + arrivals passes < passes.length →
        (worker_switch passes w WORKER_CMD_RESET_PIPELINE).isSome = true) ∧
      ∀ cmd : Nat, cmd < 8 → cmd_index cmd = cmd := by
  refine ⟨rfl, rfl, rfl, rfl, rfl, rfl, ?_, ?_, reset_pipeline_finishes passes w, ?_⟩
  · intro index h
    have h1 : index ≠ 1 ∧ index ≠ 2 ∧ index ≠ 3 ∧ index ≠ 4 ∧ index ≠ 5 ∧ index ≠ 6 ∧
        index ≠ 7 := by
      simp only [WORKER_CMD, WORKER_CMD_RESET_PIPELINE] at h
      omega
    obtain ⟨k1, k2, k3, k4, k5, k6, k7⟩ := h1
    simp [worker_switch, k1, k2, k3, k4, k5, k6, k7]
  · intro r hq h
    have h7 : worker_switch passes w WORKER_CMD_RESET_PIPELINE = reset_pipeline passes w := rfl
    rw [h7] at h
    simp only [reset_pipeline] at h
    split at h
    · cases h
    · rename_i w2 rest2 heq
      cases h
      exact reset_pipeline_loop_desired_flags passes 0
        { w with data := { w.data with pipeline_restarting := true } } (w2, rest2) hq heq
  · intro cmd h
    have : cmd = 0 ∨ cmd = 1 ∨ cmd = 2 ∨ cmd = 3 ∨ cmd = 4 ∨ cmd = 5 ∨ cmd = 6 ∨ cmd = 7 := by
      omega
    rcases this with h | h | h | h | h | h | h | h <;> subst h <;> rfl

/-! ## C15: the reconciliation pass -/

theorem setup_branch_pipeline (g : Framework) (data : CustomData) (hp : data.pipeline ≠ none) :
    (setup_display_elements g data).2.pipeline ≠ none ∧
    (setup_push_rtmp_elements g data).2.pipeline ≠ none ∧
    (setup_push_rtsp_elements g data).2.pipeline ≠ none := by
  obtain ⟨p, hp⟩ := Option.ne_none_iff_exists'.mp hp
  refine ⟨?_, ?_, ?_⟩
  · simp only [setup_display_elements, hp]; split <;> simp
  · simp only [setup_push_rtmp_elements, hp]; split <;> simp
  · simp only [setup_push_rtsp_elements, hp]; split <;> simp

/-- What a start routine does to the branch states, `pipeline_ref` and the pipeline when the
pipeline is there, no restart is in progress, the target is set and the framework calls
succeed: a Disabled branch ends Enabled with `pipeline_ref` one more; on any other state the
call changes nothing. -/
theorem branch_start_effect (b : Branch) (g : Framework) (data : CustomData)
    (hg : g.all_succeed) (hp : data.pipeline ≠ none) (hr : data.pipeline_restarting = false)
    (ht : b.target_configured data = true) :
    (b.enabled data ≠ BRANCH_DISABLE → (b.start g data).2 = data) ∧
    (b.enabled data = BRANCH_DISABLE →
      b.enabled (b.start g data).2 = BRANCH_ENABLE ∧
      (b.start g data).2.pipeline_ref = data.pipeline_ref + 1) ∧
    (b.start g data).2.pipeline ≠ none ∧
    ∀ b2 : Branch, b2 ≠ b → b2.enabled (b.start g data).2 = b2.enabled data := by
  obtain ⟨h1, h2⟩ := upstream_acquired g hg data hp
  obtain ⟨q1, q2, q3⟩ := setup_branch_pipeline g _ h2
  refine ⟨?_, ?_, ?_, ?_⟩
  · intro h
    cases b <;> simp only [Branch.enabled] at h <;>
      simp [Branch.start, display_start, push_rtmp_start, push_rtsp_start, h]
  · intro hd
    cases b
    · have hw : data.native_window ≠ none := by
        simpa [Branch.target_configured, Option.isSome_iff_ne_none] using ht
      have h3 := setup_display_elements_all g hg _ h2
      simp only [Branch.enabled] at hd
      simp only [Branch.start, display_start, hw, hd, hr, h1, h3]
      simp
      split <;> simp [Branch.enabled]
    · have h3 := setup_push_rtmp_elements_all g hg _ h2
      simp only [Branch.enabled] at hd
      simp only [Branch.start, push_rtmp_start, hd, hr, h1, h3]
      simp
      split <;> simp [Branch.enabled]
    · have h3 := setup_push_rtsp_elements_all g hg _ h2
      simp only [Branch.enabled] at hd
      simp only [Branch.start, push_rtsp_start, hd, hr, h1, h3]
      simp
      split <;> simp [Branch.enabled]
  · by_cases hd : b.enabled data = BRANCH_DISABLE
    · cases b
      · have hw : data.native_window ≠ none := by
          simpa [Branch.target_configured, Option.isSome_iff_ne_none] using ht
        have h3 := setup_display_elements_all g hg _ h2
        simp only [Branch.enabled] at hd
        simp only [Branch.start, display_start, hw, hd, hr, h1, h3]
        simpa using q1
      · have h3 := setup_push_rtmp_elements_all g hg _ h2
        simp only [Branch.enabled] at hd
        simp only [Branch.start, push_rtmp_start, hd, hr, h1, h3]
        simpa using q2
      · have h3 := setup_push_rtsp_elements_all g hg _ h2
        simp only [Branch.enabled] at hd
        simp only [Branch.start, push_rtsp_start, hd, hr, h1, h3]
        simpa using q3
    · have hsame : (b.start g data).2 = data := by
        cases b <;> simp only [Branch.enabled] at hd <;>
          simp [Branch.start, display_start, push_rtmp_start, push_rtsp_start, hd]
      rw [hsame]; exact hp
  · intro b2 hb
    cases b <;> cases b2 <;> simp [Branch.enabled, Branch.start] at hb ⊢

/-! ## C15: the reconciliation pass -/

theorem branch_stop_ready (b : Branch) (g : Framework) (data : CustomData) :
    (reconcile_ready data → reconcile_ready (b.stop g data).2) ∧
    desired_flags (b.stop g data).2 = desired_flags data ∧
    (b.stop g data).2.recording_enabled = data.recording_enabled := by
  have hp := (branch_stop_effect b g data).2.2.1
  refine ⟨?_, (branch_stop_frame b g data).1, ?_⟩
  · intro h
    obtain ⟨h1, h2, h3, h4, h5⟩ := h
    refine ⟨?_, ?_, ?_, ?_, ?_⟩
    · rw [← Option.isSome_iff_ne_none, hp, Option.isSome_iff_ne_none]; exact h1
    · cases b <;> simpa [Branch.stop] using h2
    · cases b <;> simpa [Branch.stop] using h3
    · cases b <;> simpa [Branch.stop] using h4
    · cases b <;> simpa [Branch.stop] using h5
  · cases b <;> simp [Branch.stop]

theorem branch_start_ready (b : Branch) (g : Framework) (data : CustomData)
    (hg : g.all_succeed) (h : reconcile_ready data) :
    reconcile_ready (b.start g data).2 ∧
    desired_flags (b.start g data).2 = desired_flags data ∧
    (b.start g data).2.recording_enabled = data.recording_enabled := by
  obtain ⟨h1, h2, h3, h4, h5⟩ := h
  have ht : b.target_configured data = true := by
    cases b <;> simp [Branch.target_configured, Option.isSome_iff_ne_none, h3, h4, h5]
  have hp := (branch_start_effect b g data hg h1 h2 ht).2.2.1
  refine ⟨⟨hp, ?_, ?_, ?_, ?_⟩, ?_, ?_⟩
  · cases b <;> simpa [Branch.start] using h2
  · cases b <;> simpa [Branch.start] using h3
  · cases b <;> simpa [Branch.start] using h4
  · cases b <;> simpa [Branch.start] using h5
  · cases b <;> simp [Branch.start, desired_flags]
  · cases b <;> simp [Branch.start]

/-- One stop step of the reconciliation pass, for any branch. -/
theorem reconcile_stop_step (b : Branch) (g : Framework) (data : CustomData) :
    (reconcile_ready data → reconcile_ready
      (b.reconcile_stop g data)) ∧
    desired_flags (b.reconcile_stop g data) = desired_flags data ∧
    (b.reconcile_stop g data).recording_enabled = data.recording_enabled ∧
    b.enabled (b.reconcile_stop g data) =
        (if b.requested data = false ∧ b.enabled data = BRANCH_ENABLE then BRANCH_DISABLE
          else b.enabled data) ∧
    (b.reconcile_stop g data).pipeline_ref =
        (if b.requested data = false ∧ b.enabled data = BRANCH_ENABLE then
          data.pipeline_ref - 1 else data.pipeline_ref) ∧
    ∀ b2 : Branch, b2 ≠ b →
      b2.enabled (b.reconcile_stop g data) = b2.enabled data := by
  obtain ⟨r1, r2, r3⟩ := branch_stop_ready b g data
  obtain ⟨_, e2, _, e4⟩ := branch_stop_effect b g data
  by_cases hc : b.requested data = false ∧ b.enabled data = BRANCH_ENABLE
  · obtain ⟨e21, e22, _, _⟩ := e2 hc.2
    simp only [Branch.reconcile_stop, hc.1, hc.2, Bool.not_false, beq_self_eq_true,
      Bool.and_self, if_true, and_self]
    exact ⟨r1, r2, r3, e21, e22, e4⟩
  · have hc2 : (!b.requested data && b.enabled data == BRANCH_ENABLE) = false := by
      cases hq : b.requested data
      · have : b.enabled data ≠ BRANCH_ENABLE := fun h => hc ⟨hq, h⟩
        simp [this]
      · simp
    simp [Branch.reconcile_stop, hc2, hc]

/-- One start step of the reconciliation pass, for any branch. -/
theorem reconcile_start_step (b : Branch) (g : Framework) (data : CustomData)
    (hg : g.all_succeed) (h : reconcile_ready data) :
    reconcile_ready
      (b.reconcile_start g data) ∧
    desired_flags (b.reconcile_start g data) = desired_flags data ∧
    (b.reconcile_start g data).recording_enabled = data.recording_enabled ∧
    b.enabled (b.reconcile_start g data) =
        (if b.requested data = true ∧ b.enabled data = BRANCH_DISABLE then BRANCH_ENABLE
          else b.enabled data) ∧
    (b.reconcile_start g data).pipeline_ref =
        (if b.requested data = true ∧ b.enabled data = BRANCH_DISABLE then
          data.pipeline_ref + 1 else data.pipeline_ref) ∧
    ∀ b2 : Branch, b2 ≠ b →
      b2.enabled (b.reconcile_start g data) = b2.enabled data := by
  obtain ⟨r1, r2, r3⟩ := branch_start_ready b g data hg h
  have ht : b.target_configured data = true := by
    obtain ⟨h1, h2, h3, h4, h5⟩ := h
    cases b <;> simp [Branch.target_configured, Option.isSome_iff_ne_none, h3, h4, h5]
  obtain ⟨_, e2, _, e4⟩ := branch_start_effect b g data hg h.1 h.2.1 ht
  by_cases hc : b.requested data = true ∧ b.enabled data = BRANCH_DISABLE
  · obtain ⟨e21, e22⟩ := e2 hc.2
    simp only [Branch.reconcile_start, hc.1, hc.2, beq_self_eq_true, Bool.and_self, if_true,
      and_self]
    exact ⟨r1, r2, r3, e21, e22, e4⟩
  · have hc2 : (b.requested data && b.enabled data == BRANCH_DISABLE) = false := by
      cases hq : b.requested data
      · simp
      · have : b.enabled data ≠ BRANCH_DISABLE := fun h => hc ⟨hq, h⟩
        simp [this]
    simp [Branch.reconcile_start, hc2, hc, h]

theorem desired_flags_eq (a b : CustomData) (h : desired_flags a = desired_flags b) :
    a.display_requst = b.display_requst ∧ a.push_rtmp_request = b.push_rtmp_request ∧
      a.push_rtsp_request = b.push_rtsp_request := by
  simpa [desired_flags, Prod.ext_iff] using h

/-- C15: one reconciliation pass of the worker. On a context whose branches are each Disabled
or Enabled, with the pipeline there, no restart in progress, the surface and both push URLs
set and every framework call succeeding: after the pass each of Display, PushB and PushA is
Enabled when its desired flag is true and Disabled when it is false; and when `pipeline_ref`
counted the Enabled branches before the pass (plus one when recording is enabled), after it
`pipeline_ref` is the number of true desired flags (plus one when recording is enabled). -/
theorem C15_reconcile_reaches_desired_state (g : BranchOp → Framework) (data : CustomData)
    (hg : ∀ op, (g op).all_succeed) (hp : data.pipeline ≠ none)
    (hr : data.pipeline_restarting = false) (hw : data.native_window ≠ none)
    (hum : data.push_rtmp_url ≠ none) (hus : data.push_rtsp_url ≠ none)
    (hd : data.display_enabled = BRANCH_DISABLE ∨ data.display_enabled = BRANCH_ENABLE)
    (hm : data.push_rtmp_enabled = BRANCH_DISABLE ∨ data.push_rtmp_enabled = BRANCH_ENABLE)
    (hs : data.push_rtsp_enabled = BRANCH_DISABLE ∨ data.push_rtsp_enabled = BRANCH_ENABLE) :
    (worker_reconcile g data).display_enabled =
        (if data.display_requst then BRANCH_ENABLE else BRANCH_DISABLE) ∧
      (worker_reconcile g data).push_rtmp_enabled =
        (if data.push_rtmp_request then BRANCH_ENABLE else BRANCH_DISABLE) ∧
      (worker_reconcile g data).push_rtsp_enabled =
        (if data.push_rtsp_request then BRANCH_ENABLE else BRANCH_DISABLE) ∧
      (data.pipeline_ref =
          active data.display_enabled + active data.push_rtmp_enabled +
            active data.push_rtsp_enabled + (if data.recording_enabled then 1 else 0) →
        (worker_reconcile g data).pipeline_ref =
          (if data.display_requst then 1 else 0) + (if data.push_rtmp_request then 1 else 0) +
            (if data.push_rtsp_request then 1 else 0) +
            (if data.recording_enabled then 1 else 0)) := by
  have h0 : reconcile_ready data := ⟨hp, hr, hw, hum, hus⟩
  have hrec : worker_reconcile g data =
      Branch.push_rtsp.reconcile_start (g .push_rtsp_start)
        (Branch.push_rtmp.reconcile_start (g .push_rtmp_start)
          (Branch.display.reconcile_start (g .display_start)
            (Branch.push_rtsp.reconcile_stop (g .push_rtsp_stop)
              (Branch.push_rtmp.reconcile_stop (g .push_rtmp_stop)
                (Branch.display.reconcile_stop (g .display_stop) data))))) := rfl
  rw [hrec]
  obtain ⟨a1, a2, a3, a4, a5, a6⟩ := reconcile_stop_step .display (g .display_stop) data
  have a1 := a1 h0
  have am := a6 .push_rtmp (by decide)
  have as := a6 .push_rtsp (by decide)
  obtain ⟨af1, af2, af3⟩ := desired_flags_eq _ _ a2
  generalize Branch.display.reconcile_stop (g .display_stop) data = d1 at *
  obtain ⟨b1, b2, b3, b4, b5, b6⟩ := reconcile_stop_step .push_rtmp (g .push_rtmp_stop) d1
  have b1 := b1 a1
  have bd := b6 .display (by decide)
  have bs := b6 .push_rtsp (by decide)
  obtain ⟨bf1, bf2, bf3⟩ := desired_flags_eq _ _ b2
  generalize Branch.push_rtmp.reconcile_stop (g .push_rtmp_stop) d1 = d2 at *
  obtain ⟨c1, c2, c3, c4, c5, c6⟩ := reconcile_stop_step .push_rtsp (g .push_rtsp_stop) d2
  have c1 := c1 b1
  have cd := c6 .display (by decide)
  have cm := c6 .push_rtmp (by decide)
  obtain ⟨cf1, cf2, cf3⟩ := desired_flags_eq _ _ c2
  generalize Branch.push_rtsp.reconcile_stop (g .push_rtsp_stop) d2 = d3 at *
  obtain ⟨e1, e2, e3, e4, e5, e6⟩ :=
    reconcile_start_step .display (g .display_start) d3 (hg _) c1
  have em := e6 .push_rtmp (by decide)
  have es := e6 .push_rtsp (by decide)
  obtain ⟨ef1, ef2, ef3⟩ := desired_flags_eq _ _ e2
  generalize Branch.display.reconcile_start (g .display_start) d3 = d4 at *
  obtain ⟨f1, f2, f3, f4, f5, f6⟩ :=
    reconcile_start_step .push_rtmp (g .push_rtmp_start) d4 (hg _) e1
  have fd := f6 .display (by decide)
  have fs := f6 .push_rtsp (by decide)
  obtain ⟨ff1, ff2, ff3⟩ := desired_flags_eq _ _ f2
  generalize Branch.push_rtmp.reconcile_start (g .push_rtmp_start) d4 = d5 at *
  obtain ⟨k1, k2, k3, k4, k5, k6⟩ :=
    reconcile_start_step .push_rtsp (g .push_rtsp_start) d5 (hg _) f1
  have kd := k6 .display (by decide)
  have km := k6 .push_rtmp (by decide)
  generalize Branch.push_rtsp.reconcile_start (g .push_rtsp_start) d5 = d6 at *
  clear a6 b6 c6 e6 f6 k6 a2 b2 c2 e2 f2 k2 a1 b1 c1 e1 f1 k1 h0 hrec hg hp hr hw hum hus
  simp only [Branch.enabled, Branch.requested] at *
  simp only [k3, k4, k5, kd, km, f3, f4, f5, fd, fs, ff1, ff2, ff3, e3, e4, e5, em, es, ef1, ef2,
    ef3, c3, c4, c5, cd, cm, cf1, cf2, cf3, b3, b4, b5, bd, bs, bf1, bf2, bf3, a3, a4, a5, am, as,
    af1, af2, af3]
  clear k3 k4 k5 kd km f3 f4 f5 fd fs ff1 ff2 ff3 e3 e4 e5 em es ef1 ef2 ef3 c3 c4 c5 cd cm cf1
    cf2 cf3 b3 b4 b5 bd bs bf1 bf2 bf3 a3 a4 a5 am as af1 af2 af3
  refine ⟨?_, ?_, ?_, fun href => ?_⟩
  · cases data.display_requst <;> rcases hd with hd | hd <;>
      simp [hd, BRANCH_ENABLE, BRANCH_DISABLE]
  · cases data.push_rtmp_request <;> rcases hm with hm | hm <;>
      simp [hm, BRANCH_ENABLE, BRANCH_DISABLE]
  · cases data.push_rtsp_request <;> rcases hs with hs | hs <;>
      simp [hs, BRANCH_ENABLE, BRANCH_DISABLE]
  · simp only [href]
    clear href
    cases data.display_requst <;> cases data.push_rtmp_request <;>
      cases data.push_rtsp_request <;> cases data.recording_enabled <;>
      rcases hd with hd | hd <;> rcases hm with hm | hm <;> rcases hs with hs | hs <;>
      simp [hd, hm, hs, active, BRANCH_ENABLE, BRANCH_DISABLE]

/-- C15 at the pass that follows a ResetGraph handler: `streaming_reset` is what the handler
leaves after an end-of-stream while the three branches were streaming; every branch is
Disabled there and the three desired flags are still true, and the pass starts the three
branches again. -/
theorem C15_witness :
    all_released streaming_reset ∧
      desired_flags streaming_reset = (true, true, true) ∧
      (worker_reconcile (fun _ => Framework.ok) streaming_reset).display_enabled =
        BRANCH_ENABLE ∧
      (worker_reconcile (fun _ => Framework.ok) streaming_reset).push_rtmp_enabled =
        BRANCH_ENABLE ∧
      (worker_reconcile (fun _ => Framework.ok) streaming_reset).push_rtsp_enabled =
        BRANCH_ENABLE ∧
      (worker_reconcile (fun _ => Framework.ok) streaming_reset).pipeline_ref = 3 :=
  have h := C15_reconcile_reaches_desired_state (fun _ => Framework.ok) streaming_reset
    (fun _ => ⟨fun _ => rfl, rfl, fun _ => rfl, fun _ => rfl⟩) (by decide) (by decide) (by decide) (by decide)
    (by decide) (by decide) (by decide) (by decide)
  ⟨by unfold all_released; decide, by decide, h.1, h.2.1, h.2.2.1, h.2.2.2 (by decide)⟩

/-! ## Desired flags under the callbacks and entry points -/

theorem launch_restart_process_desired_flags (data : CustomData) (reset_request : Nat) :
    desired_flags (launch_restart_process data reset_request).2 = desired_flags data := by
  simp only [launch_restart_process]
  split_ifs <;> simp [desired_flags, notify_worker_update_pipeline]

theorem message_error_cb_restart_desired_flags (data : CustomData) :
    desired_flags (message_error_cb_restart data) = desired_flags data := by
  have h := launch_restart_process_desired_flags data RESET_REQUEST_PIPELINE
  simp only [message_error_cb_restart]
  split_ifs
  · simpa [desired_flags, set_usr_message] using h
  · exact h

theorem message_error_cb_desired_flags (src message : Option String) (data : CustomData) :
    desired_flags (message_error_cb src message data) =
      (data.display_requst, data.push_rtmp_request,
        if src = some "prtsp1-rtspclientsink" then false else data.push_rtsp_request) := by
  have h := message_error_cb_restart_desired_flags data
  simp only [message_error_cb]
  split_ifs <;>
    first
    | contradiction
    | exact h
    | rfl
    | simp_all [desired_flags, notify_worker_update_pipeline, set_usr_message]

theorem probe_eos_cb_desired_flags (pad : Option Nat) (event : GstEventType)
    (data : CustomData) :
    (probe_eos_cb pad event (some data)).2.map desired_flags = some (desired_flags data) := by
  have h := launch_restart_process_desired_flags
    (set_usr_message USR_MESSAGE_FETCH_EOS_RESTART data) RESET_REQUEST_PIPELINE
  simp only [probe_eos_cb]
  split_ifs
  · rfl
  · rfl
  · simpa [desired_flags, set_usr_message] using h

theorem display_update_native_surface_desired_flags (g : Framework) (data : CustomData)
    (native_window : Option Nat) :
    desired_flags (display_update_native_surface g data native_window) = desired_flags data := by
  simp only [display_update_native_surface, desired_flags]
  split_ifs <;> simp

theorem gst_native_push_stream_desired_flags (cmd : Nat) (enable : Bool)
    (stream_url : Option String) (data : CustomData) :
    (gst_native_push_stream cmd enable stream_url (some data)).2.map desired_flags =
      some (desired_flags data) := by
  cases stream_url with
  | none =>
    simp only [gst_native_push_stream]
    split_ifs <;> rfl
  | some url =>
    simp only [gst_native_push_stream]
    split_ifs <;> simp [desired_flags, notify_worker_update_pipeline]

/-! ## Witnesses for the ResetGraph handler and the switch -/

/-- C11 at the worker that has dequeued the ResetGraph command raised by an end-of-stream
while the three branches stream: one pass is enough for the handler to finish, and it leaves
`pipeline_restarting` false and `reset_request` empty. -/
theorem C11_witness :
    streaming_eos.data.reset_request = RESET_REQUEST_PIPELINE ∧
      (reset_pipeline [Pass.quiet] streaming_eos).isSome = true ∧
      ∀ r : Worker × List Pass, reset_pipeline [Pass.quiet] streaming_eos = some r →
        r.1.data.pipeline_restarting = false ∧ r.1.data.reset_request = RESET_REQUEST_NULL :=
  ⟨by decide,
    (C11_reset_handler_clears_restarting [Pass.quiet] streaming_eos).2.1 (by decide),
    (C11_reset_handler_clears_restarting [Pass.quiet] streaming_eos).1⟩

/-- C14 at the worker `streaming_eos`: StopPushB clears `push_rtmp_request` and nothing else,
index 9 changes nothing, and the ResetGraph handler in a quiet pass leaves the three desired
flags true. -/
theorem C14_witness :
    (worker_switch [Pass.quiet] streaming_eos WORKER_CMD_STOP_PUSH_RTMP).map
        (fun r => desired_flags r.1.data) = some (true, false, true) ∧
      worker_switch [Pass.quiet] streaming_eos 9 = some (streaming_eos, [Pass.quiet]) ∧
      (worker_switch [Pass.quiet] streaming_eos WORKER_CMD_RESET_PIPELINE).isSome = true ∧
      ∀ r : Worker × List Pass,
        worker_switch [Pass.quiet] streaming_eos WORKER_CMD_RESET_PIPELINE = some r →
        desired_flags r.1.data = (true, true, true) :=
  ⟨by decide,
    (C14_worker_switch_writes_one_flag [Pass.quiet] streaming_eos).2.2.2.2.2.2.1 9
      (Or.inr (by decide)),
    by decide,
    fun r h =>
      ((C14_worker_switch_writes_one_flag [Pass.quiet] streaming_eos).2.2.2.2.2.2.2.1 r
        (by
          intro p hp a ha
          rw [List.mem_singleton] at hp
          subst hp
          simp [Pass.quiet] at ha)
        h).trans (by decide)⟩

/-! ## C16: who writes the desired flags -/

/-- C16, as the code has it: of the signal-bridge callbacks, `launch_restart_process` and the
host-facing entry points, only `message_error_cb` writes a desired flag, and only for an error
whose source is the RTSP sink "prtsp1-rtspclientsink": it stores false in `push_rtsp_request`
and leaves `display_requst` and `push_rtmp_request`. For every other source `message_error_cb`
leaves the three flags, and so do `message_element_cb`, `message_state_changed_cb`,
`probe_eos_cb`, `launch_restart_process`, `gst_native_play`, `gst_native_stop`,
`gst_native_surface_init`, `gst_native_surface_finalize`, `gst_native_recording`,
`gst_native_set_rtsp_url`, `gst_native_set_rtmp_url` and `gst_native_push_stream`, for every
input. -/
theorem C16_desired_flags_writers (data : CustomData) :
    (∀ src message : Option String,
        desired_flags (message_error_cb src message data) =
          (data.display_requst, data.push_rtmp_request,
            if src = some "prtsp1-rtspclientsink" then false else data.push_rtsp_request)) ∧
      (∀ (structure_name : String) (orig_src : Option String) (orig_is_eos : Bool),
        desired_flags (message_element_cb structure_name orig_src orig_is_eos data).2 =
          desired_flags data) ∧
      (∀ (src_is_pipeline : Bool) (old_state new_state : GstState),
        desired_flags (message_state_changed_cb src_is_pipeline old_state new_state data).2 =
          desired_flags data) ∧
      (∀ (pad : Option Nat) (event : GstEventType),
        (probe_eos_cb pad event (some data)).2.map desired_flags = some (desired_flags data)) ∧
      (∀ reset_request : Nat,
        desired_flags (launch_restart_process data reset_request).2 = desired_flags data) ∧
      (gst_native_play (some data)).2.map desired_flags = some (desired_flags data) ∧
      (gst_native_stop (some data)).map desired_flags = some (desired_flags data) ∧
      (∀ (g : Framework) (new_native_window : Option Nat),
        (gst_native_surface_init g (some data) new_native_window).map desired_flags =
          some (desired_flags data)) ∧
      (∀ g : Framework,
        (gst_native_surface_finalize g (some data)).map desired_flags =
          some (desired_flags data)) ∧
      (∀ (enable : Bool) (dir : Option String),
        (gst_native_recording enable dir (some data)).2.map desired_flags =
          some (desired_flags data)) ∧
      (∀ media_url : Option String,
        desired_flags (gst_native_set_rtsp_url media_url data) = desired_flags data) ∧
      (∀ media_url : Option String,
        desired_flags (gst_native_set_rtmp_url media_url data) = desired_flags data) ∧
      ∀ (cmd : Nat) (enable : Bool) (stream_url : Option String),
        (gst_native_push_stream cmd enable stream_url (some data)).2.map desired_flags =
          some (desired_flags data) := by
  refine ⟨?_, ?_, ?_, ?_, ?_, ?_, ?_, ?_, ?_, ?_, ?_, ?_, ?_⟩
  · intro src message
    exact message_error_cb_desired_flags src message data
  · intro n s e
    simp only [message_element_cb]
    split_ifs <;> rfl
  · intro b o n
    simp only [message_state_changed_cb]
    split_ifs <;> rfl
  · intro pad event
    exact probe_eos_cb_desired_flags pad event data
  · intro r
    exact launch_restart_process_desired_flags data r
  · simp only [gst_native_play]
    split_ifs <;> simp [desired_flags, notify_worker_update_pipeline]
  · simp [gst_native_stop, desired_flags, notify_worker_update_pipeline]
  · intro g nw
    simp only [gst_native_surface_init, Option.map_some',
      display_update_native_surface_desired_flags]
  · intro g
    simp only [gst_native_surface_finalize, Option.map_some',
      display_update_native_surface_desired_flags]
  · intro e d
    rfl
  · intro u
    simp only [gst_native_set_rtsp_url]
    split_ifs <;> rfl
  · intro u
    simp only [gst_native_set_rtmp_url]
    split_ifs <;> rfl
  · intro cmd e u
    exact gst_native_push_stream_desired_flags cmd e u data

/-- C16 as amended, on the context `streaming`: an error of `rtspsrc` leaves the three desired
flags true, and so does `gst_native_stop`. -/
theorem C16_witness :
    desired_flags (message_error_cb (some "rtspsrc") (some "Unhandled error") streaming) =
        (true, true, true) ∧
      (gst_native_stop (some streaming)).map desired_flags = some (true, true, true) :=
  ⟨((C16_desired_flags_writers streaming).1 (some "rtspsrc") (some "Unhandled error")).trans
      (by decide),
    ((C16_desired_flags_writers streaming).2.2.2.2.2.2.1).trans (by decide)⟩

/-- C16 as stated fails: on the context `streaming`, where the worker has set
`push_rtsp_request`, the bus callback `message_error_cb` handling an error of the RTSP sink
stores false in it. -/
theorem C16_counterexample :
    streaming.push_rtsp_request = true ∧
      (message_error_cb (some "prtsp1-rtspclientsink") (some "Could not write to resource.")
        streaming).push_rtsp_request = false ∧
      desired_flags (message_error_cb (some "prtsp1-rtspclientsink")
        (some "Could not write to resource.") streaming) ≠ desired_flags streaming := by
  decide

/-! ## C21, C30: the push entry point -/

theorem substrEq_loop_step (p s : String) (i j stop : String.Pos)
    (h : i.byteIdx < stop.byteIdx) :
    String.substrEq.loop p s i j stop =
      (p.get i == s.get j && String.substrEq.loop p s (i + p.get i) (j + s.get j) stop) := by
  rw [String.substrEq.loop]
  simp [h]

/-- A string that starts with "rtsp" does not start with "rtmp": the two differ in the third
character. -/
theorem rtsp_not_rtmp (url : String) (h : String.isPrefixOf "rtsp" url = true) :
    String.isPrefixOf "rtmp" url = false := by
  simp only [String.isPrefixOf, String.substrEq] at h ⊢
  have e1 : ("rtsp" : String).endPos.byteIdx = 4 := by decide
  have e2 : ("rtmp" : String).endPos.byteIdx = 4 := by decide
  simp only [e1, e2] at h ⊢
  have z : String.Pos.byteIdx 0 = 0 := rfl
  simp only [z, Nat.zero_add] at h ⊢
  rw [substrEq_loop_step _ _ _ _ _ (by decide)] at h ⊢
  have g0 : ("rtsp" : String).get 0 = 'r' := by decide
  have g0' : ("rtmp" : String).get 0 = 'r' := by decide
  rw [g0] at h
  rw [g0']
  simp only [Bool.and_eq_true, decide_eq_true_eq, beq_iff_eq] at h
  obtain ⟨⟨_, hlen⟩, hr, h⟩ := h
  rw [← hr] at h ⊢
  have p1 : (0 : String.Pos) + 'r' = ⟨1⟩ := by decide
  rw [p1] at h ⊢
  rw [substrEq_loop_step _ _ _ _ _ (by decide)] at h ⊢
  have g1 : ("rtsp" : String).get ⟨1⟩ = 't' := by decide
  have g1' : ("rtmp" : String).get ⟨1⟩ = 't' := by decide
  rw [g1] at h
  rw [g1']
  simp only [Bool.and_eq_true, beq_iff_eq] at h
  obtain ⟨ht, h⟩ := h
  rw [← ht] at h ⊢
  have p2 : (⟨1⟩ : String.Pos) + 't' = ⟨2⟩ := by decide
  rw [p2] at h ⊢
  rw [substrEq_loop_step _ _ _ _ _ (by decide)] at h ⊢
  have g2 : ("rtsp" : String).get ⟨2⟩ = 's' := by decide
  have g2' : ("rtmp" : String).get ⟨2⟩ = 'm' := by decide
  rw [g2] at h
  rw [g2']
  simp only [Bool.and_eq_true, beq_iff_eq] at h
  obtain ⟨hs, h⟩ := h
  rw [← hs]
  simp

theorem substrEq_loop_stop (p s : String) (i j stop : String.Pos)
    (h : ¬ i.byteIdx < stop.byteIdx) :
    String.substrEq.loop p s i j stop = true := by
  rw [String.substrEq.loop]
  simp [h]

theorem rtmp_example_has_rtmp : String.isPrefixOf "rtmp" "rtmp://example.org/live" = true := by
  simp only [String.isPrefixOf, String.substrEq]
  have e1 : ("rtmp" : String).endPos.byteIdx = 4 := by decide
  have e2 : ("rtmp://example.org/live" : String).endPos.byteIdx = 23 := by decide
  simp only [e1, e2]
  rw [substrEq_loop_step _ _ _ _ _ (by decide)]
  rw [show ("rtmp" : String).get 0 = 'r' by decide,
    show ("rtmp://example.org/live" : String).get 0 = 'r' by decide,
    show (0 : String.Pos) + 'r' = ⟨1⟩ by decide]
  rw [substrEq_loop_step _ _ _ _ _ (by decide)]
  rw [show ("rtmp" : String).get ⟨1⟩ = 't' by decide,
    show ("rtmp://example.org/live" : String).get ⟨1⟩ = 't' by decide,
    show (⟨1⟩ : String.Pos) + 't' = ⟨2⟩ by decide]
  rw [substrEq_loop_step _ _ _ _ _ (by decide)]
  rw [show ("rtmp" : String).get ⟨2⟩ = 'm' by decide,
    show ("rtmp://example.org/live" : String).get ⟨2⟩ = 'm' by decide,
    show (⟨2⟩ : String.Pos) + 'm' = ⟨3⟩ by decide]
  rw [substrEq_loop_step _ _ _ _ _ (by decide)]
  rw [show ("rtmp" : String).get ⟨3⟩ = 'p' by decide,
    show ("rtmp://example.org/live" : String).get ⟨3⟩ = 'p' by decide,
    show (⟨3⟩ : String.Pos) + 'p' = ⟨4⟩ by decide]
  rw [substrEq_loop_stop _ _ _ _ _ (by decide)]
  decide

theorem rtsp_example_has_rtsp : String.isPrefixOf "rtsp" "rtsp://example.org/live" = true := by
  simp only [String.isPrefixOf, String.substrEq]
  have e1 : ("rtsp" : String).endPos.byteIdx = 4 := by decide
  have e2 : ("rtsp://example.org/live" : String).endPos.byteIdx = 23 := by decide
  simp only [e1, e2]
  rw [substrEq_loop_step _ _ _ _ _ (by decide)]
  rw [show ("rtsp" : String).get 0 = 'r' by decide,
    show ("rtsp://example.org/live" : String).get 0 = 'r' by decide,
    show (0 : String.Pos) + 'r' = ⟨1⟩ by decide]
  rw [substrEq_loop_step _ _ _ _ _ (by decide)]
  rw [show ("rtsp" : String).get ⟨1⟩ = 't' by decide,
    show ("rtsp://example.org/live" : String).get ⟨1⟩ = 't' by decide,
    show (⟨1⟩ : String.Pos) + 't' = ⟨2⟩ by decide]
  rw [substrEq_loop_step _ _ _ _ _ (by decide)]
  rw [show ("rtsp" : String).get ⟨2⟩ = 's' by decide,
    show ("rtsp://example.org/live" : String).get ⟨2⟩ = 's' by decide,
    show (⟨2⟩ : String.Pos) + 's' = ⟨3⟩ by decide]
  rw [substrEq_loop_step _ _ _ _ _ (by decide)]
  rw [show ("rtsp" : String).get ⟨3⟩ = 'p' by decide,
    show ("rtsp://example.org/live" : String).get ⟨3⟩ = 'p' by decide,
    show (⟨3⟩ : String.Pos) + 'p' = ⟨4⟩ by decide]
  rw [substrEq_loop_stop _ _ _ _ _ (by decide)]
  decide

theorem http_example_has_no_rtmp :
    String.isPrefixOf "rtmp" "http://example.org/live" = false := by
  simp only [String.isPrefixOf, String.substrEq]
  rw [substrEq_loop_step _ _ _ _ _ (by decide)]
  rw [show ("rtmp" : String).get 0 = 'r' by decide,
    show ("http://example.org/live" : String).get 0 = 'h' by decide]
  simp

theorem http_example_has_no_rtsp :
    String.isPrefixOf "rtsp" "http://example.org/live" = false := by
  simp only [String.isPrefixOf, String.substrEq]
  rw [substrEq_loop_step _ _ _ _ _ (by decide)]
  rw [show ("rtsp" : String).get 0 = 'r' by decide,
    show ("http://example.org/live" : String).get 0 = 'h' by decide]
  simp

/-- C21: `gst_native_push_stream` with the pipeline and the source URL present. For every URL
that starts with "rtmp" its whole effect is to make `push_rtmp_url` the URL and to enqueue one
command, StartPushB when `enable` is true and StopPushB when it is false; for every URL that
starts with "rtsp" its whole effect is to make `push_rtsp_url` the URL and to enqueue
StartPushA or StopPushA. It returns true in both cases and no other field changes, so the other
branch's URL is as before. -/
theorem C21_push_stream_selects_branch_by_scheme (cmd : Nat) (enable : Bool) (url : String)
    (d : CustomData) (hp : d.pipeline ≠ none) (hu : d.rtspsrc_url ≠ none) :
    (String.isPrefixOf "rtmp" url = true →
        gst_native_push_stream cmd enable (some url) (some d) =
          (true, some { d with
            push_rtmp_url := some url
            worker_cmd_queue := d.worker_cmd_queue ++
              [if enable then WORKER_CMD_START_PUSH_RTMP else WORKER_CMD_STOP_PUSH_RTMP] })) ∧
      (String.isPrefixOf "rtsp" url = true →
        gst_native_push_stream cmd enable (some url) (some d) =
          (true, some { d with
            push_rtsp_url := some url
            worker_cmd_queue := d.worker_cmd_queue ++
              [if enable then WORKER_CMD_START_PUSH_RTSP else WORKER_CMD_STOP_PUSH_RTSP] })) := by
  constructor
  · intro h
    simp only [gst_native_push_stream, hp, hu, h, if_false, if_true]
    by_cases he : d.push_rtmp_url = some url
    · simp only [he, ne_eq, not_true_eq_false, if_false, notify_worker_update_pipeline]
    · simp [he, notify_worker_update_pipeline]
  · intro h
    have h2 := rtsp_not_rtmp url h
    simp only [gst_native_push_stream, hp, hu, h, h2, if_false, if_true, Bool.false_eq_true]
    by_cases he : d.push_rtsp_url = some url
    · simp only [he, ne_eq, not_true_eq_false, if_false, notify_worker_update_pipeline]
    · simp [he, notify_worker_update_pipeline]

/-- C21 at the context with source URL and surface set: an "rtmp://" URL with `enable` stores
the RTMP target and enqueues StartPushB; an "rtsp://" URL without `enable` stores the RTSP
target and enqueues StopPushA; the other URL stays unset. -/
theorem C21_witness :
    gst_native_push_stream 0 true (some "rtmp://example.org/live") (some app_ready) =
        (true, some { app_ready with
          push_rtmp_url := some "rtmp://example.org/live"
          worker_cmd_queue := [WORKER_CMD_START_PUSH_RTMP] }) ∧
      gst_native_push_stream 0 false (some "rtsp://example.org/live") (some app_ready) =
        (true, some { app_ready with
          push_rtsp_url := some "rtsp://example.org/live"
          worker_cmd_queue := [WORKER_CMD_STOP_PUSH_RTSP] }) :=
  ⟨(C21_push_stream_selects_branch_by_scheme 0 true "rtmp://example.org/live" app_ready
      (by decide) (by decide)).1 rtmp_example_has_rtmp,
    (C21_push_stream_selects_branch_by_scheme 0 false "rtsp://example.org/live" app_ready
      (by decide) (by decide)).2 rtsp_example_has_rtsp⟩

/-- C30 fails on the code: for a URL that starts with neither "rtmp" nor "rtsp" the function
assigns nothing to its local `cmd`, and what it hands to `notify_worker_update_pipeline` is the
indeterminate value the local started with. It still returns true and leaves both push URLs. -/
theorem C30_push_stream_unknown_scheme_enqueues_indeterminate_cmd (cmd : Nat) (enable : Bool)
    (url : String) (d : CustomData) (hp : d.pipeline ≠ none) (hu : d.rtspsrc_url ≠ none)
    (h1 : String.isPrefixOf "rtmp" url = false) (h2 : String.isPrefixOf "rtsp" url = false) :
    gst_native_push_stream cmd enable (some url) (some d) =
      (true, some { d with worker_cmd_queue := d.worker_cmd_queue ++ [cmd] }) := by
  simp [gst_native_push_stream, hp, hu, h1, h2, notify_worker_update_pipeline]

/-- C30 at the context with source URL and surface set and the URL "http://example.org/live":
when the local `cmd` starts as 4096 the queued pointer is `&worke_cmd[4096]`, past the table of
eight entries; when it starts as 1 the queued command is StartDisplay, which is not a push
command. -/
theorem C30_witness :
    gst_native_push_stream 4096 true (some "http://example.org/live") (some app_ready) =
        (true, some { app_ready with worker_cmd_queue := [4096] }) ∧
      worke_cmd.get? 4096 = none ∧ worke_cmd.length = 8 ∧
      gst_native_push_stream WORKER_CMD_START_DISPLAY true (some "http://example.org/live")
          (some app_ready) =
        (true, some { app_ready with worker_cmd_queue := [WORKER_CMD_START_DISPLAY] }) :=
  ⟨C30_push_stream_unknown_scheme_enqueues_indeterminate_cmd 4096 true
      "http://example.org/live" app_ready (by decide) (by decide) http_example_has_no_rtmp
      http_example_has_no_rtsp,
    by decide, by decide,
    C30_push_stream_unknown_scheme_enqueues_indeterminate_cmd WORKER_CMD_START_DISPLAY true
      "http://example.org/live" app_ready (by decide) (by decide) http_example_has_no_rtmp
      http_example_has_no_rtsp⟩

/-! ## C28: rebinding the same surface -/

/-- C28: `display_update_native_surface` called with the handle that is already bound, while
Display is requested and Enabled, calls `gst_video_overlay_expose` twice and writes no field of
the context: the state of Display, `pipeline_ref`, `native_window`, the other branches and the
shared upstream are as before, and no start or stop routine runs. -/
theorem C28_same_surface_only_exposes (g : Framework) (data : CustomData) (window : Nat)
    (hreq : data.display_requst = true) (hen : data.display_enabled = BRANCH_ENABLE)
    (hw : data.native_window = some window) :
    display_update_native_surface g data (some window) =
      { data with trace := data.trace ++
        [Event.gst_video_overlay_expose, Event.gst_video_overlay_expose] } := by
  simp [display_update_native_surface, hreq, hen, hw]

/-- C28 on the context `streaming` (surface 7 bound, the three branches Enabled): binding
surface 7 again leaves Display Enabled, `pipeline_ref = 3` and the upstream, and records two
exposes and no store to a state field. -/
theorem C28_witness :
    display_update_native_surface Framework.ok streaming (some 7) =
        { streaming with trace := streaming.trace ++
          [Event.gst_video_overlay_expose, Event.gst_video_overlay_expose] } ∧
      (display_update_native_surface Framework.ok streaming (some 7)).display_enabled =
        BRANCH_ENABLE ∧
      (display_update_native_surface Framework.ok streaming (some 7)).pipeline_ref = 3 ∧
      (display_update_native_surface Framework.ok streaming (some 7)).rtspsrc =
        some "rtspsrc" :=
  ⟨C28_same_surface_only_exposes Framework.ok streaming 7 (by decide) (by decide) (by decide),
    by decide, by decide, by decide⟩

/-! ## C22: the two outcomes of the bounded wait in `push_rtsp_stop` -/

/-- What `display_start` appends to the trace. -/
theorem display_start_trace (g : Framework) (data : CustomData) :
    (display_start g data).2.trace = data.trace ++
      (if (display_start g data).1 then
        [Event.gst_pad_link (display_start g data).2.tee_srcpad_display (display_start g data).2.display_queue_sinkpad,
         Event.display_enabled BRANCH_ENABLE] else []) := by
  simp only [display_start]
  split_ifs <;> first
    | contradiction
    | simp

/-- What `push_rtmp_start` appends to the trace. -/
theorem push_rtmp_start_trace (g : Framework) (data : CustomData) :
    (push_rtmp_start g data).2.trace = data.trace ++
      (if (push_rtmp_start g data).1 then
        [Event.gst_pad_link (push_rtmp_start g data).2.tee_srcpad_push_rtmp (push_rtmp_start g data).2.push_rtmp_queue_sinkpad,
         Event.push_rtmp_enabled BRANCH_ENABLE] else []) := by
  simp only [push_rtmp_start]
  split_ifs <;> first
    | contradiction
    | simp

/-- What `push_rtsp_start` appends to the trace. -/
theorem push_rtsp_start_trace (g : Framework) (data : CustomData) :
    (push_rtsp_start g data).2.trace = data.trace ++
      (if (push_rtsp_start g data).1 then
        [Event.gst_pad_link (push_rtsp_start g data).2.tee_srcpad_push_rtsp (push_rtsp_start g data).2.push_rtsp_queue_sinkpad,
         Event.push_rtsp_enabled BRANCH_ENABLE] else []) := by
  simp only [push_rtsp_start]
  split_ifs <;> first
    | contradiction
    | simp

/-- What `display_stop` appends to the trace. -/
theorem display_stop_trace (data : CustomData) :
    (display_stop data).2.trace = data.trace ++
      (if (display_stop data).1 then
        [Event.display_enabled BRANCH_DISABLE_ING,
         Event.gst_pad_unlink data.tee_srcpad_display data.display_queue_sinkpad,
         Event.display_enabled BRANCH_DISABLE] else []) := by
  simp only [display_stop]
  split_ifs <;> first
    | contradiction
    | simp

/-- What `push_rtmp_stop` appends to the trace. -/
theorem push_rtmp_stop_trace (data : CustomData) :
    (push_rtmp_stop data).2.trace = data.trace ++
      (if (push_rtmp_stop data).1 then
        [Event.push_rtmp_enabled BRANCH_DISABLE_ING,
         Event.gst_pad_unlink data.tee_srcpad_push_rtmp data.push_rtmp_queue_sinkpad,
         Event.push_rtmp_enabled BRANCH_DISABLE] else []) := by
  simp only [push_rtmp_stop]
  split_ifs <;> first
    | contradiction
    | simp

/-- What `push_rtsp_stop` appends to the trace. -/
theorem push_rtsp_stop_trace (g : Framework) (data : CustomData) :
    (push_rtsp_stop g data).2.trace = data.trace ++
      (if (push_rtsp_stop g data).1 then
        [Event.push_rtsp_enabled BRANCH_DISABLE_ING,
         Event.gst_pad_add_probe data.tee_srcpad_push_rtsp] ++
        (if g.g_cond_wait_until then []
          else [Event.gst_pad_unlink data.tee_srcpad_push_rtsp data.push_rtsp_queue_sinkpad]) ++
        [Event.push_rtsp_enabled BRANCH_DISABLE] else []) := by
  by_cases h : data.push_rtsp_enabled = BRANCH_ENABLE
  · simp only [push_rtsp_stop, h]
    cases g.g_cond_wait_until <;> by_cases hr : data.pipeline_ref = 1 <;> simp [hr]
  · simp [push_rtsp_stop, h]

/-- C24, as the code has it: a start routine that succeeds stores `BRANCH_ENABLE` in the state
field of its branch and nothing before it (no routine stores `BRANCH_ENABLE_ING`: the field goes
from Disabled to Enabled in one store); a start routine that fails stores nothing in it (the
field stays Disabled throughout); a stop routine that runs stores `BRANCH_DISABLE_ING` and then
`BRANCH_DISABLE`, and one that is rejected stores nothing. No routine stores into the state
field of another branch. -/
theorem C24_state_field_stores (b : Branch) (g : Framework) (data : CustomData) :
    b.state_writes (b.start g data).2.trace =
        b.state_writes data.trace ++ (if (b.start g data).1 then [BRANCH_ENABLE] else []) ∧
      b.state_writes (b.stop g data).2.trace =
        b.state_writes data.trace ++
          (if (b.stop g data).1 then [BRANCH_DISABLE_ING, BRANCH_DISABLE] else []) ∧
      ∀ b2 : Branch, b2 ≠ b →
        b2.state_writes (b.start g data).2.trace = b2.state_writes data.trace ∧
        b2.state_writes (b.stop g data).2.trace = b2.state_writes data.trace := by
  have h1 := display_start_trace g data
  have h2 := push_rtmp_start_trace g data
  have h3 := push_rtsp_start_trace g data
  have h4 := display_stop_trace data
  have h5 := push_rtmp_stop_trace data
  have h6 := push_rtsp_stop_trace g data
  refine ⟨?_, ?_, ?_⟩
  · cases b
    · simp only [Branch.start, h1]
      split <;> simp [Branch.state_writes, Branch.state_write]
    · simp only [Branch.start, h2]
      split <;> simp [Branch.state_writes, Branch.state_write]
    · simp only [Branch.start, h3]
      split <;> simp [Branch.state_writes, Branch.state_write]
  · cases b
    · simp only [Branch.stop, h4]
      split <;> simp [Branch.state_writes, Branch.state_write]
    · simp only [Branch.stop, h5]
      split <;> simp [Branch.state_writes, Branch.state_write]
    · simp only [Branch.stop, h6]
      split <;> cases g.g_cond_wait_until <;> simp [Branch.state_writes, Branch.state_write]
  · intro b2 hb
    constructor
    · cases b <;> cases b2 <;> first
        | exact absurd rfl hb
        | (simp only [Branch.start, h1, h2, h3]
           split <;> simp [Branch.state_writes, Branch.state_write])
    · cases b <;> cases b2 <;> first
        | exact absurd rfl hb
        | (simp only [Branch.stop, h4, h5, h6]
           split <;> cases g.g_cond_wait_until <;>
             simp [Branch.state_writes, Branch.state_write])

/-- C24 as amended, on a start, a failed start and a stop of PushB: the stores are
`[BRANCH_ENABLE]`, none, and `[BRANCH_DISABLE_ING, BRANCH_DISABLE]`. -/
theorem C24_witness :
    Branch.push_rtmp.state_writes
        (Branch.push_rtmp.start Framework.ok display_playing_push_target).2.trace =
        [BRANCH_ENABLE] ∧
      Branch.push_rtmp.state_writes
        (Branch.push_rtmp.start Framework.no_rtmpsink display_playing_push_target).2.trace =
        [] ∧
      Branch.push_rtmp.state_writes (Branch.push_rtmp.stop Framework.ok streaming).2.trace =
        Branch.push_rtmp.state_writes streaming.trace ++ [BRANCH_DISABLE_ING, BRANCH_DISABLE] :=
  ⟨((C24_state_field_stores .push_rtmp Framework.ok display_playing_push_target).1).trans
      (by decide),
    ((C24_state_field_stores .push_rtmp Framework.no_rtmpsink
      display_playing_push_target).1).trans (by decide),
    ((C24_state_field_stores .push_rtmp Framework.ok streaming).2.1).trans (by decide)⟩

/-- C24 as stated fails: `display_start` that succeeds from the context with source URL and
surface set stores `BRANCH_ENABLE` only; the value `BRANCH_ENABLE_ING` is never stored, so the
field goes from Disabled to Enabled without passing through Enabling. -/
theorem C24_counterexample :
    (display_start Framework.ok app_ready).1 = true ∧
      app_ready.display_enabled = BRANCH_DISABLE ∧
      Branch.display.state_writes (display_start Framework.ok app_ready).2.trace =
        [BRANCH_ENABLE] ∧
      Event.display_enabled BRANCH_ENABLE_ING ∉ (display_start Framework.ok app_ready).2.trace ∧
      Branch.display.state_writes (run_ops sample_ops app_ready_push_target).trace =
        [BRANCH_ENABLE, BRANCH_DISABLE_ING, BRANCH_DISABLE] := by
  decide

/-! ## C25: what a failed construction leaves behind -/

/-- C25 fails on the code. When `setup_elements` cannot create the element at index `k ≥ 1` of
its vector (any of the five vectors of the program, every `k`), it returns FALSE after
`cleanup_elements (pipeline, elements, k - 1)`, which removes the elements `0 .. k - 2` only:
the element at index `k - 1` is still in the pipeline, still holds the reference taken with
`gst_object_ref`, and its slot in the array is not NULL. Only for `k = 0` is nothing left. And
when `setup_rtspsrc_elements` cannot obtain the request pad `i ≥ 1`, its loop
`for (--i; i > 0; i--)` releases the pads `i - 1 .. 1`: pad 0 (handle 1) is still held. -/
theorem C25_failed_setup_leaves_last_element_and_first_pad :
    (∀ vector ∈ element_vectors, ∀ k ∈ List.range vector.length, 0 < k →
        setup_elements (Framework.without (element_name vector k)) empty_pipeline
            (g_malloc0_elements (vector_count vector)) vector =
          (false,
            { children := [element_name vector (k - 1)], refs := [element_name vector (k - 1)],
              request_pads := [] },
            (g_malloc0_elements (vector_count vector)).set (k - 1)
              (some (element_name vector (k - 1))))) ∧
      (∀ vector ∈ element_vectors,
        setup_elements (Framework.without (element_name vector 0)) empty_pipeline
            (g_malloc0_elements (vector_count vector)) vector =
          (false, empty_pipeline, g_malloc0_elements (vector_count vector))) ∧
      (∀ i ∈ [1, 2, 3],
        (setup_rtspsrc_elements (Framework.request_pads i) app_ready).1 = false ∧
        (setup_rtspsrc_elements (Framework.request_pads i) app_ready).2.pipeline =
          some { children := [], refs := [], request_pads := [1] }) ∧
      (setup_rtspsrc_elements (Framework.request_pads 0) app_ready).2.pipeline =
        some empty_pipeline := by
  decide

/-! ## The worker's loop: frames -/

/-- The index read from a queued command is the queued table position. -/
theorem cmd_index_eq (cmd : Nat) : cmd_index cmd = cmd := by
  by_cases h : cmd < 8
  · interval_cases cmd <;> rfl
  · have h2 : worke_cmd[cmd]? = none :=
      List.getElem?_eq_none (by simp [worke_cmd]; omega)
    simp [cmd_index, h2]

/-- What a start routine leaves alone, for any branch. -/
theorem branch_start_frame (b : Branch) (g : Framework) (data : CustomData) :
    desired_flags (b.start g data).2 = desired_flags data ∧
    (b.start g data).2.worker_cmd_queue = data.worker_cmd_queue ∧
    (b.start g data).2.worker_run = data.worker_run ∧
    (b.start g data).2.reset_request = data.reset_request ∧
    (b.start g data).2.pipeline_restarting = data.pipeline_restarting := by
  cases b <;> simp [Branch.start, desired_flags]

/-- What one line of the reconciliation pass leaves alone. -/
theorem branch_reconcile_frame (b : Branch) (g : Framework) (data : CustomData) :
    (desired_flags (b.reconcile_stop g data) = desired_flags data ∧
      (b.reconcile_stop g data).worker_cmd_queue = data.worker_cmd_queue ∧
      (b.reconcile_stop g data).worker_run = data.worker_run ∧
      (b.reconcile_stop g data).reset_request = data.reset_request ∧
      (b.reconcile_stop g data).pipeline_restarting = data.pipeline_restarting) ∧
    (desired_flags (b.reconcile_start g data) = desired_flags data ∧
      (b.reconcile_start g data).worker_cmd_queue = data.worker_cmd_queue ∧
      (b.reconcile_start g data).worker_run = data.worker_run ∧
      (b.reconcile_start g data).reset_request = data.reset_request ∧
      (b.reconcile_start g data).pipeline_restarting = data.pipeline_restarting) := by
  constructor
  · simp only [Branch.reconcile_stop]
    split
    · exact branch_stop_frame b g data
    · exact ⟨rfl, rfl, rfl, rfl, rfl⟩
  · simp only [Branch.reconcile_start]
    split
    · exact branch_start_frame b g data
    · exact ⟨rfl, rfl, rfl, rfl, rfl⟩

/-- The reconciliation pass as its six lines. -/
theorem worker_reconcile_lines (g : BranchOp → Framework) (data : CustomData) :
    worker_reconcile g data =
      Branch.push_rtsp.reconcile_start (g .push_rtsp_start)
        (Branch.push_rtmp.reconcile_start (g .push_rtmp_start)
          (Branch.display.reconcile_start (g .display_start)
            (Branch.push_rtsp.reconcile_stop (g .push_rtsp_stop)
              (Branch.push_rtmp.reconcile_stop (g .push_rtmp_stop)
                (Branch.display.reconcile_stop (g .display_stop) data))))) := rfl

/-- The reconciliation pass writes no desired flag and leaves the queue, `worker_run`,
`reset_request` and `pipeline_restarting`. -/
theorem worker_reconcile_frame (g : BranchOp → Framework) (data : CustomData) :
    desired_flags (worker_reconcile g data) = desired_flags data ∧
    (worker_reconcile g data).worker_cmd_queue = data.worker_cmd_queue ∧
    (worker_reconcile g data).worker_run = data.worker_run ∧
    (worker_reconcile g data).reset_request = data.reset_request ∧
    (worker_reconcile g data).pipeline_restarting = data.pipeline_restarting := by
  rw [worker_reconcile_lines]
  obtain ⟨⟨a1, a2, a3, a4, a5⟩, -⟩ :=
    branch_reconcile_frame .display (g .display_stop) data
  generalize Branch.display.reconcile_stop (g .display_stop) data = d1 at *
  obtain ⟨⟨b1, b2, b3, b4, b5⟩, -⟩ := branch_reconcile_frame .push_rtmp (g .push_rtmp_stop) d1
  generalize Branch.push_rtmp.reconcile_stop (g .push_rtmp_stop) d1 = d2 at *
  obtain ⟨⟨c1, c2, c3, c4, c5⟩, -⟩ := branch_reconcile_frame .push_rtsp (g .push_rtsp_stop) d2
  generalize Branch.push_rtsp.reconcile_stop (g .push_rtsp_stop) d2 = d3 at *
  obtain ⟨-, e1, e2, e3, e4, e5⟩ := branch_reconcile_frame .display (g .display_start) d3
  generalize Branch.display.reconcile_start (g .display_start) d3 = d4 at *
  obtain ⟨-, f1, f2, f3, f4, f5⟩ := branch_reconcile_frame .push_rtmp (g .push_rtmp_start) d4
  generalize Branch.push_rtmp.reconcile_start (g .push_rtmp_start) d4 = d5 at *
  obtain ⟨-, k1, k2, k3, k4, k5⟩ := branch_reconcile_frame .push_rtsp (g .push_rtsp_start) d5
  generalize Branch.push_rtsp.reconcile_start (g .push_rtsp_start) d5 = d6 at *
  exact ⟨by rw [k1, f1, e1, c1, b1, a1], by rw [k2, f2, e2, c2, b2, a2],
    by rw [k3, f3, e3, c3, b3, a3], by rw [k4, f4, e4, c4, b4, a4],
    by rw [k5, f5, e5, c5, b5, a5]⟩

/-! ## The worker's loop: commands in queue order -/

/-- The ResetGraph command translates to no change of the desired flags. -/
theorem spec_translation_reset (flags : Bool × Bool × Bool) :
    spec_translation flags WORKER_CMD_RESET_PIPELINE = flags := rfl

/-- The commands still to be applied, before and after the loop of the ResetGraph handler:
in passes during which no other thread does anything, the handler only takes ResetGraph
commands off the queue for good; the command it ends with is kept in `cmd`. -/
theorem reset_pipeline_loop_pending (passes : List Pass) :
    ∀ (reset_request : Nat) (w : Worker) (r : Worker × List Pass),
      (∀ p ∈ passes, p.silent) →
      w.cmd = some WORKER_CMD_RESET_PIPELINE →
      reset_pipeline_loop passes reset_request w = some r →
      r.1.pending.foldl spec_translation (desired_flags r.1.data) =
          w.data.worker_cmd_queue.foldl spec_translation (desired_flags w.data) ∧
        r.1.data.worker_run = w.data.worker_run ∧
        ∀ p ∈ r.2, p.silent := by
  induction passes with
  | nil => intro reset_request w r _ _ h; simp [reset_pipeline_loop] at h
  | cons p rest ih =>
    intro reset_request w r hq hc h
    obtain ⟨hs, hw, ha⟩ := hq p (List.mem_cons_self p rest)
    have hrest : ∀ q ∈ rest, q.silent := fun q hq2 => hq q (List.mem_cons_of_mem p hq2)
    obtain ⟨f1, f2, f3, -, -⟩ := run_stops_frame p.g
      (reset_request_stops (w.data.reset_request &&& (255 ^^^ reset_request))) w.data
    simp only [reset_pipeline_loop, hs, hw, ha, arrive] at h
    generalize run_stops p.g
      (reset_request_stops (w.data.reset_request &&& (255 ^^^ reset_request))) w.data = d1 at *
    split_ifs at h with k1 k2 k3
    · cases h
      refine ⟨?_, rfl, hrest⟩
      simp [Worker.pending, hc, spec_translation_reset]
    · cases h
      refine ⟨?_, f3, hrest⟩
      simp [Worker.pending, hc, spec_translation_reset, f1, f2]
    · cases hd : d1.worker_cmd_queue with
      | nil => simp [g_async_queue_timeout_pop, hd] at k3
      | cons c q =>
        simp only [g_async_queue_timeout_pop, hd, Option.map_some', Option.some.injEq,
          cmd_index_eq] at k3 h
        have h2 := ih _ _ r hrest (by simp [k3]) h
        rw [← f2, hd, ← f1, List.foldl_cons, k3, spec_translation_reset]
        refine ⟨h2.1, ?_, h2.2.2⟩
        rw [h2.2.1, ← f3]
    · cases h
      cases hd : d1.worker_cmd_queue with
      | nil =>
        refine ⟨?_, ?_, hrest⟩
        · simp [g_async_queue_timeout_pop, hd, Worker.pending, ← f2, ← f1]
        · simp [g_async_queue_timeout_pop, hd, f3]
      | cons c q =>
        refine ⟨?_, ?_, hrest⟩
        · have f1' := f1
          simp only [desired_flags] at f1'
          simp [g_async_queue_timeout_pop, hd, Worker.pending, ← f2, desired_flags, f1']
        · simp [g_async_queue_timeout_pop, hd, f3]

/-- The handler as a whole, on the commands still to be applied. -/
theorem reset_pipeline_pending (passes : List Pass) (w : Worker) (r : Worker × List Pass)
    (hq : ∀ p ∈ passes, p.silent) (hc : w.cmd = some WORKER_CMD_RESET_PIPELINE)
    (h : reset_pipeline passes w = some r) :
    r.1.pending.foldl spec_translation (desired_flags r.1.data) =
        w.data.worker_cmd_queue.foldl spec_translation (desired_flags w.data) ∧
      r.1.data.worker_run = w.data.worker_run ∧
      ∀ p ∈ r.2, p.silent := by
  simp only [reset_pipeline] at h
  split at h
  · cases h
  · rename_i w2 rest2 heq
    cases h
    exact reset_pipeline_loop_pending passes 0
      { w with data := { w.data with pipeline_restarting := true } } (w2, rest2) hq hc heq

/-- The switch on a start or stop command: one desired flag is written, `cmd` is cleared and
no pass of the handler is used. -/
theorem worker_switch_flag_cmd (passes : List Pass) (w : Worker) (cmd : Nat)
    (h1 : 1 ≤ cmd) (h6 : cmd ≤ 6) :
    ∃ d : CustomData,
      worker_switch passes w cmd = some ({ w with data := d, cmd := none }, passes) ∧
      desired_flags d = spec_translation (desired_flags w.data) cmd ∧
      d.worker_cmd_queue = w.data.worker_cmd_queue ∧
      d.worker_run = w.data.worker_run := by
  interval_cases cmd
  · exact ⟨{ w.data with display_requst := true }, rfl, rfl, rfl, rfl⟩
  · exact ⟨{ w.data with display_requst := false }, rfl, rfl, rfl, rfl⟩
  · exact ⟨{ w.data with push_rtsp_request := true }, rfl, rfl, rfl, rfl⟩
  · exact ⟨{ w.data with push_rtsp_request := false }, rfl, rfl, rfl, rfl⟩
  · exact ⟨{ w.data with push_rtmp_request := true }, rfl, rfl, rfl, rfl⟩
  · exact ⟨{ w.data with push_rtmp_request := false }, rfl, rfl, rfl, rfl⟩

/-- The switch on the NoOp index or an index past the table: nothing changes, `cmd` included. -/
theorem worker_switch_default (passes : List Pass) (w : Worker) (cmd : Nat)
    (h : cmd = 0 ∨ 7 < cmd) : worker_switch passes w cmd = some (w, passes) := by
  have h1 : cmd ≠ 1 ∧ cmd ≠ 2 ∧ cmd ≠ 3 ∧ cmd ≠ 4 ∧ cmd ≠ 5 ∧ cmd ≠ 6 ∧ cmd ≠ 7 := by omega
  obtain ⟨k1, k2, k3, k4, k5, k6, k7⟩ := h1
  simp [worker_switch, k1, k2, k3, k4, k5, k6, k7]

/-- A worker that holds no command and finds the queue empty blocks in `g_async_queue_pop`. -/
theorem worker_body_waiting (g : BranchOp → Framework) (passes : List Pass) (w : Worker)
    (hc : w.cmd = none) (hq : w.data.worker_cmd_queue = []) :
    worker_body g passes w = (WorkerStep.waiting w, passes) := by
  simp [worker_body, hc, g_async_queue_timeout_pop, hq]

/-- A worker that holds no command takes the head of the queue and goes on as if it had held
that command. -/
theorem worker_body_pop (g : BranchOp → Framework) (passes : List Pass) (w : Worker)
    (cmd : Nat) (q : List Nat) (hc : w.cmd = none) (hq : w.data.worker_cmd_queue = cmd :: q) :
    worker_body g passes w =
      worker_body g passes
        { w with data := { w.data with worker_cmd_queue := q }, cmd := some cmd } := by
  simp [worker_body, hc, g_async_queue_timeout_pop, hq]

/-- One turn of the loop for a worker that holds a command, with `worker_run` set before and
after the switch. -/
theorem worker_body_holding (g : BranchOp → Framework) (passes rest : List Pass)
    (w w2 : Worker) (cmd : Nat) (hc : w.cmd = some cmd) (hrun : w.data.worker_run = true)
    (hs : worker_switch passes w cmd = some (w2, rest)) (hrun2 : w2.data.worker_run = true) :
    worker_body g passes w =
      (WorkerStep.looping { w2 with data := worker_reconcile g w2.data }, rest) := by
  have hw : ({ w with data := w.data, cmd := some cmd } : Worker) = w := by
    cases w; simp_all
  have hr := (worker_reconcile_frame g w2.data).2.2.1
  simp [worker_body, hc, hw, hrun, cmd_index_eq, hs, hrun2, hr]

/-- One turn of the loop for a worker that holds a command. The last test of `worker_run` is
the one made after the switch, since the reconciliation pass does not write the flag. -/
theorem worker_body_some (g : BranchOp → Framework) (passes : List Pass) (w : Worker)
    (cmd : Nat) (hc : w.cmd = some cmd) :
    worker_body g passes w =
      if !w.data.worker_run then (WorkerStep.returned w, passes)
      else
        match worker_switch passes w cmd with
        | none => (WorkerStep.handling, [])
        | some (w2, rest) =>
          if !w2.data.worker_run then (WorkerStep.returned w2, rest)
          else (WorkerStep.looping { w2 with data := worker_reconcile g w2.data }, rest) := by
  have hw : ({ w with data := w.data, cmd := some cmd } : Worker) = w := by
    cases w; simp_all
  simp only [worker_body, hc, hw, cmd_index_eq]
  split_ifs with k1
  · rfl
  · cases hs : worker_switch passes w cmd with
    | none => rfl
    | some r =>
      obtain ⟨w2, rest⟩ := r
      have hr := (worker_reconcile_frame g w2.data).2.2.1
      simp only [hr]
      cases hrun2 : w2.data.worker_run <;> simp

/-- The commands still to be applied are the same before and after the switch, in passes
during which no other thread does anything. -/
theorem worker_switch_pending (passes : List Pass) (w : Worker) (cmd : Nat)
    (r : Worker × List Pass) (hq : ∀ p ∈ passes, p.silent) (hc : w.cmd = some cmd)
    (h : worker_switch passes w cmd = some r) :
    r.1.pending.foldl spec_translation (desired_flags r.1.data) =
        w.pending.foldl spec_translation (desired_flags w.data) ∧
      ∀ p ∈ r.2, p.silent := by
  by_cases h0 : cmd = 0 ∨ 7 < cmd
  · rw [worker_switch_default passes w cmd h0] at h
    cases h
    exact ⟨rfl, hq⟩
  · by_cases h7 : cmd = 7
    · subst h7
      have h2 : worker_switch passes w 7 = reset_pipeline passes w := rfl
      rw [h2] at h
      obtain ⟨a1, -, a3⟩ := reset_pipeline_pending passes w r hq hc h
      refine ⟨?_, a3⟩
      rw [a1]
      simp [Worker.pending, hc, spec_translation_reset]
    · obtain ⟨d, e1, e2, e3, -⟩ := worker_switch_flag_cmd passes w cmd (by omega) (by omega)
      rw [e1] at h
      cases h
      refine ⟨?_, hq⟩
      simp [Worker.pending, hc, e2, e3]

/-- The commands still to be applied are the same before and after a turn of the loop that
ends at the loop condition, and a turn that ends blocked on the queue has nothing left to
apply; in passes during which no other thread does anything. -/
theorem worker_body_pending (g : BranchOp → Framework) (passes : List Pass) (w : Worker)
    (hq : ∀ p ∈ passes, p.silent) :
    (∀ (w2 : Worker) (rest : List Pass),
        worker_body g passes w = (WorkerStep.looping w2, rest) →
        w2.pending.foldl spec_translation (desired_flags w2.data) =
            w.pending.foldl spec_translation (desired_flags w.data) ∧
          ∀ p ∈ rest, p.silent) ∧
      ∀ (w2 : Worker) (rest : List Pass),
        worker_body g passes w = (WorkerStep.waiting w2, rest) → w2 = w ∧ w.pending = [] := by
  have hold : ∀ (w1 : Worker) (cmd : Nat), w1.cmd = some cmd →
      (∀ (w2 : Worker) (rest : List Pass),
        worker_body g passes w1 = (WorkerStep.looping w2, rest) →
        w2.pending.foldl spec_translation (desired_flags w2.data) =
            w1.pending.foldl spec_translation (desired_flags w1.data) ∧
          ∀ p ∈ rest, p.silent) ∧
      ∀ (w2 : Worker) (rest : List Pass),
        worker_body g passes w1 ≠ (WorkerStep.waiting w2, rest) := by
    intro w1 cmd hc
    rw [worker_body_some g passes w1 cmd hc]
    split_ifs with k1
    · exact ⟨fun _ _ h => (nomatch h), fun _ _ h => (nomatch h)⟩
    · cases hs : worker_switch passes w1 cmd with
      | none => exact ⟨fun _ _ h => (nomatch h), fun _ _ h => (nomatch h)⟩
      | some r =>
        obtain ⟨w3, rest3⟩ := r
        obtain ⟨a1, a2⟩ := worker_switch_pending passes w1 cmd (w3, rest3) hq hc hs
        obtain ⟨b1, b2, -⟩ := worker_reconcile_frame g w3.data
        simp only []
        split_ifs with k2
        · exact ⟨fun _ _ h => (nomatch h), fun _ _ h => (nomatch h)⟩
        · refine ⟨fun w2 rest h => ?_, fun _ _ h => (nomatch h)⟩
          cases h
          refine ⟨?_, a2⟩
          rw [← a1]
          simp only [Worker.pending, b1, b2]
  cases hc : w.cmd with
  | some cmd =>
    obtain ⟨a1, a2⟩ := hold w cmd hc
    exact ⟨a1, fun w2 rest h => absurd h (a2 w2 rest)⟩
  | none =>
    cases hd : w.data.worker_cmd_queue with
    | nil =>
      rw [worker_body_waiting g passes w hc hd]
      refine ⟨fun _ _ h => (nomatch h), fun w2 rest h => ?_⟩
      cases h
      exact ⟨rfl, by simp [Worker.pending, hc, hd]⟩
    | cons cmd q =>
      rw [worker_body_pop g passes w cmd q hc hd]
      obtain ⟨a1, a2⟩ := hold
        { w with data := { w.data with worker_cmd_queue := q }, cmd := some cmd } cmd rfl
      refine ⟨fun w2 rest h => ?_, fun w2 rest h => absurd h (a2 w2 rest)⟩
      obtain ⟨c1, c2⟩ := a1 w2 rest h
      refine ⟨?_, c2⟩
      rw [c1]
      simp [Worker.pending, hc, hd, desired_flags]

/-- The loop of `worker_function` on the commands still to be applied: when it ends blocked on
the queue, in passes during which no other thread does anything, the desired flags are the
translation of those commands, in order. -/
theorem worker_function_pending (gs : List (BranchOp → Framework)) :
    ∀ (passes : List Pass) (w w2 : Worker) (rest : List Pass),
      (∀ p ∈ passes, p.silent) →
      worker_function gs passes w = (WorkerStep.waiting w2, rest) →
      desired_flags w2.data = w.pending.foldl spec_translation (desired_flags w.data) ∧
        w2.pending = [] := by
  induction gs with
  | nil => intro passes w w2 rest _ h; simp [worker_function] at h
  | cons g gs ih =>
    intro passes w w2 rest hq h
    obtain ⟨a1, a2⟩ := worker_body_pending g passes w hq
    simp only [worker_function] at h
    split at h
    · rename_i w3 rest3 heq
      obtain ⟨b1, b2⟩ := a1 w3 rest3 heq
      obtain ⟨c1, c2⟩ := ih rest3 w3 w2 rest b2 h
      exact ⟨c1.trans b1, c2⟩
    · obtain ⟨c1, c2⟩ := a2 w2 rest h
      subst c1
      exact ⟨by simp [c2], c2⟩

/-- A queue of start and stop commands is drained in as many turns of the loop as it has
commands; the turn after that blocks on the empty queue. -/
theorem worker_function_flag_cmds (cmds : List Nat) :
    ∀ (gs : List (BranchOp → Framework)) (passes : List Pass) (w : Worker),
      (∀ cmd ∈ cmds, 1 ≤ cmd ∧ cmd ≤ 6) → gs.length = cmds.length + 1 →
      w.cmd = none → w.data.worker_run = true → w.data.worker_cmd_queue = cmds →
      ∃ w2 : Worker, worker_function gs passes w = (WorkerStep.waiting w2, passes) ∧
        w2.cmd = none ∧ w2.data.worker_cmd_queue = [] ∧
        desired_flags w2.data = cmds.foldl spec_translation (desired_flags w.data) := by
  induction cmds with
  | nil =>
    intro gs passes w _ hlen hc hrun hq
    match gs, hlen with
    | [g], _ =>
      refine ⟨w, ?_, hc, hq, rfl⟩
      simp [worker_function, worker_body_waiting g passes w hc hq]
  | cons cmd q ih =>
    intro gs passes w hcmds hlen hc hrun hq
    match gs, hlen with
    | g :: gs2, hlen2 =>
      obtain ⟨h1, h6⟩ := hcmds cmd (List.mem_cons_self cmd q)
      obtain ⟨d, e1, e2, e3, e4⟩ := worker_switch_flag_cmd passes
        { w with data := { w.data with worker_cmd_queue := q }, cmd := some cmd } cmd h1 h6
      have hb := worker_body_holding g passes passes
        { w with data := { w.data with worker_cmd_queue := q }, cmd := some cmd } _ cmd rfl
        hrun e1 (by rw [e4]; exact hrun)
      obtain ⟨f1, f2, f3, -⟩ := worker_reconcile_frame g d
      obtain ⟨w2, k1, k2, k3, k4⟩ := ih gs2 passes
        { w with data := worker_reconcile g d, cmd := none }
        (fun c hc2 => hcmds c (List.mem_cons_of_mem cmd hc2))
        (by simpa using hlen2) rfl (by rw [f3, e4]; exact hrun) (by rw [f2, e3])
      refine ⟨w2, ?_, k2, k3, ?_⟩
      · simp only [worker_function]
        rw [worker_body_pop g passes w cmd q hc hq, hb]
        exact k1
      · rw [k4]
        show List.foldl spec_translation (desired_flags (worker_reconcile g d)) q =
          List.foldl spec_translation (spec_translation (desired_flags w.data) cmd) q
        rw [f1, e2]
        rfl

/-! ## The ResetGraph handler when its first timed wait ends the loop -/

/-- The handler with a pending reason and `worker_run` set after the stops, when the timed wait
of its first pass returns NULL or a command other than ResetGraph: the loop is left and the two
final stores are made. -/
theorem reset_pipeline_first_pass (p : Pass) (rest : List Pass) (w : Worker)
    (hm : w.data.reset_request ≠ 0) (hrun : (first_pass_stops p w).worker_run = true)
    (hpop : (g_async_queue_timeout_pop (arrive p.wait (first_pass_stops p w))).1 ≠
      some WORKER_CMD_RESET_PIPELINE) :
    reset_pipeline (p :: rest) w =
      some ({ data := { arrive p.after
                (g_async_queue_timeout_pop (arrive p.wait (first_pass_stops p w))).2 with
              pipeline_restarting := false
              reset_request := RESET_REQUEST_NULL }
              cmd := (g_async_queue_timeout_pop (arrive p.wait (first_pass_stops p w))).1
              latency := (reset_latency_calculation p.now w.latency).2 }, rest) := by
  have hpop2 : Option.map cmd_index
      (g_async_queue_timeout_pop (arrive p.wait (first_pass_stops p w))).1 ≠
        some WORKER_CMD_RESET_PIPELINE := by
    cases h : (g_async_queue_timeout_pop (arrive p.wait (first_pass_stops p w))).1 with
    | none => simp
    | some c =>
      rw [h] at hpop
      simpa [cmd_index_eq] using hpop
  simp only [first_pass_stops] at hrun hpop2 ⊢
  simp only [reset_pipeline, reset_pipeline_loop, hm, hrun, hpop2, if_false, Bool.not_true,
    Bool.false_eq_true, ↓reduceIte]

/-! ## The stop routines of a pass and the other branches -/

/-- The ResetGraph handler entered with `reset_request` empty leaves its loop at the first
test; nothing is dequeued and the local `cmd` is not written. -/
theorem reset_pipeline_mask_empty (p : Pass) (rest : List Pass) (w : Worker)
    (hm : w.data.reset_request = RESET_REQUEST_NULL) (ha : p.after = []) :
    reset_pipeline (p :: rest) w =
      some ({ w with data := { w.data with
        pipeline_restarting := false
        reset_request := RESET_REQUEST_NULL } }, rest) := by
  simp only [reset_pipeline]
  rw [reset_pipeline_loop_mask_empty p rest 0 _ (by simpa using hm)]
  simp [ha, arrive]

/-- A turn of the loop on a held ResetGraph command with `reset_request` empty: after the turn
the worker holds the same command. -/
theorem worker_body_reset_mask_empty (g : BranchOp → Framework) (p : Pass) (rest : List Pass)
    (w : Worker) (hc : w.cmd = some WORKER_CMD_RESET_PIPELINE)
    (hrun : w.data.worker_run = true) (hm : w.data.reset_request = RESET_REQUEST_NULL)
    (ha : p.after = []) :
    worker_body g (p :: rest) w =
      (WorkerStep.looping { w with data := worker_reconcile g { w.data with
        pipeline_restarting := false
        reset_request := RESET_REQUEST_NULL } }, rest) := by
  have hs : worker_switch (p :: rest) w WORKER_CMD_RESET_PIPELINE =
      reset_pipeline (p :: rest) w := rfl
  rw [reset_pipeline_mask_empty p rest w hm ha] at hs
  have hrun2 : ({ w with data := { w.data with
      pipeline_restarting := false
      reset_request := RESET_REQUEST_NULL } } : Worker).data.worker_run = true := hrun
  exact worker_body_holding g (p :: rest) rest w
    { w with data := { w.data with
      pipeline_restarting := false
      reset_request := RESET_REQUEST_NULL } } WORKER_CMD_RESET_PIPELINE hc hrun hs hrun2

/-- Turn after turn the worker holds the same ResetGraph command and dequeues nothing. -/
theorem worker_function_reset_mask_empty (gs : List (BranchOp → Framework)) :
    ∀ (passes : List Pass) (w : Worker), (∀ p ∈ passes, p.after = []) →
      gs.length ≤ passes.length → w.cmd = some WORKER_CMD_RESET_PIPELINE →
      w.data.worker_run = true → w.data.reset_request = RESET_REQUEST_NULL →
      ∃ w2 : Worker,
        worker_function gs passes w = (WorkerStep.looping w2, passes.drop gs.length) ∧
        w2.cmd = some WORKER_CMD_RESET_PIPELINE ∧
        w2.data.worker_cmd_queue = w.data.worker_cmd_queue ∧
        w2.data.reset_request = RESET_REQUEST_NULL ∧ w2.data.worker_run = true := by
  induction gs with
  | nil => intro passes w _ _ hc hrun hm; exact ⟨w, rfl, hc, rfl, hm, hrun⟩
  | cons g gs ih =>
    intro passes w ha hlen hc hrun hm
    match passes, hlen with
    | p :: rest, hlen2 =>
      obtain ⟨-, f2, f3, f4, -⟩ := worker_reconcile_frame g
        { w.data with pipeline_restarting := false, reset_request := RESET_REQUEST_NULL }
      obtain ⟨w2, k1, k2, k3, k4, k5⟩ := ih rest
        { w with data := worker_reconcile g { w.data with
          pipeline_restarting := false
          reset_request := RESET_REQUEST_NULL } }
        (fun q hq => ha q (List.mem_cons_of_mem p hq)) (by simpa using hlen2) hc
        (by rw [f3]; exact hrun) (by rw [f4])
      refine ⟨w2, ?_, k2, by rw [k3, f2], k4, k5⟩
      simp only [worker_function]
      rw [worker_body_reset_mask_empty g p rest w hc hrun hm (ha p (List.mem_cons_self p rest))]
      simpa using k1

/-- C29 fails on the code. When the worker handles a ResetGraph command while `reset_request`
is empty (and `worker_run` is set), the handler leaves its loop at `if (!reset_request) break;`
without writing the local `cmd`, and no other statement of the turn writes it: after the turn
the worker holds the same ResetGraph command, whether it dequeued it in this turn or held it
already. The next turn skips `g_async_queue_pop` and handles it again, and so on for any number
of turns: the queue behind it is never read. -/
theorem C29_reset_command_with_empty_mask_is_kept (g : BranchOp → Framework) (p : Pass)
    (rest : List Pass) (w : Worker) (hrun : w.data.worker_run = true)
    (hm : w.data.reset_request = RESET_REQUEST_NULL) (ha : p.after = []) :
    (∀ q : List Nat, w.cmd = none →
        w.data.worker_cmd_queue = WORKER_CMD_RESET_PIPELINE :: q →
        ∃ w2 : Worker, worker_body g (p :: rest) w = (WorkerStep.looping w2, rest) ∧
          w2.cmd = some WORKER_CMD_RESET_PIPELINE ∧ w2.data.worker_cmd_queue = q ∧
          w2.data.reset_request = RESET_REQUEST_NULL ∧ w2.data.worker_run = true) ∧
      (w.cmd = some WORKER_CMD_RESET_PIPELINE →
        ∃ w2 : Worker, worker_body g (p :: rest) w = (WorkerStep.looping w2, rest) ∧
          w2.cmd = some WORKER_CMD_RESET_PIPELINE ∧
          w2.data.worker_cmd_queue = w.data.worker_cmd_queue ∧
          w2.data.reset_request = RESET_REQUEST_NULL ∧ w2.data.worker_run = true) ∧
      (w.cmd = some WORKER_CMD_RESET_PIPELINE →
        ∀ (gs : List (BranchOp → Framework)) (passes : List Pass),
          (∀ p2 ∈ passes, p2.after = []) → gs.length ≤ passes.length →
          ∃ w2 : Worker,
            worker_function gs passes w = (WorkerStep.looping w2, passes.drop gs.length) ∧
            w2.cmd = some WORKER_CMD_RESET_PIPELINE ∧
            w2.data.worker_cmd_queue = w.data.worker_cmd_queue) := by
  refine ⟨?_, ?_, ?_⟩
  · intro q hc hq
    obtain ⟨-, f2, f3, f4, -⟩ := worker_reconcile_frame g
      { w.data with
        worker_cmd_queue := q, pipeline_restarting := false, reset_request := RESET_REQUEST_NULL }
    have hb := worker_body_reset_mask_empty g p rest
      { w with data := { w.data with worker_cmd_queue := q },
               cmd := some WORKER_CMD_RESET_PIPELINE } rfl hrun hm ha
    rw [← worker_body_pop g (p :: rest) w WORKER_CMD_RESET_PIPELINE q hc hq] at hb
    exact ⟨_, hb, rfl, f2, f4, by rw [f3]; exact hrun⟩
  · intro hc
    obtain ⟨-, f2, f3, f4, -⟩ := worker_reconcile_frame g
      { w.data with pipeline_restarting := false, reset_request := RESET_REQUEST_NULL }
    exact ⟨_, worker_body_reset_mask_empty g p rest w hc hrun hm ha, hc, f2, f4,
      by rw [f3]; exact hrun⟩
  · intro hc gs passes hq hlen
    obtain ⟨w2, k1, k2, k3, -, -⟩ :=
      worker_function_reset_mask_empty gs passes w hq hlen hc hrun hm
    exact ⟨w2, k1, k2, k3⟩

/-- C29 on the worker `stop_push_rtsp_applied`, reached from `streaming` by two raises around a
host command (see `reset_left_in_queue`): the turn that dequeues the ResetGraph command ends
with the worker holding it; with StopDisplay queued behind it, four more turns later the worker
still holds it, StopDisplay is still queued and `display_requst` is still true. -/
theorem C29_witness :
    stop_push_rtsp_applied.cmd = none ∧
      stop_push_rtsp_applied.data.worker_cmd_queue = [WORKER_CMD_RESET_PIPELINE] ∧
      stop_push_rtsp_applied.data.reset_request = RESET_REQUEST_NULL ∧
      (∃ w2 : Worker,
        worker_body reconcile_ok [Pass.quiet] stop_push_rtsp_applied =
          (WorkerStep.looping w2, []) ∧
        w2.cmd = some WORKER_CMD_RESET_PIPELINE ∧ w2.data.worker_cmd_queue = []) ∧
      (worker_function (List.replicate 5 reconcile_ok) (List.replicate 5 Pass.quiet)
          { stop_push_rtsp_applied with
            data := notify_worker_update_pipeline stop_push_rtsp_applied.data
              WORKER_CMD_STOP_DISPLAY }).1.worker.map
        (fun w => (w.cmd, w.data.worker_cmd_queue, w.data.display_requst)) =
        some (some WORKER_CMD_RESET_PIPELINE, [WORKER_CMD_STOP_DISPLAY], true) := by
  obtain ⟨w2, h1, h2, h3, -, -⟩ :=
    (C29_reset_command_with_empty_mask_is_kept reconcile_ok Pass.quiet [] stop_push_rtsp_applied
      (by decide) (by decide) rfl).1 [] (by decide) (by decide)
  exact ⟨by decide, by decide, by decide, ⟨w2, h1, h2, h3⟩, by decide⟩

/-! ## A start or stop command dequeued by the handler's timed wait -/

/-- The turn in which the handler's timed wait dequeues a start or stop command, and the turn
after it. -/
theorem worker_body_reset_pops_cmd (g1 g2 : BranchOp → Framework) (p : Pass) (rest : List Pass)
    (w : Worker) (x : Nat) (q : List Nat) (hc : w.cmd = some WORKER_CMD_RESET_PIPELINE)
    (hrun : w.data.worker_run = true) (hm : w.data.reset_request ≠ RESET_REQUEST_NULL)
    (hp : p.silent) (hq : w.data.worker_cmd_queue = x :: q) (h1 : 1 ≤ x) (h6 : x ≤ 6) :
    ∃ w1 w2 : Worker,
      worker_body g1 (p :: rest) w = (WorkerStep.looping w1, rest) ∧
      w1.cmd = some x ∧ w1.data.worker_cmd_queue = q ∧
      desired_flags w1.data = desired_flags w.data ∧
      w1.data.pipeline_restarting = false ∧
      worker_body g2 rest w1 = (WorkerStep.looping w2, rest) ∧
      w2.cmd = none ∧ w2.data.worker_cmd_queue = q ∧
      desired_flags w2.data = spec_translation (desired_flags w.data) x := by
  obtain ⟨hs, hw, ha⟩ := hp
  obtain ⟨f1, f2, f3, -, -⟩ := run_stops_frame p.g
    (reset_request_stops (w.data.reset_request &&& (255 ^^^ 0)))
    { w.data with pipeline_restarting := true }
  have hd : first_pass_stops p w =
      run_stops p.g (reset_request_stops (w.data.reset_request &&& (255 ^^^ 0)))
        { w.data with pipeline_restarting := true } := by
    simp [first_pass_stops, hs, arrive]
  generalize run_stops p.g (reset_request_stops (w.data.reset_request &&& (255 ^^^ 0)))
    { w.data with pipeline_restarting := true } = d1 at *
  simp only [] at f1 f2 f3
  have hpop : g_async_queue_timeout_pop d1 = (some x, { d1 with worker_cmd_queue := q }) := by
    simp [g_async_queue_timeout_pop, f2, hq]
  have hr := reset_pipeline_first_pass p rest w hm (by rw [hd, f3]; exact hrun)
    (by
      rw [hw, hd]
      simp only [arrive, hpop]
      intro h
      have h7 := Option.some.inj h
      simp only [WORKER_CMD_RESET_PIPELINE] at h7
      omega)
  rw [hw, ha, hd] at hr
  simp only [arrive, hpop] at hr
  have hsw : worker_switch (p :: rest) w WORKER_CMD_RESET_PIPELINE =
      reset_pipeline (p :: rest) w := rfl
  rw [hr] at hsw
  have hb1 := worker_body_holding g1 (p :: rest) rest w _ WORKER_CMD_RESET_PIPELINE hc hrun hsw
    (by simp [f3, hrun])
  obtain ⟨a1, a2, a3, -, a5⟩ := worker_reconcile_frame g1
    { d1 with
      worker_cmd_queue := q, pipeline_restarting := false, reset_request := RESET_REQUEST_NULL }
  obtain ⟨d, e1, e2, e3, e4⟩ := worker_switch_flag_cmd rest
    { data := worker_reconcile g1 { d1 with
        worker_cmd_queue := q
        pipeline_restarting := false
        reset_request := RESET_REQUEST_NULL }
      cmd := some x
      latency := (reset_latency_calculation p.now w.latency).2 } x h1 h6
  have hb2 := worker_body_holding g2 rest rest _ _ x rfl (by rw [a3]; simp [f3, hrun]) e1
    (by rw [e4, a3]; simp [f3, hrun])
  obtain ⟨b1, b2, -⟩ := worker_reconcile_frame g2 d
  refine ⟨_, _, hb1, rfl, a2, ?_, a5, hb2, rfl, ?_, ?_⟩
  · rw [a1]
    simpa [desired_flags] using f1
  · show (worker_reconcile g2 d).worker_cmd_queue = q
    rw [b2, e3, a2]
  · show desired_flags (worker_reconcile g2 d) = _
    rw [b1, e2]
    show spec_translation (desired_flags (worker_reconcile g1 _)) x = _
    rw [a1]
    congr 1

/-! ## The ResetGraph handler, branch by branch -/

/-- C26 fails on the code. The handler is entered while `reset_request` is empty (the state
of C29), reads the mask and leaves its loop at `if (!reset_request) break;`. Before its final
stores another thread raises the graph-level reason with
`launch_restart_process (data, RESET_REQUEST_PIPELINE)`, the only reason the callers pass: the
three bits are set and a ResetGraph command is enqueued. The final store then clears
`reset_request`. No stop routine was invoked: apart from the queued command the context is the
one before the handler, every branch has the state it had and nothing was stored into a state
field. The last part delimits the loss: while the mask 0x07 is pending, a further raise of
0x07 changes nothing, so a handler entered with the mask pending loses no reason. -/
theorem C26_reason_raised_before_final_store_is_cleared_unserviced (g : Framework) (now : Int)
    (rest : List Pass) (w : Worker) (hm : w.data.reset_request = RESET_REQUEST_NULL) :
    (∃ w2 : Worker,
      reset_pipeline (Pass.raise_after_wait g now RESET_REQUEST_PIPELINE :: rest) w =
        some (w2, rest) ∧
      launch_restart_process { w.data with pipeline_restarting := true }
          RESET_REQUEST_PIPELINE =
        (true, { w.data with
          pipeline_restarting := true
          reset_request := RESET_REQUEST_PIPELINE
          worker_cmd_queue := w.data.worker_cmd_queue ++ [WORKER_CMD_RESET_PIPELINE] }) ∧
      w2.cmd = w.cmd ∧
      w2.data = { w.data with
        worker_cmd_queue := w.data.worker_cmd_queue ++ [WORKER_CMD_RESET_PIPELINE]
        pipeline_restarting := false
        reset_request := RESET_REQUEST_NULL } ∧
      ∀ b : Branch, b.enabled w2.data = b.enabled w.data ∧
        b.state_writes w2.data.trace = b.state_writes w.data.trace) ∧
      ∀ d : CustomData, d.reset_request = RESET_REQUEST_PIPELINE →
        (Arrival.launch_restart_process RESET_REQUEST_PIPELINE).apply d = d := by
  have hl : launch_restart_process { w.data with pipeline_restarting := true }
      RESET_REQUEST_PIPELINE =
        (true, { w.data with
          pipeline_restarting := true
          reset_request := RESET_REQUEST_PIPELINE
          worker_cmd_queue := w.data.worker_cmd_queue ++ [WORKER_CMD_RESET_PIPELINE] }) := by
    simp only [launch_restart_process, notify_worker_update_pipeline, hm]
    rfl
  have hmod : RESET_REQUEST_PIPELINE % 256 = RESET_REQUEST_PIPELINE := by decide
  refine ⟨⟨{ w with data := { w.data with
      worker_cmd_queue := w.data.worker_cmd_queue ++ [WORKER_CMD_RESET_PIPELINE]
      pipeline_restarting := false
      reset_request := RESET_REQUEST_NULL } }, ?_, hl, rfl, rfl, fun b => ?_⟩, ?_⟩
  · simp only [reset_pipeline]
    rw [reset_pipeline_loop_mask_empty _ rest 0 _ (by simpa using hm)]
    simp only [Pass.raise_after_wait, arrive, Arrival.apply, hmod, hl]
  · cases b <;> exact ⟨rfl, rfl⟩
  · intro d hd
    simp only [Arrival.apply, launch_restart_process, hd]
    rw [if_pos (by decide)]

/-- C26 on the worker `reset_with_empty_mask`: the three branches stream, the host has called
`gst_native_push_stream` with the URL "http://example.org/live" while the local `cmd` started
as 7, and the worker has dequeued that command with `reset_request` empty. An end-of-stream
that reaches `tee_sinkpad` before the handler's final stores sets the three bits and enqueues
a ResetGraph command; after the handler the mask is empty, the three branches are still
Enabled with `pipeline_ref = 3`, and the user message of the end-of-stream is the only thing
recorded. -/
theorem C26_witness :
    gst_native_push_stream 7 true (some "http://example.org/live") (some streaming) =
        (true, some (notify_worker_update_pipeline streaming WORKER_CMD_RESET_PIPELINE)) ∧
      reset_with_empty_mask.cmd = some WORKER_CMD_RESET_PIPELINE ∧
      reset_with_empty_mask.data.reset_request = RESET_REQUEST_NULL ∧
      (∃ w2 : Worker,
        reset_pipeline [Pass.raise_after_wait Framework.ok 5000000 RESET_REQUEST_PIPELINE]
          reset_with_empty_mask = some (w2, []) ∧
        w2.data.reset_request = RESET_REQUEST_NULL ∧
        w2.data.worker_cmd_queue = [WORKER_CMD_RESET_PIPELINE] ∧
        w2.data.display_enabled = BRANCH_ENABLE ∧ w2.data.push_rtmp_enabled = BRANCH_ENABLE ∧
        w2.data.push_rtsp_enabled = BRANCH_ENABLE ∧ w2.data.pipeline_ref = 3) ∧
      (reset_pipeline [Pass.eos_before_final_stores streaming.tee_sinkpad]
          reset_with_empty_mask).map
        (fun r => (r.1.data.reset_request, r.1.data.worker_cmd_queue, r.1.data.display_enabled,
          r.1.data.push_rtmp_enabled, r.1.data.push_rtsp_enabled)) =
        some (RESET_REQUEST_NULL, [WORKER_CMD_RESET_PIPELINE], BRANCH_ENABLE, BRANCH_ENABLE,
          BRANCH_ENABLE) ∧
      (reset_pipeline [Pass.eos_before_final_stores streaming.tee_sinkpad]
          reset_with_empty_mask).map
        (fun r => r.1.data.trace.drop streaming.trace.length) =
        some [Event.set_usr_message USR_MESSAGE_FETCH_EOS_RESTART] := by
  obtain ⟨⟨w2, h1, -, -, h4, -⟩, -⟩ :=
    C26_reason_raised_before_final_store_is_cleared_unserviced Framework.ok 5000000 []
      reset_with_empty_mask (by decide)
  have hp : streaming.pipeline ≠ none := by decide
  have hu : streaming.rtspsrc_url ≠ none := by decide
  refine ⟨?_, by decide, by decide, ⟨w2, h1, ?_, ?_, ?_, ?_, ?_, ?_⟩, by decide, by decide⟩
  · simp [gst_native_push_stream, hp, hu, http_example_has_no_rtmp, http_example_has_no_rtsp]
  all_goals (rw [h4]; first | done | decide)

/-! ## C27: commands behind a command that the switch does not clear -/

/-- A turn of the loop on a held command that its case of the switch leaves in `cmd` (the NoOp
index, an index past the table, or ResetGraph while `reset_request` is empty): the turn ends at
the loop condition with the same command held, the queue and the desired flags as before. -/
theorem worker_body_kept (g : BranchOp → Framework) (p : Pass) (rest : List Pass)
    (w : Worker) (c : Nat) (hc : w.cmd = some c) (hrun : w.data.worker_run = true)
    (hk : c = WORKER_CMD ∨ 7 < c ∨
      (c = WORKER_CMD_RESET_PIPELINE ∧ w.data.reset_request = RESET_REQUEST_NULL))
    (ha : p.after = []) :
    ∃ (w2 : Worker) (rest2 : List Pass),
      worker_body g (p :: rest) w = (WorkerStep.looping w2, rest2) ∧
      rest.length ≤ rest2.length ∧ (∀ q ∈ rest2, q ∈ p :: rest) ∧
      w2.cmd = some c ∧ w2.data.worker_cmd_queue = w.data.worker_cmd_queue ∧
      desired_flags w2.data = desired_flags w.data ∧ w2.data.worker_run = true ∧
      (c = WORKER_CMD_RESET_PIPELINE → w2.data.reset_request = RESET_REQUEST_NULL) := by
  by_cases h7 : c = WORKER_CMD_RESET_PIPELINE ∧ w.data.reset_request = RESET_REQUEST_NULL
  · obtain ⟨h7a, hm⟩ := h7
    subst h7a
    obtain ⟨f1, f2, f3, f4, -⟩ := worker_reconcile_frame g
      { w.data with pipeline_restarting := false, reset_request := RESET_REQUEST_NULL }
    exact ⟨_, rest, worker_body_reset_mask_empty g p rest w hc hrun hm ha, le_refl _,
      fun q hq => List.mem_cons_of_mem p hq, hc, f2, f1, by rw [f3]; exact hrun,
      fun _ => by rw [f4]⟩
  · have hd : c = 0 ∨ 7 < c := by
      rcases hk with hk | hk | hk
      · exact Or.inl hk
      · exact Or.inr hk
      · exact absurd hk h7
    have hne : c ≠ WORKER_CMD_RESET_PIPELINE := by
      simp only [WORKER_CMD_RESET_PIPELINE]
      omega
    obtain ⟨f1, f2, f3, -, -⟩ := worker_reconcile_frame g w.data
    exact ⟨_, p :: rest,
      worker_body_holding g (p :: rest) (p :: rest) w w c hc hrun
        (worker_switch_default (p :: rest) w c hd) hrun,
      by simp, fun q hq => hq, hc, f2, f1, by rw [f3]; exact hrun,
      fun h => absurd h hne⟩

/-- Turn after turn the worker holds the command that the switch does not clear: it never
reads the queue and the desired flags stay as they were. -/
theorem worker_function_kept (gs : List (BranchOp → Framework)) :
    ∀ (passes : List Pass) (w : Worker) (c : Nat), (∀ p ∈ passes, p.after = []) →
      gs.length ≤ passes.length → w.cmd = some c → w.data.worker_run = true →
      (c = WORKER_CMD ∨ 7 < c ∨
        (c = WORKER_CMD_RESET_PIPELINE ∧ w.data.reset_request = RESET_REQUEST_NULL)) →
      ∃ (w2 : Worker) (rest : List Pass),
        worker_function gs passes w = (WorkerStep.looping w2, rest) ∧
        w2.cmd = some c ∧ w2.data.worker_cmd_queue = w.data.worker_cmd_queue ∧
        desired_flags w2.data = desired_flags w.data := by
  induction gs with
  | nil => intro passes w c _ _ hc _ _; exact ⟨w, passes, rfl, hc, rfl, rfl⟩
  | cons g gs ih =>
    intro passes w c ha hlen hc hrun hk
    match passes, hlen with
    | p :: rest, hlen2 =>
      obtain ⟨w1, rest1, k1, k2, k3, k4, k5, k6, k7, k8⟩ :=
        worker_body_kept g p rest w c hc hrun hk (ha p (List.mem_cons_self p rest))
      have hk1 : c = WORKER_CMD ∨ 7 < c ∨
          (c = WORKER_CMD_RESET_PIPELINE ∧ w1.data.reset_request = RESET_REQUEST_NULL) := by
        rcases hk with hk | hk | hk
        · exact Or.inl hk
        · exact Or.inr (Or.inl hk)
        · exact Or.inr (Or.inr ⟨hk.1, k8 hk.1⟩)
      obtain ⟨w2, rest2, m1, m2, m3, m4⟩ := ih rest1 w1 c
        (fun q hq => ha q (k3 q hq))
        (by simp only [List.length_cons] at hlen2; omega) k4 k7 hk1
      refine ⟨w2, rest2, ?_, m2, m3.trans k5, m4.trans k6⟩
      simp only [worker_function]
      rw [k1]
      exact m1

/-- C27 fails on the code. A running worker that holds no command finds at the head of the
queue a command whose case of the switch does not clear the local `cmd`: the NoOp entry
(index 0), an index past the table (both end in `default:`), or ResetGraph while
`reset_request` is empty (the handler leaves its loop at `if (!reset_request) break;`). The
first turn dequeues that command; after any number of turns, one or more, the worker is at its
loop condition still holding it, the commands queued behind it are still in the queue in
their order, none of them was applied and the desired flags are the ones before the first
turn. The worker never comes to block on the empty queue, so the queue is never drained and
the flags never become the left fold of the translation over the queue when a command behind
the head changes a flag. -/
theorem C27_commands_behind_a_kept_command_are_never_applied
    (gs : List (BranchOp → Framework)) (passes : List Pass) (w : Worker) (c : Nat)
    (q : List Nat) (hc : w.cmd = none) (hq : w.data.worker_cmd_queue = c :: q)
    (hrun : w.data.worker_run = true)
    (hk : c = WORKER_CMD ∨ 7 < c ∨
      (c = WORKER_CMD_RESET_PIPELINE ∧ w.data.reset_request = RESET_REQUEST_NULL))
    (ha : ∀ p ∈ passes, p.after = []) (hlen : gs.length ≤ passes.length) (hgs : gs ≠ []) :
    ∃ (w2 : Worker) (rest : List Pass),
      worker_function gs passes w = (WorkerStep.looping w2, rest) ∧
      w2.cmd = some c ∧ w2.data.worker_cmd_queue = q ∧
      desired_flags w2.data = desired_flags w.data ∧
      (q.foldl spec_translation (desired_flags w.data) ≠ desired_flags w.data →
        desired_flags w2.data ≠
          (c :: q).foldl spec_translation (desired_flags w.data)) := by
  match gs, hgs, passes, hlen with
  | g :: gs2, _, p :: rest, hlen2 =>
    obtain ⟨w1, rest1, k1, k2, k3, k4, k5, k6, k7, k8⟩ :=
      worker_body_kept g p rest
        { w with data := { w.data with worker_cmd_queue := q }, cmd := some c } c rfl hrun hk
        (ha p (List.mem_cons_self p rest))
    rw [← worker_body_pop g (p :: rest) w c q hc hq] at k1
    have hk1 : c = WORKER_CMD ∨ 7 < c ∨
        (c = WORKER_CMD_RESET_PIPELINE ∧ w1.data.reset_request = RESET_REQUEST_NULL) := by
      rcases hk with hk | hk | hk
      · exact Or.inl hk
      · exact Or.inr (Or.inl hk)
      · exact Or.inr (Or.inr ⟨hk.1, k8 hk.1⟩)
    obtain ⟨w2, rest2, m1, m2, m3, m4⟩ := worker_function_kept gs2 rest1 w1 c
      (fun x hx => ha x (k3 x hx))
      (by simp only [List.length_cons] at hlen2; omega) k4 k7 hk1
    have hflags : desired_flags w2.data = desired_flags w.data := m4.trans k6
    have hhead : spec_translation (desired_flags w.data) c = desired_flags w.data := by
      have h1 : c ≠ 1 ∧ c ≠ 2 ∧ c ≠ 3 ∧ c ≠ 4 ∧ c ≠ 5 ∧ c ≠ 6 := by
        rcases hk with hk | hk | hk
        · simp only [WORKER_CMD] at hk; omega
        · omega
        · have := hk.1; simp only [WORKER_CMD_RESET_PIPELINE] at this; omega
      obtain ⟨a1, a2, a3, a4, a5, a6⟩ := h1
      simp [spec_translation, a1, a2, a3, a4, a5, a6]
    refine ⟨w2, rest2, ?_, m2, m3.trans k5, hflags, ?_⟩
    · simp only [worker_function]
      rw [k1]
      exact m1
    · intro hne
      rw [hflags, List.foldl_cons, hhead]
      exact fun e => hne e.symm

/-- C27 on two workers. With NoOp queued in front of StartDisplay on the context with both
push targets set, after five turns the worker still holds NoOp, StartDisplay is still queued
and the flags are (false, false, false), while the fold over the queue is
(true, false, false). With ResetGraph queued in front of StopDisplay on `streaming` while
`reset_request` is empty, after five turns the worker still holds ResetGraph, StopDisplay is
still queued and `display_requst` is still true, while the fold clears it. -/
theorem C27_witness :
    (∃ (w2 : Worker) (rest : List Pass),
        worker_function (List.replicate 5 reconcile_ok) (List.replicate 5 Pass.quiet)
          noop_before_start_display = (WorkerStep.looping w2, rest) ∧
        w2.cmd = some WORKER_CMD ∧ w2.data.worker_cmd_queue = [WORKER_CMD_START_DISPLAY] ∧
        desired_flags w2.data = (false, false, false) ∧
        desired_flags w2.data ≠
          [WORKER_CMD, WORKER_CMD_START_DISPLAY].foldl spec_translation
            (desired_flags noop_before_start_display.data)) ∧
      [WORKER_CMD, WORKER_CMD_START_DISPLAY].foldl spec_translation
          (desired_flags noop_before_start_display.data) = (true, false, false) ∧
      (worker_function (List.replicate 5 reconcile_ok) (List.replicate 5 Pass.quiet)
          reset_before_stop_display).1.worker.map
        (fun w => (w.cmd, w.data.worker_cmd_queue, desired_flags w.data)) =
        some (some WORKER_CMD_RESET_PIPELINE, [WORKER_CMD_STOP_DISPLAY], (true, true, true)) ∧
      [WORKER_CMD_RESET_PIPELINE, WORKER_CMD_STOP_DISPLAY].foldl spec_translation
          (desired_flags reset_before_stop_display.data) = (false, true, true) := by
  obtain ⟨w2, rest, h1, h2, h3, h4, h5⟩ :=
    C27_commands_behind_a_kept_command_are_never_applied (List.replicate 5 reconcile_ok)
      (List.replicate 5 Pass.quiet) noop_before_start_display WORKER_CMD
      [WORKER_CMD_START_DISPLAY] rfl rfl (by decide) (Or.inl rfl)
      (fun p hp => by rw [List.eq_of_mem_replicate hp]; rfl) (by decide) (by simp)
  exact ⟨⟨w2, rest, h1, h2, h3, h4.trans (by decide), h5 (by decide)⟩, by decide, by decide,
    by decide⟩

end RtspClient
